import Mathlib

/-!
The media control point of package gupnp.

A shallow embedding of `MediaControl` (file `mediacp.go`) and of the helpers of
package `upnptype` it calls, followed by the properties proved about them.

Conventions of the embedding.

* A Go `map[string]V` is an association list `GoMap V`.  Go leaves the order in
  which `range` visits a map unspecified: the embedding visits the list in list
  order, the properties of one call are stated for every list (hence every
  order), and in a sequence of calls the pseudo-operation `Op.visit` reorders
  the maps at will between two calls.
* A `upnptype.Renderer` / `upnptype.Server` interface value holds a pointer to a
  backend object.  The object is the record `Renderer` / `Server`; its field
  `ptr` stands for the address, so that equality of records is the `==` of Go on
  the interface values.  A nil interface value is `none`.
* A callback slot is `Option Nat`: `none` is the nil func, `some n` a func.
* Everything the manager does to the outside (a call of a hook callback, a call
  of a method of a device) is recorded, in order, in a trace of `Ev`.
* A run that hits a Go runtime panic (call of a nil func) is `none`.
-/

namespace Gupnp

/-! ## Go maps -/

/-- A Go map with string keys, as an association list. -/
abbrev GoMap (α : Type) := List (String × α)

/-- The index expression `m[k]` (the zero value, nil, is `none`). -/
def mapGet {α : Type} : GoMap α → String → Option α
  | [], _ => none
  | (k', v) :: rest, k => if k' = k then some v else mapGet rest k

/-- The builtin `delete(m, k)`. -/
def mapDelete {α : Type} (m : GoMap α) (k : String) : GoMap α :=
  m.filter (fun e => decide (e.1 ≠ k))

/-- The assignment `m[k] = v`. -/
def mapSet {α : Type} (m : GoMap α) (k : String) (v : α) : GoMap α :=
  mapDelete m k ++ [(k, v)]

/-- The keys of a map. -/
def mapKeys {α : Type} (m : GoMap α) : List String := m.map Prod.fst

/-! ## Package upnptype -/

/-- The backend object behind a `upnptype.Renderer` (`backendgupnp.Renderer`,
`upnptype.RendererBase`): address, UDN, friendly name, native proxy handle. -/
structure Renderer where
  ptr : Nat
  udn : String
  name : String
  proxy : Nat
deriving DecidableEq, Repr

/-- The backend object behind a `upnptype.Server`. -/
structure Server where
  ptr : Nat
  udn : String
  name : String
  proxy : Nat
deriving DecidableEq, Repr

/-- `DeviceBase.CompareProxy`: `db.UDN() == devtest.UDN()`. -/
def DeviceBase_CompareProxy (udn udntest : String) : Bool := decide (udn = udntest)

/-- `backendgupnp.Renderer.CompareProxy`: `rtest.proxy.Native() == rend.proxy.Native()`. -/
def Renderer.CompareProxy (rend rtest : Renderer) : Bool := decide (rtest.proxy = rend.proxy)

/-- `backendgupnp.Server.CompareProxy`. -/
def Server.CompareProxy (srv stest : Server) : Bool := decide (stest.proxy = srv.proxy)

/-- `upnptype.PlaybackState`. -/
inductive PlaybackState where
  | PlaybackStateUnknown
  | PlaybackStateTransitioning
  | PlaybackStateStopped
  | PlaybackStatePaused
  | PlaybackStatePlaying
deriving DecidableEq, Repr

open PlaybackState

/-- `upnptype.PlaybackStateFromName`. -/
def PlaybackStateFromName (name : String) : PlaybackState :=
  if name = "STOPPED" then PlaybackStateStopped
  else if name = "PLAYING" then PlaybackStatePlaying
  else if name = "PAUSED_PLAYBACK" then PlaybackStatePaused
  else if name = "TRANSITIONING" then PlaybackStateTransitioning
  else PlaybackStateUnknown

/-- Wrap-around of the Go type `int` (64 bits, two's complement). -/
def wrapInt (x : Int) : Int := (x + 2 ^ 63) % 2 ^ 64 - 2 ^ 63

/-- The table `space` of package fmt (`isSpace`). -/
def isSpace (c : Char) : Bool :=
  let n := c.toNat
  (0x0009 ≤ n && n ≤ 0x000d) || n == 0x0020 || n == 0x0085 || n == 0x00a0 || n == 0x1680
    || (0x2000 ≤ n && n ≤ 0x200a) || n == 0x2028 || n == 0x2029 || n == 0x202f
    || n == 0x205f || n == 0x3000

/-- `(*ss).SkipSpace` of package fmt for `Sscanf` (a newline is an error, `none`). -/
def skipSpace : List Char → Option (List Char)
  | [] => some []
  | c :: rest =>
    if c = '\n' then none
    else if isSpace c then skipSpace rest
    else some (c :: rest)

/-- The digits read by `scanNumber` for the verb `%d`, and the rest of the input. -/
def takeDigits : List Char → List Char × List Char
  | [] => ([], [])
  | c :: rest =>
    if c.isDigit then (c :: (takeDigits rest).1, (takeDigits rest).2) else ([], c :: rest)

/-- The value of a string of decimal digits. -/
def digitsValue (ds : List Char) : Nat :=
  ds.foldl (fun acc c => acc * 10 + (c.toNat - '0'.toNat)) 0

/-- `(*ss).scanInt('d', 64)` of package fmt: optional blanks, an optional sign, at
least one decimal digit, the value within the range of int64; `none` is a scan
error (the operand is then left untouched). -/
def scanInt (input : List Char) : Option (Int × List Char) :=
  match skipSpace input with
  | none => none
  | some [] => none
  | some (c :: rest) =>
    let neg := decide (c = '-')
    let body := if c = '-' ∨ c = '+' then rest else c :: rest
    let (ds, rest') := takeDigits body
    if ds = [] then none
    else
      let v : Int := if neg then - (digitsValue ds : Int) else (digitsValue ds : Int)
      if - 2 ^ 63 ≤ v ∧ v < 2 ^ 63 then some (v, rest') else none

/-- The three operands after `fmt.Sscanf(str, "%d:%d:%d", &h, &m, &s)`: an operand
that was not scanned keeps its zero value, and scanning stops at the first
error. -/
def sscanfHMS (str : String) : Int × Int × Int :=
  match scanInt str.toList with
  | none => (0, 0, 0)
  | some (h, r1) =>
    match r1 with
    | ':' :: r2 =>
      match scanInt r2 with
      | none => (h, 0, 0)
      | some (m, r3) =>
        match r3 with
        | ':' :: r4 =>
          match scanInt r4 with
          | none => (h, m, 0)
          | some (s, _) => (h, m, s)
        | _ => (h, m, 0)
    | _ => (h, 0, 0)

/-- `upnptype.TimeToSecond`. -/
def TimeToSecond (str : String) : Int :=
  let (h, m, s) := sscanfHMS str
  wrapInt ((h * 60 + m) * 60 + s)

/-- The bits of a Go `float64`; the manager hands such values on unchanged. -/
structure Float64 where
  bits : Nat
deriving DecidableEq, Repr

/-- A call of a callback slot of a `upnptype.MediaHook`, with its arguments.  The
`*Item` of `OnCurrentTrackMetaData` is the address of the item. -/
inductive HookCall where
  | OnRendererFound (r : Renderer)
  | OnRendererLost (r : Renderer)
  | OnServerFound (s : Server)
  | OnServerLost (s : Server)
  | OnTransportState (r : Renderer) (value : PlaybackState)
  | OnCurrentTrackDuration (r : Renderer) (value : Int)
  | OnCurrentTrackMetaData (r : Renderer) (value : Nat)
  | OnMute (r : Renderer) (value : Bool)
  | OnVolume (r : Renderer) (value : Nat)
  | OnCurrentTime (r : Renderer) (secs : Int) (percent : Float64)
  | OnSetVolumeDelta (delta : Int)
  | OnSetSeekDelta (delta : Int)
  | OnRendererSelected (r : Option Renderer)
  | OnServerSelected (s : Option Server)
deriving DecidableEq, Repr

/-- A method of the `upnptype.Renderer` interface called by the manager. -/
inductive RendererCall where
  | GetIconFile
  | SetIcon
  | GetVolume (instanceID : Nat) (channel : String)
  | GetMute (instanceID : Nat) (channel : String)
  | GetTransportInfo (instanceID : Nat)
  | GetPositionInfo (instanceID : Nat)
deriving DecidableEq, Repr

/-- A method of the `upnptype.Server` interface called by the manager. -/
inductive ServerCall where
  | GetIconFile
  | SetIcon
deriving DecidableEq, Repr

/-- What the manager does to the outside: it calls the slot of the hook registered
under `id`, or a method of a renderer or of a server. -/
inductive Ev where
  | hook (id : String) (call : HookCall)
  | renderer (r : Renderer) (call : RendererCall)
  | server (s : Server) (call : ServerCall)
deriving DecidableEq, Repr

/-- `upnptype.MediaHook` (with the embedded `ControlPointEvents` and
`RendererEvents`): one nullable callback slot per event kind. -/
structure MediaHook where
  OnRendererFound : Option Nat := none
  OnRendererLost : Option Nat := none
  OnServerFound : Option Nat := none
  OnServerLost : Option Nat := none
  OnTransportState : Option Nat := none
  OnCurrentTrackDuration : Option Nat := none
  OnCurrentTrackMetaData : Option Nat := none
  OnMute : Option Nat := none
  OnVolume : Option Nat := none
  OnCurrentTime : Option Nat := none
  OnSetVolumeDelta : Option Nat := none
  OnSetSeekDelta : Option Nat := none
  OnRendererSelected : Option Nat := none
  OnServerSelected : Option Nat := none
deriving DecidableEq, Repr

/-- `upnptype.ChannelMaster`. -/
def ChannelMaster : String := "Master"

/-- The answers of the devices to the read actions of `SetRenderer`: `none` is a
call that returned an error; `GetTransportInfo` answers `CurrentTransportState`
and `GetPositionInfo` answers `TrackDuration`. -/
structure Answers where
  GetVolume : Renderer → Option Nat
  GetMute : Renderer → Option Bool
  GetTransportInfo : Renderer → Option String
  GetPositionInfo : Renderer → Option String

/-! ## MediaControl -/

/-- The struct `MediaControl`.  The field `wired` is not a field of the Go struct:
it lists the renderer objects whose six `Events()` slots hold the closures that
`onRendererFound` installs (the slots of every other object are nil). -/
structure MediaControl where
  curRend : Option Renderer
  renderers : GoMap Renderer
  curSrv : Option Server
  servers : GoMap Server
  hooks : GoMap MediaHook
  preferredRenderer : String
  preferredServer : String
  seekDelta : Int
  volumeDelta : Int
  tmpDir : String
  wired : List Renderer
deriving DecidableEq, Repr

/-- `New`: `tmpDir` is what `ioutil.TempDir` returned. -/
def New (tmpDir : String) : MediaControl :=
  { curRend := none, renderers := [], curSrv := none, servers := [], hooks := [],
    preferredRenderer := "", preferredServer := "", seekDelta := 0, volumeDelta := 0,
    tmpDir := tmpDir, wired := [] }

def testTransportState (h : MediaHook) : Bool := h.OnTransportState.isSome
def testCurrentTrackDuration (h : MediaHook) : Bool := h.OnCurrentTrackDuration.isSome
def testCurrentTrackMetaData (h : MediaHook) : Bool := h.OnCurrentTrackMetaData.isSome
def testMute (h : MediaHook) : Bool := h.OnMute.isSome
def testVolume (h : MediaHook) : Bool := h.OnVolume.isSome
def testCurrentTime (h : MediaHook) : Bool := h.OnCurrentTime.isSome
def testSetVolumeDelta (h : MediaHook) : Bool := h.OnSetVolumeDelta.isSome
def testSetSeekDelta (h : MediaHook) : Bool := h.OnSetSeekDelta.isSome
def testRendererFound (h : MediaHook) : Bool := h.OnRendererFound.isSome
def testServerFound (h : MediaHook) : Bool := h.OnServerFound.isSome
def testRendererLost (h : MediaHook) : Bool := h.OnRendererLost.isSome
def testServerLost (h : MediaHook) : Bool := h.OnServerLost.isSome
def testRendererSelected (h : MediaHook) : Bool := h.OnRendererSelected.isSome
def testServerSelected (h : MediaHook) : Bool := h.OnServerSelected.isSome

/-- `MediaControl.hookTest`: the loop `for _, instance := range cp.hooks` appending
to `ret` the instances that pass `test`.  A `*MediaHook` is given with its key. -/
def hookTest (cp : MediaControl) (test : MediaHook → Bool) : List (String × MediaHook) :=
  cp.hooks.foldl (fun ret inst => if test inst.2 then ret ++ [inst] else ret) []

/-- `MediaControl.RendererIsActive`. -/
def RendererIsActive (cp : MediaControl) (rend : Option Renderer) : Bool :=
  decide (cp.curRend = rend)

/-- `MediaControl.hookTestRenderer`. -/
def hookTestRenderer (cp : MediaControl) (rend : Option Renderer) (test : MediaHook → Bool) :
    List (String × MediaHook) :=
  if RendererIsActive cp rend then hookTest cp test else []

/-- The loop `for _, instance := range list { instance.OnX(args) }`. -/
def fire (list : List (String × MediaHook)) (call : HookCall) : List Ev :=
  list.map (fun inst => Ev.hook inst.1 call)

/-- `MediaControl.onRendererSelected`. -/
def onRendererSelected (cp : MediaControl) (r : Option Renderer) : List Ev :=
  fire (hookTest cp testRendererSelected) (.OnRendererSelected r)

/-- `MediaControl.onServerSelected`. -/
def onServerSelected (cp : MediaControl) (s : Option Server) : List Ev :=
  fire (hookTest cp testServerSelected) (.OnServerSelected s)

/-- `MediaControl.onSetVolumeDelta`. -/
def onSetVolumeDelta (cp : MediaControl) (delta : Int) : List Ev :=
  fire (hookTest cp testSetVolumeDelta) (.OnSetVolumeDelta delta)

/-- `MediaControl.onSetSeekDelta`. -/
def onSetSeekDelta (cp : MediaControl) (delta : Int) : List Ev :=
  fire (hookTest cp testSetSeekDelta) (.OnSetSeekDelta delta)

/-- An event of a renderer, as the backend raises it through `Events()`. -/
inductive RendererEvent where
  | TransportState (value : PlaybackState)
  | CurrentTrackDuration (value : Int)
  | CurrentTrackMetaData (value : Nat)
  | Mute (value : Bool)
  | Volume (value : Nat)
  | CurrentTime (value : Int) (percent : Float64)
deriving DecidableEq, Repr

/-- The six closures that `onRendererFound` stores in `r.Events()`, run on the
manager as it is when the event is raised with `rcb` as the renderer. -/
def rendererClosure (cp : MediaControl) (rcb : Renderer) : RendererEvent → List Ev
  | .TransportState value =>
    fire (hookTestRenderer cp (some rcb) testTransportState) (.OnTransportState rcb value)
  | .CurrentTrackDuration value =>
    fire (hookTestRenderer cp (some rcb) testCurrentTrackDuration)
      (.OnCurrentTrackDuration rcb value)
  | .CurrentTrackMetaData value =>
    fire (hookTestRenderer cp (some rcb) testCurrentTrackMetaData)
      (.OnCurrentTrackMetaData rcb value)
  | .Mute value => fire (hookTestRenderer cp (some rcb) testMute) (.OnMute rcb value)
  | .Volume value => fire (hookTestRenderer cp (some rcb) testVolume) (.OnVolume rcb value)
  | .CurrentTime value percent =>
    fire (hookTestRenderer cp (some rcb) testCurrentTime) (.OnCurrentTime rcb value percent)

/-- The call `r.Events().OnX(r, args)`: the installed closure when `r` is wired, a
call of a nil func (runtime panic) otherwise. -/
def raise (cp : MediaControl) (r : Renderer) (e : RendererEvent) : Option (List Ev) :=
  if r ∈ cp.wired then some (rendererClosure cp r e) else none

/-- `MediaControl.GetRenderer`. -/
def GetRenderer (cp : MediaControl) (udn : String) : Option Renderer := mapGet cp.renderers udn

/-- `MediaControl.RendererExists`. -/
def RendererExists (cp : MediaControl) : Bool := cp.curRend.isSome

/-- `MediaControl.Renderers`. -/
def Renderers (cp : MediaControl) : GoMap Renderer := cp.renderers

/-- The second half of `SetRenderer`, with `r` the (non-nil) current renderer:
read volume, mute, transport state and position, and raise the event of each
read that returned no error. -/
def SetRenderer_forward (io : Answers) (cp : MediaControl) (r : Renderer) : Option (List Ev) :=
  (match io.GetVolume r with
    | some vol => raise cp r (.Volume (vol % 65536))
    | none => some []).bind fun t1 =>
  (match io.GetMute r with
    | some mute => raise cp r (.Mute mute)
    | none => some []).bind fun t2 =>
  (match io.GetTransportInfo r with
    | some state => raise cp r (.TransportState (PlaybackStateFromName state))
    | none => some []).bind fun t3 =>
  (match io.GetPositionInfo r with
    | some duration => raise cp r (.CurrentTrackDuration (TimeToSecond duration))
    | none => some []).bind fun t4 =>
  some (Ev.renderer r (.GetVolume 0 ChannelMaster) :: t1
    ++ Ev.renderer r (.GetMute 0 ChannelMaster) :: t2
    ++ Ev.renderer r (.GetTransportInfo 0) :: t3
    ++ Ev.renderer r (.GetPositionInfo 0) :: t4)

/-- `MediaControl.SetRenderer`. -/
def SetRenderer (io : Answers) (udn : String) (cp : MediaControl) :
    Option (MediaControl × List Ev) :=
  let cp1 := { cp with curRend := GetRenderer cp udn }
  let t0 := onRendererSelected cp1 cp1.curRend
  match cp1.curRend with
  | none => some (cp1, t0)
  | some r => (SetRenderer_forward io cp1 r).map fun t => (cp1, t0 ++ t)

/-- The body of the loop of `setRendererDefault`, over the entries still to visit. -/
def setRendererDefault_range (io : Answers) :
    List (String × Renderer) → MediaControl → Option (MediaControl × List Ev)
  | [], cp => some (cp, [])
  | (_, r) :: rest, cp =>
    if cp.preferredRenderer = r.name then
      (SetRenderer io r.udn cp).bind fun (cp1, t1) =>
      (setRendererDefault_range io rest cp1).map fun (cp2, t2) => (cp2, t1 ++ t2)
    else setRendererDefault_range io rest cp

/-- `MediaControl.setRendererDefault`. -/
def setRendererDefault (io : Answers) (cp : MediaControl) : Option (MediaControl × List Ev) :=
  if !RendererExists cp && cp.preferredRenderer ≠ "" then
    setRendererDefault_range io (Renderers cp) cp
  else some (cp, [])

/-- `MediaControl.onRendererFound`. -/
def onRendererFound (io : Answers) (r : Renderer) (cp : MediaControl) :
    Option (MediaControl × List Ev) :=
  let cp1 := { cp with renderers := mapSet cp.renderers r.udn r }
  let t1 := if cp1.tmpDir ≠ "" then [Ev.renderer r .GetIconFile, Ev.renderer r .SetIcon] else []
  let t2 := fire (hookTest cp1 testRendererFound) (.OnRendererFound r)
  let cp2 := { cp1 with wired := r :: cp1.wired }
  (setRendererDefault io cp2).map fun (cp3, t3) => (cp3, t1 ++ t2 ++ t3)

/-- The loop of `onMediaRendererLost` over the entries still to visit; an entry
removed from the map before it is reached is not produced.  `CompareProxy rend
rtest` is the method call `rend.CompareProxy(rtest)`. -/
def onMediaRendererLost_range (CompareProxy : Renderer → Renderer → Bool) (io : Answers)
    (rtest : Renderer) : List (String × Renderer) → MediaControl → Option (MediaControl × List Ev)
  | [], cp => some (cp, [])
  | (k, _) :: rest, cp =>
    match mapGet cp.renderers k with
    | none => onMediaRendererLost_range CompareProxy io rtest rest cp
    | some rend =>
      if CompareProxy rend rtest then
        (if RendererIsActive cp (some rend) then SetRenderer io "" cp
          else some (cp, [])).bind fun (cp1, t1) =>
        let cp2 := { cp1 with renderers := mapDelete cp1.renderers rend.udn }
        let t2 := fire (hookTest cp2 testRendererLost) (.OnRendererLost rend)
        (onMediaRendererLost_range CompareProxy io rtest rest cp2).map fun (cp3, t3) =>
          (cp3, t1 ++ t2 ++ t3)
      else onMediaRendererLost_range CompareProxy io rtest rest cp

/-- `MediaControl.onMediaRendererLost`. -/
def onMediaRendererLost (CompareProxy : Renderer → Renderer → Bool) (io : Answers)
    (rtest : Renderer) (cp : MediaControl) : Option (MediaControl × List Ev) :=
  onMediaRendererLost_range CompareProxy io rtest (Renderers cp) cp

/-- `MediaControl.GetServer`. -/
def GetServer (cp : MediaControl) (udn : String) : Option Server := mapGet cp.servers udn

/-- `MediaControl.ServerExists`. -/
def ServerExists (cp : MediaControl) : Bool := cp.curSrv.isSome

/-- `MediaControl.ServerIsActive`. -/
def ServerIsActive (cp : MediaControl) (srv : Option Server) : Bool := decide (cp.curSrv = srv)

/-- `MediaControl.Servers`. -/
def Servers (cp : MediaControl) : GoMap Server := cp.servers

/-- `MediaControl.SetServer`. -/
def SetServer (udn : String) (cp : MediaControl) : MediaControl × List Ev :=
  let cp1 := { cp with curSrv := GetServer cp udn }
  (cp1, onServerSelected cp1 cp1.curSrv)

/-- The loop of `setServerDefault`, over the entries still to visit. -/
def setServerDefault_range : List (String × Server) → MediaControl → MediaControl × List Ev
  | [], cp => (cp, [])
  | (_, r) :: rest, cp =>
    if cp.preferredServer = r.name then
      let (cp1, t1) := SetServer r.udn cp
      let (cp2, t2) := setServerDefault_range rest cp1
      (cp2, t1 ++ t2)
    else setServerDefault_range rest cp

/-- `MediaControl.setServerDefault`. -/
def setServerDefault (cp : MediaControl) : MediaControl × List Ev :=
  if !ServerExists cp && cp.preferredServer ≠ "" then setServerDefault_range (Servers cp) cp
  else (cp, [])

/-- `MediaControl.onMediaServerFound` (the call of `setServerDefault` is commented
out in the source). -/
def onMediaServerFound (srv : Server) (cp : MediaControl) : MediaControl × List Ev :=
  let cp1 := { cp with servers := mapSet cp.servers srv.udn srv }
  let t1 := if cp1.tmpDir ≠ "" then [Ev.server srv .GetIconFile, Ev.server srv .SetIcon] else []
  let t2 := fire (hookTest cp1 testServerFound) (.OnServerFound srv)
  (cp1, t1 ++ t2)

/-- The loop of `onMediaServerLost` over the entries still to visit. -/
def onMediaServerLost_range (CompareProxy : Server → Server → Bool) (stest : Server) :
    List (String × Server) → MediaControl → MediaControl × List Ev
  | [], cp => (cp, [])
  | (k, _) :: rest, cp =>
    match mapGet cp.servers k with
    | none => onMediaServerLost_range CompareProxy stest rest cp
    | some srv =>
      if CompareProxy srv stest then
        let (cp1, t1) := if ServerIsActive cp (some srv) then SetServer "" cp else (cp, [])
        let cp2 := { cp1 with servers := mapDelete cp1.servers srv.udn }
        let t2 := fire (hookTest cp2 testServerLost) (.OnServerLost srv)
        let (cp3, t3) := onMediaServerLost_range CompareProxy stest rest cp2
        (cp3, t1 ++ t2 ++ t3)
      else onMediaServerLost_range CompareProxy stest rest cp

/-- `MediaControl.onMediaServerLost`. -/
def onMediaServerLost (CompareProxy : Server → Server → Bool) (stest : Server)
    (cp : MediaControl) : MediaControl × List Ev :=
  onMediaServerLost_range CompareProxy stest (Servers cp) cp

/-- `MediaControl.SetVolumeDelta`. -/
def SetVolumeDelta (delta : Int) (cp : MediaControl) : MediaControl × List Ev :=
  let cp1 := { cp with volumeDelta := delta }
  (cp1, onSetVolumeDelta cp1 delta)

/-- `MediaControl.SetSeekDelta`. -/
def SetSeekDelta (delta : Int) (cp : MediaControl) : MediaControl × List Ev :=
  let cp1 := { cp with seekDelta := delta }
  (cp1, onSetSeekDelta cp1 delta)

/-- `MediaControl.SetPreferredRenderer`. -/
def SetPreferredRenderer (io : Answers) (name : String) (cp : MediaControl) :
    Option (MediaControl × List Ev) :=
  setRendererDefault io { cp with preferredRenderer := name }

/-- `MediaControl.SetPreferredServer`. -/
def SetPreferredServer (name : String) (cp : MediaControl) : MediaControl × List Ev :=
  setServerDefault { cp with preferredServer := name }

/-- `MediaControl.SubscribeHook`: the new state and the hook returned. -/
def SubscribeHook (id : String) (cp : MediaControl) : MediaControl × MediaHook :=
  let newHook : MediaHook := {}
  ({ cp with hooks := mapSet cp.hooks id newHook }, newHook)

/-- `MediaControl.UnsubscribeHook`. -/
def UnsubscribeHook (id : String) (cp : MediaControl) : MediaControl :=
  { cp with hooks := mapDelete cp.hooks id }

/-- The caller of `SubscribeHook` fills the slots of the hook it was given: the
hook registered under `id`, if any, becomes `h`. -/
def populateHook (id : String) (h : MediaHook) (cp : MediaControl) : MediaControl :=
  { cp with hooks := cp.hooks.map fun e => if e.1 = id then (e.1, h) else e }

/-! ## Runs -/

/-- The operations on a manager: the four discovery callbacks of `DefineEvents`
and the methods of the interface `upnptype.MediaControl` that the properties
below are about; `populate` is the caller filling the hook it subscribed.
`visit` is no call: Go leaves the order in which a `range` visits a map
unspecified, and `visit rs ss hs` puts the three maps in the orders `rs`, `ss`,
`hs` for the loops that follow. -/
inductive Op where
  | rendererFound (io : Answers) (r : Renderer)
  | serverFound (srv : Server)
  | rendererLost (io : Answers) (rtest : Renderer)
  | serverLost (stest : Server)
  | setRenderer (io : Answers) (udn : String)
  | setServer (udn : String)
  | setPreferredRenderer (io : Answers) (name : String)
  | setPreferredServer (name : String)
  | setVolumeDelta (delta : Int)
  | setSeekDelta (delta : Int)
  | subscribeHook (id : String)
  | unsubscribeHook (id : String)
  | populate (id : String) (h : MediaHook)
  | visit (rs : GoMap Renderer) (ss : GoMap Server) (hs : GoMap MediaHook)

/-- One operation; `cmpR` and `cmpS` are the `CompareProxy` of the backend. -/
def step (cmpR : Renderer → Renderer → Bool) (cmpS : Server → Server → Bool) :
    Op → MediaControl → Option (MediaControl × List Ev)
  | .rendererFound io r, cp => onRendererFound io r cp
  | .serverFound srv, cp => some (onMediaServerFound srv cp)
  | .rendererLost io rtest, cp => onMediaRendererLost cmpR io rtest cp
  | .serverLost stest, cp => some (onMediaServerLost cmpS stest cp)
  | .setRenderer io udn, cp => SetRenderer io udn cp
  | .setServer udn, cp => some (SetServer udn cp)
  | .setPreferredRenderer io name, cp => SetPreferredRenderer io name cp
  | .setPreferredServer name, cp => some (SetPreferredServer name cp)
  | .setVolumeDelta delta, cp => some (SetVolumeDelta delta cp)
  | .setSeekDelta delta, cp => some (SetSeekDelta delta cp)
  | .subscribeHook id, cp => some ((SubscribeHook id cp).1, [])
  | .unsubscribeHook id, cp => some (UnsubscribeHook id cp, [])
  | .populate id h, cp => some (populateHook id h cp, [])
  | .visit rs ss hs, cp =>
    if rs.Perm cp.renderers ∧ ss.Perm cp.servers ∧ hs.Perm cp.hooks then
      some ({ cp with renderers := rs, servers := ss, hooks := hs }, [])
    else some (cp, [])

/-- A sequence of operations, one after the other. -/
def run (cmpR : Renderer → Renderer → Bool) (cmpS : Server → Server → Bool) :
    List Op → MediaControl → Option (MediaControl × List Ev)
  | [], cp => some (cp, [])
  | op :: ops, cp =>
    (step cmpR cmpS op cp).bind fun (cp1, t1) =>
    (run cmpR cmpS ops cp1).map fun (cp2, t2) => (cp2, t1 ++ t2)

/-- The event kinds of the hook surface. -/
inductive EventKind where
  | RendererFound | RendererLost | ServerFound | ServerLost
  | TransportState | CurrentTrackDuration | CurrentTrackMetaData | Mute | Volume | CurrentTime
  | SetVolumeDelta | SetSeekDelta | RendererSelected | ServerSelected
deriving DecidableEq, Repr

/-- The slot of a hook for an event kind. -/
def MediaHook.slot (h : MediaHook) : EventKind → Option Nat
  | .RendererFound => h.OnRendererFound
  | .RendererLost => h.OnRendererLost
  | .ServerFound => h.OnServerFound
  | .ServerLost => h.OnServerLost
  | .TransportState => h.OnTransportState
  | .CurrentTrackDuration => h.OnCurrentTrackDuration
  | .CurrentTrackMetaData => h.OnCurrentTrackMetaData
  | .Mute => h.OnMute
  | .Volume => h.OnVolume
  | .CurrentTime => h.OnCurrentTime
  | .SetVolumeDelta => h.OnSetVolumeDelta
  | .SetSeekDelta => h.OnSetSeekDelta
  | .RendererSelected => h.OnRendererSelected
  | .ServerSelected => h.OnServerSelected

/-- The test function that the source passes to `hookTest` for an event kind. -/
def EventKind.test : EventKind → MediaHook → Bool
  | .RendererFound => testRendererFound
  | .RendererLost => testRendererLost
  | .ServerFound => testServerFound
  | .ServerLost => testServerLost
  | .TransportState => testTransportState
  | .CurrentTrackDuration => testCurrentTrackDuration
  | .CurrentTrackMetaData => testCurrentTrackMetaData
  | .Mute => testMute
  | .Volume => testVolume
  | .CurrentTime => testCurrentTime
  | .SetVolumeDelta => testSetVolumeDelta
  | .SetSeekDelta => testSetSeekDelta
  | .RendererSelected => testRendererSelected
  | .ServerSelected => testServerSelected

/-- The kind of the call of a slot. -/
def HookCall.kind : HookCall → EventKind
  | .OnRendererFound _ => .RendererFound
  | .OnRendererLost _ => .RendererLost
  | .OnServerFound _ => .ServerFound
  | .OnServerLost _ => .ServerLost
  | .OnTransportState _ _ => .TransportState
  | .OnCurrentTrackDuration _ _ => .CurrentTrackDuration
  | .OnCurrentTrackMetaData _ _ => .CurrentTrackMetaData
  | .OnMute _ _ => .Mute
  | .OnVolume _ _ => .Volume
  | .OnCurrentTime _ _ _ => .CurrentTime
  | .OnSetVolumeDelta _ => .SetVolumeDelta
  | .OnSetSeekDelta _ => .SetSeekDelta
  | .OnRendererSelected _ => .RendererSelected
  | .OnServerSelected _ => .ServerSelected

/-- The call of a slot that the closure of a renderer event makes on a hook. -/
def RendererEvent.call (rcb : Renderer) : RendererEvent → HookCall
  | .TransportState value => .OnTransportState rcb value
  | .CurrentTrackDuration value => .OnCurrentTrackDuration rcb value
  | .CurrentTrackMetaData value => .OnCurrentTrackMetaData rcb value
  | .Mute value => .OnMute rcb value
  | .Volume value => .OnVolume rcb value
  | .CurrentTime value percent => .OnCurrentTime rcb value percent

/-- Calls of `SubscribeHook` and `UnsubscribeHook`. -/
inductive HookOp where
  | subscribe (id : String)
  | unsubscribe (id : String)
deriving DecidableEq, Repr

/-- A sequence of calls of `SubscribeHook` and `UnsubscribeHook`. -/
def runHooks : List HookOp → MediaControl → MediaControl
  | [], cp => cp
  | .subscribe id :: ops, cp => runHooks ops (SubscribeHook id cp).1
  | .unsubscribe id :: ops, cp => runHooks ops (UnsubscribeHook id cp)

/-- Whether a key is in a set after a sequence of operations of which some add
the key (`add`) and some remove it (`rem`), `b` telling whether it was in at the
start. -/
def survives {β : Type} (add rem : β → Bool) : List β → Bool → Bool
  | [], b => b
  | x :: xs, b => survives add rem xs (if add x then true else if rem x then false else b)

/-- A registry with one populated hook, for the examples. -/
def demoHook : MediaHook :=
  { OnRendererSelected := some 1, OnRendererLost := some 2, OnVolume := some 3,
    OnServerSelected := some 4 }

/-- A manager with the hook `demoHook` registered under "gui" and an empty hook
under "log". -/
def demoControl : MediaControl :=
  populateHook "gui" demoHook (SubscribeHook "log" (SubscribeHook "gui" (New "/tmp/tvplay")).1).1

/-- The test that the closure of a renderer event passes to `hookTestRenderer`. -/
def RendererEvent.test : RendererEvent → MediaHook → Bool
  | .TransportState _ => testTransportState
  | .CurrentTrackDuration _ => testCurrentTrackDuration
  | .CurrentTrackMetaData _ => testCurrentTrackMetaData
  | .Mute _ => testMute
  | .Volume _ => testVolume
  | .CurrentTime _ _ => testCurrentTime

/-- Answers of devices none of whose reads succeeds. -/
def silent : Answers :=
  { GetVolume := fun _ => none, GetMute := fun _ => none, GetTransportInfo := fun _ => none,
    GetPositionInfo := fun _ => none }

/-- Answers of devices all of whose reads succeed. -/
def talking : Answers :=
  { GetVolume := fun _ => some 30, GetMute := fun _ => some false,
    GetTransportInfo := fun _ => some "PLAYING", GetPositionInfo := fun _ => some "00:03:20" }

/-- The renderer of the scenario of the specification. -/
def livingRoom : Renderer := { ptr := 1, udn := "udn-1", name := "Living Room", proxy := 11 }

/-- Another renderer. -/
def kitchen : Renderer := { ptr := 2, udn := "udn-2", name := "Kitchen", proxy := 12 }

/-- A media server. -/
def nas : Server := { ptr := 3, udn := "udn-3", name := "NAS", proxy := 13 }

/-- The manager `demoControl` once it knows the two renderers and the server,
with `livingRoom` and `nas` selected. -/
def demoSelected : MediaControl :=
  { demoControl with
    curRend := some livingRoom
    renderers := [("udn-1", livingRoom), ("udn-2", kitchen)]
    curSrv := some nas
    servers := [("udn-3", nas)]
    wired := [kitchen, livingRoom] }

/-- Every renderer of the index has its event slots wired (it entered the index
through `onRendererFound`). -/
abbrev Wired (cp : MediaControl) : Prop := ∀ k r, (k, r) ∈ cp.renderers → r ∈ cp.wired

/-- Every entry of an index is stored under the UDN of its device. -/
abbrev KeyedByUDN {D : Type} (udn : D → String) (m : GoMap D) : Prop :=
  ∀ k d, (k, d) ∈ m → k = udn d

/-- The selection invariant of one index: keys are unique, every entry is stored
under the UDN of its device, which is not empty, and the current device, if
any, is the entry stored under its own UDN. -/
def IndexOk {D : Type} (udn : D → String) (cur : Option D) (m : GoMap D) : Prop :=
  (mapKeys m).Nodup ∧ KeyedByUDN udn m ∧ (∀ k d, (k, d) ∈ m → k ≠ "")
    ∧ ∀ c, cur = some c → mapGet m (udn c) = some c

/-- The invariant of the manager: both indices satisfy `IndexOk` and every indexed
renderer is wired. -/
def Inv (cp : MediaControl) : Prop :=
  IndexOk Renderer.udn cp.curRend cp.renderers ∧ IndexOk Server.udn cp.curSrv cp.servers
    ∧ Wired cp

/-- The assumption on discovery under which the selection invariant is proved: the
device found has a non-empty UDN, and it is not another object announcing the
UDN of the device that is selected.  Every other operation is unrestricted. -/
def Op.admissible : Op → MediaControl → Prop
  | .rendererFound _ r, cp => r.udn ≠ "" ∧ ∀ c, cp.curRend = some c → c.udn = r.udn → c = r
  | .serverFound srv, cp => srv.udn ≠ "" ∧ ∀ c, cp.curSrv = some c → c.udn = srv.udn → c = srv
  | _, _ => True

/-- The states of a manager created by `New` after any sequence of admissible
operations (the maps being visited in any order: `Op.visit`). -/
inductive Reachable (cmpR : Renderer → Renderer → Bool) (cmpS : Server → Server → Bool) :
    MediaControl → Prop where
  | start (tmpDir : String) : Reachable cmpR cmpS (New tmpDir)
  | next {cp cp' : MediaControl} {t : List Ev} (op : Op) :
      Reachable cmpR cmpS cp → op.admissible cp → step cmpR cmpS op cp = some (cp', t) →
      Reachable cmpR cmpS cp'

/-- The selection invariant: the current renderer (resp. server), if any, is the
entry that the renderer (resp. server) index stores under its UDN. -/
def SelectionInIndex (cp : MediaControl) : Prop :=
  (∀ r, cp.curRend = some r → GetRenderer cp r.udn = some r)
    ∧ (∀ s, cp.curSrv = some s → GetServer cp s.udn = some s)

/-- A second backend object for the device of `livingRoom` (same UDN, another
address and proxy), as a second announcement of the device creates. -/
def livingRoomAgain : Renderer :=
  { ptr := 4, udn := "udn-1", name := "Living Room", proxy := 14 }

/-- A renderer whose description gave no UDN. -/
def nameless : Renderer := { ptr := 5, udn := "", name := "Nameless", proxy := 15 }

/-- A new manager that found `livingRoom` and on which `SetRenderer("udn-1")` was
called. -/
def demoReached : MediaControl :=
  { New "/tmp/tvplay" with
    curRend := some livingRoom
    renderers := [("udn-1", livingRoom)]
    wired := [livingRoom] }

/-- The discovery notifications among the operations (and the changes of visiting
order that may come between them). -/
def Op.isNotification : Op → Bool
  | .rendererFound _ _ => true
  | .serverFound _ => true
  | .rendererLost _ _ => true
  | .serverLost _ => true
  | .visit _ _ _ => true
  | _ => false

/-- The operation is the found notification of a renderer with UDN `u`. -/
def Op.findsRenderer (u : String) : Op → Bool
  | .rendererFound _ r => decide (r.udn = u)
  | _ => false

/-- The operation is the lost notification of a renderer with UDN `u`. -/
def Op.losesRenderer (u : String) : Op → Bool
  | .rendererLost _ rtest => decide (rtest.udn = u)
  | _ => false

/-- The operation is the found notification of a server with UDN `u`. -/
def Op.findsServer (u : String) : Op → Bool
  | .serverFound srv => decide (srv.udn = u)
  | _ => false

/-- The operation is the lost notification of a server with UDN `u`. -/
def Op.losesServer (u : String) : Op → Bool
  | .serverLost stest => decide (stest.udn = u)
  | _ => false

/-- `RendererBase.CompareProxy` (the one of `DeviceBase`). -/
def RendererBase_CompareProxy (rend rtest : Renderer) : Bool :=
  DeviceBase_CompareProxy rend.udn rtest.udn

/-- `ServerBase.CompareProxy` (the one of `DeviceBase`). -/
def ServerBase_CompareProxy (srv stest : Server) : Bool :=
  DeviceBase_CompareProxy srv.udn stest.udn

/-- Found `livingRoom`, found `kitchen` (the index then visited in the other
order), lost `livingRoom`, found `nas`. -/
def demoNotifications : List Op :=
  [.rendererFound talking livingRoom, .rendererFound silent kitchen,
   .visit [("udn-2", kitchen), ("udn-1", livingRoom)] [] [],
   .rendererLost silent { ptr := 7, udn := "udn-1", name := "", proxy := 0 }, .serverFound nas]

/-- The kind of the hook slot that an event of the trace calls (`none` for a call
of a device). -/
def Ev.kind? : Ev → Option EventKind
  | .hook _ call => some call.kind
  | _ => none

/-- The events that the second half of `SetRenderer` can produce for `r`: a call
of a method of `r`, or a call of the slot of one of its six event kinds. -/
def Ev.isForward (r : Renderer) (e : Ev) : Prop :=
  (∃ c, e = Ev.renderer r c) ∨ (∃ id ev, e = Ev.hook id (RendererEvent.call r ev))

/-- The four operations of the default-selection policy: the two preference
setters and the two found notifications (and the changes of visiting order
that may come between them). -/
def Op.isPreferenceOrFound : Op → Bool
  | .rendererFound _ _ => true
  | .serverFound _ => true
  | .setPreferredRenderer _ _ => true
  | .setPreferredServer _ => true
  | .visit _ _ _ => true
  | _ => false

/-- The manager `demoControl` with "Living Room" as preferred renderer and "NAS" as
preferred server, nothing found yet. -/
def demoPreferring : MediaControl :=
  { demoControl with preferredRenderer := "Living Room", preferredServer := "NAS" }

/-- No event of the trace is a call of the slot of kind `k`. -/
def NoKind (k : EventKind) (t : List Ev) : Prop := ∀ e ∈ t, e.kind? ≠ some k

/-- A preference for the known renderer "Kitchen", a renderer found under a new
UDN, a preference for the server "Attic", and a server of that name found. -/
def demoPolicyOps : List Op :=
  [.setPreferredRenderer talking "Kitchen",
   .rendererFound talking { ptr := 8, udn := "udn-8", name := "Kitchen", proxy := 18 },
   .setPreferredServer "Attic",
   .serverFound { ptr := 9, udn := "udn-9", name := "Attic", proxy := 19 }]

/-- Every event of the trace is a call of `OnRendererLost` for a renderer other
than `r`. -/
def OtherLost (r : Renderer) (t : List Ev) : Prop :=
  ∀ e ∈ t, ∃ id r', e = Ev.hook id (.OnRendererLost r') ∧ r' ≠ r

/-- The manager `demoControl` that knows the renderer `nameless` (stored under the
empty UDN) and has it selected. -/
def demoNameless : MediaControl :=
  { demoControl with
    curRend := some nameless
    renderers := [("", nameless)]
    wired := [nameless] }

/-- The two operations of the default-selection policy on servers (and the changes
of visiting order). -/
def Op.isServerPolicy : Op → Bool
  | .serverFound _ => true
  | .setPreferredServer _ => true
  | .visit _ _ _ => true
  | _ => false

/-! ## Package upnptype: time strings -/

/-- The decimal digit `k` (for `k < 10`) as a character. -/
def digitChar (k : Nat) : Char := Char.ofNat (48 + k)

/-- `appendInt(b, x, 2)` of package time, for `x < 100`: two digits, zero padded. -/
def pad2 (x : Nat) : List Char := [digitChar (x / 10), digitChar (x % 10)]

/-- `upnptype.TimeToString`: `time.Time{}.Add(time.Duration(sec) * time.Second)`
formatted with "15:04:05".  The product is an int64 count of nanoseconds and
wraps around; `Add` moves the zero time by the whole seconds of it (rounded
down) and the layout prints the time of day of the result, that is these
seconds modulo one day, as hours, minutes and seconds of two digits each. -/
def TimeToString (sec : Int) : String :=
  let d := wrapInt (sec * 1000000000)
  let dsec := d / 1000000000
  let tod := (dsec % 86400).toNat
  String.mk (pad2 (tod / 3600) ++ ':' :: pad2 (tod % 3600 / 60) ++ ':' :: pad2 (tod % 60))

/-! ## Package backendgupnp: the actions of a renderer -/

/-- Wrap-around of the Go type `int32`. -/
def wrapInt32 (x : Int) : Int := (x + 2 ^ 31) % 2 ^ 32 - 2 ^ 31

/-- `ternary.Min` of the library godock/libs/ternary the backend imports: the
smaller of two ints. -/
def ternary.Min (a b : Int) : Int := if a < b then a else b

/-- `ternary.Max` of the same library: the larger of two ints. -/
def ternary.Max (a b : Int) : Int := if a > b then a else b

namespace Backendgupnp

/-- The service proxies a backend device holds. -/
inductive Service where
  | avTransport
  | renderControl
  | contentDir
deriving DecidableEq, Repr

/-- The value of an argument of an action. -/
inductive Arg where
  | str (s : String)
  | uint (n : Nat)
  | bool (b : Bool)
deriving DecidableEq, Repr

/-- An action sent to a service of the device: the name of the action, its
input arguments (name and value) and the names of the output arguments asked
for. -/
structure Sent where
  service : Service
  action : String
  ins : List (String × Arg)
  outs : List String
deriving DecidableEq, Repr

/-- What comes back from the device for one action: the error of
`SendActionList` (`none` is the nil error) and the value stored through the
pointer of an output argument, by the type of that pointer. -/
structure Reply where
  err : Option String
  uintOut : Nat
  boolOut : Bool
  strOut : String
deriving DecidableEq, Repr

/-- The device at the other end: its reply to an action, which may depend on
all the actions sent to it before. -/
abbrev Device := List Sent → Sent → Reply

/-- `(*ServiceProxy).SendAction`: the arguments are preceded by
`"InstanceID", uint(0)`; the action goes out once.  The result is the reply and
the actions sent so far. -/
def SendAction (dev : Device) (hist : List Sent) (svc : Service) (action : String)
    (ins : List (String × Arg)) (outs : List String) : Reply × List Sent :=
  (dev hist ⟨svc, action, ("InstanceID", Arg.uint 0) :: ins, outs⟩,
   hist ++ [⟨svc, action, ("InstanceID", Arg.uint 0) :: ins, outs⟩])

/-- The fields of `backendgupnp.Renderer` the actions read. -/
structure Renderer where
  udn : String
  name : String
  icon : String
  Current : Int
  duration : Int
  state : PlaybackState
deriving DecidableEq, Repr

/-- `(*Renderer).GetMute`. -/
def Renderer.GetMute (dev : Device) (hist : List Sent) (_rend : Renderer) (_instanceId : Nat)
    (channel : String) : (Bool × Option String) × List Sent :=
  let r := SendAction dev hist Service.renderControl "GetMute" [("Channel", Arg.str channel)]
    ["CurrentMute"]
  ((r.1.boolOut, r.1.err), r.2)

/-- `(*Renderer).GetVolume`: the unsigned value read is converted to uint16. -/
def Renderer.GetVolume (dev : Device) (hist : List Sent) (_rend : Renderer) (_instanceId : Nat)
    (channel : String) : (Nat × Option String) × List Sent :=
  let r := SendAction dev hist Service.renderControl "GetVolume" [("Channel", Arg.str channel)]
    ["CurrentVolume"]
  ((r.1.uintOut % 65536, r.1.err), r.2)

/-- `(*Renderer).SetVolume`; `vol` is a uint16. -/
def Renderer.SetVolume (dev : Device) (hist : List Sent) (_rend : Renderer) (_instanceId : Nat)
    (_channel : String) (vol : Nat) : Option String × List Sent :=
  let r := SendAction dev hist Service.renderControl "SetVolume"
    [("Channel", Arg.str "Master"), ("DesiredVolume", Arg.uint vol)] []
  (r.1.err, r.2)

/-- `(*Renderer).SetRelativeVolume`; `adjustment` is an int32, the sum is taken
in int32 and the result converted to uint16. -/
def Renderer.SetRelativeVolume (dev : Device) (hist : List Sent) (rend : Renderer)
    (instanceId : Nat) (channel : String) (adjustment : Int) :
    (Nat × Option String) × List Sent :=
  let g := rend.GetVolume dev hist instanceId channel
  match g.1.2 with
  | some e => ((0, some e), g.2)
  | none =>
    let vol := ternary.Max (ternary.Min (wrapInt32 ((g.1.1 : Int) + adjustment)) 100) 0
    let s := rend.SetVolume dev g.2 instanceId channel (vol % 65536).toNat
    match s.1 with
    | some e => ((0, some e), s.2)
    | none => (((vol % 65536).toNat, none), s.2)

/-- `(*Renderer).SetMute`. -/
def Renderer.SetMute (dev : Device) (hist : List Sent) (_rend : Renderer) (_instanceId : Nat)
    (_channel : String) (desiredMute : Bool) : Option String × List Sent :=
  let r := SendAction dev hist Service.renderControl "SetMute"
    [("Channel", Arg.str "Master"), ("DesiredMute", Arg.bool desiredMute)] []
  (r.1.err, r.2)

/-- `(*Renderer).Play`. -/
def Renderer.Play (dev : Device) (hist : List Sent) (_rend : Renderer) (_instanceId : Nat)
    (speed : String) : Option String × List Sent :=
  let r := SendAction dev hist Service.avTransport "Play" [("Speed", Arg.str speed)] []
  (r.1.err, r.2)

/-- `(*Renderer).Pause`. -/
def Renderer.Pause (dev : Device) (hist : List Sent) (_rend : Renderer) (_instanceId : Nat) :
    Option String × List Sent :=
  let r := SendAction dev hist Service.avTransport "Pause" [] []
  (r.1.err, r.2)

/-- `(*Renderer).PlayPause`. -/
def Renderer.PlayPause (dev : Device) (hist : List Sent) (rend : Renderer) (instanceId : Nat)
    (speed : String) : Option String × List Sent :=
  match rend.state with
  | PlaybackStatePaused => rend.Play dev hist instanceId speed
  | PlaybackStateStopped => rend.Play dev hist instanceId speed
  | PlaybackStatePlaying => rend.Pause dev hist instanceId
  | _ => (none, hist)

/-- `(*Renderer).Stop`. -/
def Renderer.Stop (dev : Device) (hist : List Sent) (_rend : Renderer) (_instanceId : Nat) :
    Option String × List Sent :=
  let r := SendAction dev hist Service.avTransport "Stop" [] []
  (r.1.err, r.2)

/-- `(*Renderer).SetAVTransportURI`: the result of `Stop` is dropped. -/
def Renderer.SetAVTransportURI (dev : Device) (hist : List Sent) (rend : Renderer)
    (_instanceId : Nat) (currentURI currentURIMetaData : String) : Option String × List Sent :=
  let st := rend.Stop dev hist 0
  let r := SendAction dev st.2 Service.avTransport "SetAVTransportURI"
    [("CurrentURI", Arg.str currentURI), ("CurrentURIMetaData", Arg.str currentURIMetaData)] []
  match r.1.err with
  | some e => (some e, r.2)
  | none => rend.Play dev r.2 0 "1"

/-- A device that accepts every action and reports the volume 95. -/
def demoDevice : Device := fun _ _ => ⟨none, 95, false, ""⟩

/-- A device that refuses the action `SetAVTransportURI` and accepts the
others. -/
def demoRefusing : Device := fun _ a =>
  ⟨if a.action = "SetAVTransportURI" then some "Invalid Args" else none, 0, false, ""⟩

/-- A device that refuses every action. -/
def demoDown : Device := fun _ _ => ⟨some "timeout", 0, false, ""⟩

/-- A backend renderer in the given playback state. -/
def demoRenderer (state : PlaybackState) : Renderer := ⟨"uuid:r1", "Living room", "", 0, 0, state⟩

end Backendgupnp

/-! ## MediaControl: actions and browsing -/

/-- `xml.Name`. -/
structure XMLName where
  Space : String
  Local : String
deriving DecidableEq, Repr

/-- `upnptype.Resource`. -/
structure Resource where
  ProtocolInfo : String
  URL : String
  Size : Nat
  Bitrate : Nat
  Duration : String
  Resolution : String
deriving DecidableEq, Repr

/-- `upnptype.Object`. -/
structure Object where
  ID : String
  ParentID : String
  Restricted : Int
  Class : String
  Icon : String
  Title : String
  Artist : String
  Album : String
  Genre : String
deriving DecidableEq, Repr

/-- `upnptype.Container`. -/
structure Container where
  toObject : Object
  XMLName : XMLName
  ChildCount : Int
deriving DecidableEq, Repr

/-- `upnptype.Item`. -/
structure Item where
  toObject : Object
  XMLName : XMLName
  Res : List Resource
deriving DecidableEq, Repr

/-- `upnptype.BrowseRequest`. -/
structure BrowseRequest where
  ObjectID : String
  BrowseFlag : String
  Filter : String
  StartingIndex : Nat
  RequestCount : Nat
  SortCriteria : String
deriving DecidableEq, Repr

/-- `upnptype.BrowseResult`. -/
structure BrowseResult where
  NumberReturned : Int
  TotalMatches : Int
  UpdateID : Int
  Container : List Container
  Item : List Object
deriving DecidableEq, Repr

/-- `upnptype.MaxBrowse`. -/
def MaxBrowse : Nat := 64

/-- `upnptype.PlaySpeedNormal`. -/
def PlaySpeedNormal : String := "1"

/-- `upnptype.SeekModeAbsTime`. -/
def SeekModeAbsTime : String := "ABS_TIME"

/-- `upnptype.ActionNone` (`type Action int`). -/
def ActionNone : Int := 0
/-- `upnptype.ActionToggleMute`. -/
def ActionToggleMute : Int := 1
/-- `upnptype.ActionVolumeDown`. -/
def ActionVolumeDown : Int := 2
/-- `upnptype.ActionVolumeUp`. -/
def ActionVolumeUp : Int := 3
/-- `upnptype.ActionPlayPause`. -/
def ActionPlayPause : Int := 4
/-- `upnptype.ActionStop`. -/
def ActionStop : Int := 5
/-- `upnptype.ActionSeekBackward`. -/
def ActionSeekBackward : Int := 6
/-- `upnptype.ActionSeekForward`. -/
def ActionSeekForward : Int := 7

/-- A method of the `upnptype.Renderer` interface called by `Action` or by
`BrowseMetadata`, with its arguments. -/
inductive RendererAction where
  | GetMute (instanceID : Nat) (channel : String)
  | SetMute (instanceID : Nat) (channel : String) (desiredMute : Bool)
  | GetVolume (instanceID : Nat) (channel : String)
  | SetVolume (instanceID : Nat) (channel : String) (volume : Nat)
  | PlayPause (instanceID : Nat) (speed : String)
  | Stop (instanceID : Nat)
  | Seek (instanceID : Nat) (unit target : String)
  | GetCurrentTime
  | SetAVTransportURI (instanceID : Nat) (currentURI currentURIMetaData : String)
deriving DecidableEq, Repr

/-- A method of the `upnptype.Server` interface called by `Browse` or by
`BrowseMetadata`, with its arguments. -/
inductive ServerAction where
  | Browse (req : BrowseRequest)
  | BrowseMetadata (container : String) (startingIndex requestedCount : Nat)
deriving DecidableEq, Repr

/-- What `Action`, `Browse` and `BrowseMetadata` do to the outside: a method of a
renderer or of a server is called, or `cp.log.Warningf(format, action, e)`. -/
inductive Out where
  | renderer (r : Renderer) (call : RendererAction)
  | server (s : Server) (call : ServerAction)
  | Warningf (format : String) (action : Int) (e : String)
deriving DecidableEq, Repr

/-- What the devices return to the calls above; an error is `Option String`
with `none` for nil, and the `*BrowseResult` may be nil.  One call of `Action`,
`Browse` or `BrowseMetadata` calls each method at most once, so a return value
is given as a function of the device and of the arguments. -/
structure Replies where
  GetMute : Renderer → Nat → String → Bool × Option String
  SetMute : Renderer → Nat → String → Bool → Option String
  GetVolume : Renderer → Nat → String → Nat × Option String
  SetVolume : Renderer → Nat → String → Nat → Option String
  PlayPause : Renderer → Nat → String → Option String
  Stop : Renderer → Nat → Option String
  Seek : Renderer → Nat → String → String → Option String
  GetCurrentTime : Renderer → Int
  SetAVTransportURI : Renderer → Nat → String → String → Option String
  Browse : Server → BrowseRequest → Option BrowseResult × Option String
  BrowseMetadata : Server → String → Nat → Nat → List Container × List Item × String

/-- `MediaControl.Renderer`. -/
def MediaControl.Renderer (cp : MediaControl) : Option Renderer := cp.curRend

/-- `MediaControl.GetCurrentTime`: the value and the call made. -/
def GetCurrentTime (io : Replies) (cp : MediaControl) : Int × List Out :=
  match cp.Renderer with
  | some r => (io.GetCurrentTime r, [Out.renderer r RendererAction.GetCurrentTime])
  | none => (-1, [])

/-- The `switch` of `MediaControl.Action` for the current renderer `r`.  The
result is: the variable `e` of the function (`var e error`) when the switch is
left; the variable `e` that `muted, e :=` and `vol, e :=` declare in the first
three case clauses (it is another variable, and nil where none is declared);
and the calls made.  The volume is computed in uint16
(`vol-uint16(cp.volumeDelta)`), the seek target in int. -/
def Action_switch (io : Replies) (cp : MediaControl) (r : Renderer) (action : Int) :
    Option String × Option String × List Out :=
  if action = ActionToggleMute then
    let g := io.GetMute r 0 ChannelMaster
    match g.2 with
    | none =>
      (none, io.SetMute r 0 ChannelMaster (!g.1),
       [Out.renderer r (RendererAction.GetMute 0 ChannelMaster),
        Out.renderer r (RendererAction.SetMute 0 ChannelMaster (!g.1))])
    | some e => (none, some e, [Out.renderer r (RendererAction.GetMute 0 ChannelMaster)])
  else if action = ActionVolumeDown then
    let g := io.GetVolume r 0 ChannelMaster
    let vol : Int := ((g.1 % 65536 : Nat) : Int)
    match g.2 with
    | none =>
      (none, io.SetVolume r 0 ChannelMaster ((vol - cp.volumeDelta % 65536) % 65536).toNat,
       [Out.renderer r (RendererAction.GetVolume 0 ChannelMaster),
        Out.renderer r (RendererAction.SetVolume 0 ChannelMaster
          ((vol - cp.volumeDelta % 65536) % 65536).toNat)])
    | some e => (none, some e, [Out.renderer r (RendererAction.GetVolume 0 ChannelMaster)])
  else if action = ActionVolumeUp then
    let g := io.GetVolume r 0 ChannelMaster
    let vol : Int := ((g.1 % 65536 : Nat) : Int)
    match g.2 with
    | none =>
      (none, io.SetVolume r 0 ChannelMaster ((vol + cp.volumeDelta % 65536) % 65536).toNat,
       [Out.renderer r (RendererAction.GetVolume 0 ChannelMaster),
        Out.renderer r (RendererAction.SetVolume 0 ChannelMaster
          ((vol + cp.volumeDelta % 65536) % 65536).toNat)])
    | some e => (none, some e, [Out.renderer r (RendererAction.GetVolume 0 ChannelMaster)])
  else if action = ActionPlayPause then
    (io.PlayPause r 0 PlaySpeedNormal, none,
     [Out.renderer r (RendererAction.PlayPause 0 PlaySpeedNormal)])
  else if action = ActionStop then
    (io.Stop r 0, none, [Out.renderer r (RendererAction.Stop 0)])
  else if action = ActionSeekBackward then
    let c := GetCurrentTime io cp
    let target := TimeToString (wrapInt (c.1 - cp.seekDelta))
    (io.Seek r 0 SeekModeAbsTime target, none,
     c.2 ++ [Out.renderer r (RendererAction.Seek 0 SeekModeAbsTime target)])
  else if action = ActionSeekForward then
    let c := GetCurrentTime io cp
    let target := TimeToString (wrapInt (c.1 + cp.seekDelta))
    (io.Seek r 0 SeekModeAbsTime target, none,
     c.2 ++ [Out.renderer r (RendererAction.Seek 0 SeekModeAbsTime target)])
  else (none, none, [])

/-- `MediaControl.Action`: the manager afterwards (no field is assigned), the
error returned and what was done to the outside.  The warning is logged, and
the error returned, from the variable `e` of the function.  `cp.log` is the
logger handed to `New`, taken to be non-nil. -/
def Action (io : Replies) (cp : MediaControl) (action : Int) :
    MediaControl × Option String × List Out :=
  match cp.curRend with
  | none => (cp, none, [])
  | some r =>
    let sw := Action_switch io cp r action
    match sw.1 with
    | some e => (cp, some e, sw.2.2 ++ [Out.Warningf "action failed #%d: %s" action e])
    | none => (cp, none, sw.2.2)

/-- `MediaControl.Browse`: the four results and the calls made; `none` is a
run-time panic (the server returned a nil result with a nil error). -/
def Browse (io : Replies) (cp : MediaControl) (container : String) (startingIndex : Nat) :
    Option ((List Container × List Object × Nat × Nat) × List Out) :=
  if !ServerExists cp then some (([], [], 0, 0), [])
  else
    match cp.curSrv with
    | none => none
    | some s =>
      let req : BrowseRequest :=
        { ObjectID := container, BrowseFlag := "BrowseDirectChildren", Filter := "@childCount",
          StartingIndex := startingIndex, RequestCount := MaxBrowse % 2 ^ 32, SortCriteria := "" }
      match io.Browse s req with
      | (_, some _) => some (([], [], 0, 0), [Out.server s (ServerAction.Browse req)])
      | (none, none) => none
      | (some res, none) =>
        some ((res.Container, res.Item, 0, 0), [Out.server s (ServerAction.Browse req)])

/-- The loop `for _, item := range items` of `MediaControl.BrowseMetadata`: the
first item with `len(item.Res) > 0` ends the function with the result of
`SetAVTransportURI(0, item.Res[0].URL, didlxml)`. -/
def BrowseMetadata_range (io : Replies) (r : Renderer) (didlxml : String) :
    List Item → Option String × List Out
  | [] => (none, [])
  | item :: rest =>
    match item.Res with
    | res0 :: _ =>
      (io.SetAVTransportURI r 0 res0.URL didlxml,
       [Out.renderer r (RendererAction.SetAVTransportURI 0 res0.URL didlxml)])
    | [] => BrowseMetadata_range io r didlxml rest

/-- `MediaControl.BrowseMetadata`: the error returned and the calls made; `none`
is a run-time panic (`cp.curSrv.BrowseMetadata` on a nil `cp.curSrv`). -/
def BrowseMetadata (io : Replies) (cp : MediaControl) (container : String)
    (startingIndex : Nat) : Option (Option String × List Out) :=
  match cp.curRend with
  | none => some (none, [])
  | some r =>
    match cp.curSrv with
    | none => none
    | some s =>
      let b := io.BrowseMetadata s container startingIndex MaxBrowse
      let l := BrowseMetadata_range io r b.2.2 b.2.1
      some (l.1, Out.server s (ServerAction.BrowseMetadata container startingIndex MaxBrowse)
        :: l.2)

/-- Devices that accept every call; the renderers report the volume `v`, not
muted, and the position `c` seconds. -/
def demoReplies (v : Nat) (c : Int) : Replies :=
  { GetMute := fun _ _ _ => (false, none)
    SetMute := fun _ _ _ _ => none
    GetVolume := fun _ _ _ => (v, none)
    SetVolume := fun _ _ _ _ => none
    PlayPause := fun _ _ _ => none
    Stop := fun _ _ => none
    Seek := fun _ _ _ _ => none
    GetCurrentTime := fun _ => c
    SetAVTransportURI := fun _ _ _ _ => none
    Browse := fun _ _ => (some ⟨0, 0, 0, [], []⟩, none)
    BrowseMetadata := fun _ _ _ _ => ([], [], "") }

/-- Devices every call of which fails with "timeout". -/
def demoFailing : Replies :=
  { GetMute := fun _ _ _ => (false, some "timeout")
    SetMute := fun _ _ _ _ => some "timeout"
    GetVolume := fun _ _ _ => (0, some "timeout")
    SetVolume := fun _ _ _ _ => some "timeout"
    PlayPause := fun _ _ _ => some "timeout"
    Stop := fun _ _ => some "timeout"
    Seek := fun _ _ _ _ => some "timeout"
    GetCurrentTime := fun _ => 0
    SetAVTransportURI := fun _ _ _ _ => some "timeout"
    Browse := fun _ _ => (none, some "timeout")
    BrowseMetadata := fun _ _ _ _ => ([], [], "") }

/-- The manager `demoSelected` with the volume delta 10. -/
def demoDelta : MediaControl := { demoSelected with volumeDelta := 10 }

/-- The manager `demoSelected` without a selected server. -/
def demoNoServer : MediaControl := { demoSelected with curSrv := none }

/-- An item without a resource. -/
def demoFolderItem : Item :=
  { toObject := ⟨"12", "1", 1, "object.item", "", "Cover", "", "", ""⟩
    XMLName := ⟨"", "item"⟩
    Res := [] }

/-- An item with two resources. -/
def demoSong : Item :=
  { toObject := ⟨"13", "1", 1, "object.item.audioItem", "", "Song", "Band", "Record", "Rock"⟩
    XMLName := ⟨"", "item"⟩
    Res := [⟨"http-get:*:audio/mpeg:*", "http://nas/a.mp3", 4000000, 16000, "0:03:20", ""⟩,
            ⟨"http-get:*:audio/flac:*", "http://nas/a.flac", 30000000, 0, "0:03:20", ""⟩] }

/-- The devices of `demoReplies 30 0`, the server answering `BrowseMetadata` with
the two items above. -/
def demoLibrary : Replies :=
  { demoReplies 30 0 with
    BrowseMetadata := fun _ _ _ _ => ([], [demoFolderItem, demoSong], "<DIDL-Lite/>")
    Browse := fun _ _ =>
      (some ⟨2, 2, 0, [⟨demoFolderItem.toObject, ⟨"", "container"⟩, 3⟩], [demoSong.toObject]⟩,
       none) }

/-- The manager `demoSelected` with the seek delta `d`. -/
def demoSeeking (d : Int) : MediaControl := { demoSelected with seekDelta := d }

/-! ## Package backendgupnp: messages of a renderer, and the clock -/

/-- A value of type `interface{}` held by an `mxj.Map`: nil, a string (an
element with character data only, or an attribute), a map (an element with
attributes or children; the key of an attribute is its name after a hyphen), or
a slice (an element repeated under one parent). -/
inductive Backendgupnp.Value where
  | null
  | str (s : String)
  | map (m : List (String × Backendgupnp.Value))
  | list (l : List Backendgupnp.Value)

/-- The library mxj at the head of `unmarshalMessage`: for a payload, the result
`gg, e` of `m.ValuesForPath("Event.InstanceID")` on the map `m` built by
`mxj.NewMapXml` (whose own error is only logged). -/
abbrev Backendgupnp.Mxj := String → List Backendgupnp.Value × Option String

/-- The loop of `unmarshalMessage` over the entries of `gg[0]`: `none` is the
run-time panic of the type assertion `v.(map[string]interface{})` on a value
that is not a map; the index expression `["-val"]` yields nil for a map without
that key. -/
def Backendgupnp.unmarshalMessage_range :
    List (String × Backendgupnp.Value) → GoMap Backendgupnp.Value →
      Option (GoMap Backendgupnp.Value)
  | [], values => some values
  | (k, v) :: rest, values =>
    if k ≠ "-val" then
      match v with
      | Backendgupnp.Value.map m =>
        Backendgupnp.unmarshalMessage_range rest
          (mapSet values k ((mapGet m "-val").getD Backendgupnp.Value.null))
      | _ => none
    else Backendgupnp.unmarshalMessage_range rest values

/-- `unmarshalMessage`: `none` is a run-time panic (a failed type assertion),
`some none` the nil map, `some (some values)` the map built. -/
def Backendgupnp.unmarshalMessage (mxj : Backendgupnp.Mxj) (x : String) :
    Option (Option (GoMap Backendgupnp.Value)) :=
  match (mxj x).2, (mxj x).1 with
  | none, g :: _ =>
    match g with
    | Backendgupnp.Value.map m => (Backendgupnp.unmarshalMessage_range m []).map some
    | _ => none
  | _, _ => some none

/-- `strconv.Atoi`: an optional sign and at least one decimal digit, nothing
else, the value within the range of int; `none` is an error. -/
def Atoi (s : String) : Option Int :=
  match s.toList with
  | [] => none
  | c :: rest =>
    let body := if c = '-' ∨ c = '+' then rest else c :: rest
    if body = [] ∨ body.all Char.isDigit = false then none
    else
      let v : Int := if c = '-' then - (digitsValue body : Int) else (digitsValue body : Int)
      if - 2 ^ 63 ≤ v ∧ v < 2 ^ 63 then some v else none

/-- A call of a slot of `rend.events` by the backend, with its arguments after
the renderer; for `OnCurrentTime` the two operands of the quotient
`float64(rend.Current)/float64(rend.duration)` stand for it. -/
inductive Backendgupnp.Raised where
  | OnTransportState (state : PlaybackState)
  | OnCurrentTrackDuration (duration : Int)
  | OnCurrentTrackMetaData (item : Item)
  | OnMute (mute : Bool)
  | OnVolume (volume : Nat)
  | OnCurrentTime (secs : Int) (duration : Int)
deriving DecidableEq, Repr

/-- An operation on a `time.Ticker`: `time.NewTicker` creating the ticker `t`
(with the goroutine that polls the renderer at each tick), or `t.Stop()`. -/
inductive Backendgupnp.TickerOp where
  | NewTicker (t : Nat)
  | Stop (t : Nat)
deriving DecidableEq, Repr

/-- The tickers that are running after a list of operations: created and not
stopped since. -/
def Backendgupnp.running : List Backendgupnp.TickerOp → List Nat
  | [] => []
  | op :: rest =>
    match op with
    | Backendgupnp.TickerOp.NewTicker t =>
      if (Backendgupnp.TickerOp.Stop t) ∈ rest then Backendgupnp.running rest
      else t :: Backendgupnp.running rest
    | Backendgupnp.TickerOp.Stop _ => Backendgupnp.running rest

/-- A renderer object of the backend with what surrounds it: its fields,
`rend.tick` (`none` is nil), the ticker operations so far, the actions sent to
the device so far and the calls of the slots of `rend.events` so far (the slots
hold the closures the manager installed when the renderer was found). -/
structure Backendgupnp.Live where
  rend : Backendgupnp.Renderer
  tick : Option Nat
  tickers : List Backendgupnp.TickerOp
  sent : List Backendgupnp.Sent
  raised : List Backendgupnp.Raised
deriving DecidableEq, Repr

/-- `(*Renderer).GetCurrentTime` of the backend: `rend.Current` is updated when
the action returned no error. -/
def Backendgupnp.Live.GetCurrentTime (dev : Backendgupnp.Device) (w : Backendgupnp.Live) :
    Backendgupnp.Live :=
  let r := Backendgupnp.SendAction dev w.sent Backendgupnp.Service.avTransport "GetPositionInfo"
    [] ["AbsTime"]
  match r.1.err with
  | none => { w with sent := r.2, rend := { w.rend with Current := TimeToSecond r.1.strOut } }
  | some _ => { w with sent := r.2 }

/-- `(*Renderer).DisplayCurrentTime` of the backend. -/
def Backendgupnp.Live.DisplayCurrentTime (w : Backendgupnp.Live) : Backendgupnp.Live :=
  { w with raised := w.raised ++ [Backendgupnp.Raised.OnCurrentTime w.rend.Current
      w.rend.duration] }

/-- `upnptype.Clock(rend, tick, state)` for a renderer of the backend: the
ticker returned and the renderer afterwards.  A new ticker gets the number of
ticker operations before it as its name. -/
def Clock (dev : Backendgupnp.Device) (w : Backendgupnp.Live) (tick : Option Nat)
    (state : PlaybackState) : Option Nat × Backendgupnp.Live :=
  let w1 := (w.GetCurrentTime dev).DisplayCurrentTime
  let w2 : Backendgupnp.Live :=
    match tick with
    | some t => { w1 with tickers := w1.tickers ++ [Backendgupnp.TickerOp.Stop t] }
    | none => w1
  match state with
  | PlaybackStatePlaying =>
    (some w2.tickers.length,
     { w2 with tickers := w2.tickers ++ [Backendgupnp.TickerOp.NewTicker w2.tickers.length] })
  | _ => (tick, w2)

/-- The body of the goroutine started by `Clock`, run at a tick of the ticker
`t`: nothing arrives from a ticker that is not running. -/
def Backendgupnp.Live.onTick (dev : Backendgupnp.Device) (t : Nat) (w : Backendgupnp.Live) :
    Backendgupnp.Live :=
  if t ∈ Backendgupnp.running w.tickers then (w.GetCurrentTime dev).DisplayCurrentTime else w

/-- The loop of `onMsgAVT` over the entries of the map returned by
`unmarshalMessage`, in the order of the list; `none` is the run-time panic of
the type assertion `v.(string)` on a value that is not a string (nil
included).  `unmarshalDidl` stands for the function of that name
(`xml.Unmarshal` into an item). -/
def Backendgupnp.Live.onMsgAVT_range (dev : Backendgupnp.Device) (unmarshalDidl : String → Item) :
    List (String × Backendgupnp.Value) → Backendgupnp.Live → Option Backendgupnp.Live
  | [], w => some w
  | (k, v) :: rest, w =>
    if k = "TransportState" then
      match v with
      | Backendgupnp.Value.str s =>
        let w1 : Backendgupnp.Live :=
          { w with rend := { w.rend with state := PlaybackStateFromName s } }
        let w2 : Backendgupnp.Live :=
          { w1 with raised := w1.raised ++ [Backendgupnp.Raised.OnTransportState w1.rend.state] }
        let c := Clock dev w2 w2.tick w2.rend.state
        Backendgupnp.Live.onMsgAVT_range dev unmarshalDidl rest { c.2 with tick := c.1 }
      | _ => none
    else if k = "CurrentTrackDuration" then
      match v with
      | Backendgupnp.Value.str s =>
        let w1 : Backendgupnp.Live := { w with rend := { w.rend with duration := TimeToSecond s } }
        Backendgupnp.Live.onMsgAVT_range dev unmarshalDidl rest
          { w1 with raised := w1.raised
              ++ [Backendgupnp.Raised.OnCurrentTrackDuration (TimeToSecond s)] }
      | _ => none
    else if k = "CurrentTrackMetaData" then
      match v with
      | Backendgupnp.Value.str s =>
        Backendgupnp.Live.onMsgAVT_range dev unmarshalDidl rest
          { w with raised := w.raised
              ++ [Backendgupnp.Raised.OnCurrentTrackMetaData (unmarshalDidl s)] }
      | _ => none
    else Backendgupnp.Live.onMsgAVT_range dev unmarshalDidl rest w

/-- `(*Renderer).onMsgAVT`: the renderer afterwards, `none` for a run-time
panic; ranging over the nil map does nothing. -/
def Backendgupnp.Live.onMsgAVT (mxj : Backendgupnp.Mxj) (dev : Backendgupnp.Device)
    (unmarshalDidl : String → Item) (str : String) (w : Backendgupnp.Live) :
    Option Backendgupnp.Live :=
  match Backendgupnp.unmarshalMessage mxj str with
  | none => none
  | some none => some w
  | some (some values) => Backendgupnp.Live.onMsgAVT_range dev unmarshalDidl values w

/-- The loop of `onMsgRCS`; `uint(i)` wraps around. -/
def Backendgupnp.Live.onMsgRCS_range :
    List (String × Backendgupnp.Value) → Backendgupnp.Live → Option Backendgupnp.Live
  | [], w => some w
  | (k, v) :: rest, w =>
    if k = "Mute" then
      match v with
      | Backendgupnp.Value.str s =>
        match Atoi s with
        | some i =>
          Backendgupnp.Live.onMsgRCS_range rest
            { w with raised := w.raised ++ [Backendgupnp.Raised.OnMute (decide (i = 1))] }
        | none => Backendgupnp.Live.onMsgRCS_range rest w
      | _ => none
    else if k = "Volume" then
      match v with
      | Backendgupnp.Value.str s =>
        match Atoi s with
        | some i =>
          Backendgupnp.Live.onMsgRCS_range rest
            { w with raised := w.raised ++ [Backendgupnp.Raised.OnVolume (i % 2 ^ 64).toNat] }
        | none => Backendgupnp.Live.onMsgRCS_range rest w
      | _ => none
    else Backendgupnp.Live.onMsgRCS_range rest w

/-- `(*Renderer).onMsgRCS`. -/
def Backendgupnp.Live.onMsgRCS (mxj : Backendgupnp.Mxj) (str : String) (w : Backendgupnp.Live) :
    Option Backendgupnp.Live :=
  match Backendgupnp.unmarshalMessage mxj str with
  | none => none
  | some none => some w
  | some (some values) => Backendgupnp.Live.onMsgRCS_range values w

/-- `(*ControlPoint).onDmrProxyLost` with the events of the manager `cp`
connected (`SetEvents(cp.DefineEvents())`): `cp.onMediaRendererLost` is called
with a new object `&Renderer{proxy: ...}` (`ptr` is its address).  The renderer
object `w` of the backend that holds the proxy is not an operand of any
statement on this path. -/
def Backendgupnp.onDmrProxyLost (io : Answers) (ptr proxy : Nat) (cp : MediaControl)
    (w : Backendgupnp.Live) : Option (MediaControl × Backendgupnp.Live × List Ev) :=
  (onMediaRendererLost Renderer.CompareProxy io
      { ptr := ptr, udn := "", name := "", proxy := proxy } cp).map
    fun r => (r.1, w, r.2)

/-- What comes back from the content directory for the action Browse. -/
structure Backendgupnp.BrowseReply where
  err : Option String
  Result : String
  NumberReturned : Nat
  TotalMatches : Nat
deriving DecidableEq, Repr

/-- The content directory of a server at the other end. -/
abbrev Backendgupnp.ContentDir :=
  List Backendgupnp.Sent → Backendgupnp.Sent → Backendgupnp.BrowseReply

/-- The fields of `backendgupnp.Server` (without its proxies). -/
structure Backendgupnp.Server where
  udn : String
  name : String
  id : String
  isContainer : Bool
deriving DecidableEq, Repr

/-- `(*Server).Browse` of the backend: the result, the error and the actions
sent so far.  The value of `SendAction` is not assigned; `unmarshal` stands for
`xml.Unmarshal` into a `didlContainer` (its error is not assigned either);
`int32(numberReturned)` wraps around. -/
def Backendgupnp.Server.Browse (cd : Backendgupnp.ContentDir)
    (unmarshal : String → List Container × List Item) (hist : List Backendgupnp.Sent)
    (_s : Backendgupnp.Server) (req : BrowseRequest) :
    (Option BrowseResult × Option String) × List Backendgupnp.Sent :=
  let a : Backendgupnp.Sent :=
    ⟨Backendgupnp.Service.contentDir, "Browse",
     [("InstanceID", Backendgupnp.Arg.uint 0),
      ("ObjectID", Backendgupnp.Arg.str req.ObjectID),
      ("BrowseFlag", Backendgupnp.Arg.str "BrowseDirectChildren"),
      ("Filter", Backendgupnp.Arg.str "@childCount"),
      ("StartingIndex", Backendgupnp.Arg.uint req.StartingIndex),
      ("RequestedCount", Backendgupnp.Arg.uint req.RequestCount),
      ("SortCriteria", Backendgupnp.Arg.str "")],
     ["Result", "NumberReturned", "TotalMatches"]⟩
  let reply := cd hist a
  let item := unmarshal reply.Result
  ((some { NumberReturned := wrapInt32 reply.NumberReturned
           TotalMatches := wrapInt32 reply.TotalMatches
           UpdateID := 0
           Container := item.1
           Item := item.2.map Item.toObject }, none), hist ++ [a])

/-- A LastChange payload of the AVTransport service: the transport state is
PLAYING. -/
def Backendgupnp.payloadPlaying : String :=
  "<Event><InstanceID val=\"0\"><TransportState val=\"PLAYING\"/></InstanceID></Event>"

/-- A LastChange payload of the RenderingControl service that reports the
volume of two channels. -/
def Backendgupnp.payloadTwoVolumes : String :=
  "<Event><InstanceID val=\"0\"><Volume channel=\"Master\" val=\"30\"/><Volume channel=\"LF\" val=\"30\"/></InstanceID></Event>"

/-- A payload whose property holds its value as character data. -/
def Backendgupnp.payloadText : String :=
  "<Event><InstanceID val=\"0\"><TransportState>PLAYING</TransportState></InstanceID></Event>"

/-- A payload whose property has an attribute but no attribute `val`. -/
def Backendgupnp.payloadNoVal : String :=
  "<Event><InstanceID val=\"0\"><TransportState other=\"x\"/></InstanceID></Event>"

/-- What the library mxj returns for the four payloads above (attributes under
their name after a hyphen, a repeated element as a slice, an element with
character data only as a string); for every other payload, nothing under the
path `Event.InstanceID`. -/
def Backendgupnp.demoMxj : Backendgupnp.Mxj := fun x =>
  if x = Backendgupnp.payloadPlaying then
    ([Backendgupnp.Value.map [("-val", Backendgupnp.Value.str "0"),
        ("TransportState", Backendgupnp.Value.map [("-val", Backendgupnp.Value.str "PLAYING")])]],
     none)
  else if x = Backendgupnp.payloadTwoVolumes then
    ([Backendgupnp.Value.map [("-val", Backendgupnp.Value.str "0"),
        ("Volume", Backendgupnp.Value.list
          [Backendgupnp.Value.map [("-channel", Backendgupnp.Value.str "Master"),
             ("-val", Backendgupnp.Value.str "30")],
           Backendgupnp.Value.map [("-channel", Backendgupnp.Value.str "LF"),
             ("-val", Backendgupnp.Value.str "30")]])]],
     none)
  else if x = Backendgupnp.payloadText then
    ([Backendgupnp.Value.map [("-val", Backendgupnp.Value.str "0"),
        ("TransportState", Backendgupnp.Value.str "PLAYING")]],
     none)
  else if x = Backendgupnp.payloadNoVal then
    ([Backendgupnp.Value.map [("-val", Backendgupnp.Value.str "0"),
        ("TransportState", Backendgupnp.Value.map [("-other", Backendgupnp.Value.str "x")])]],
     none)
  else ([], none)

/-- The backend object of the renderer `livingRoom`, newly found: no ticker, no
action sent, no event raised. -/
def Backendgupnp.demoLive : Backendgupnp.Live :=
  { rend := ⟨"udn-1", "Living Room", "", 0, 0, PlaybackStateUnknown⟩
    tick := none
    tickers := []
    sent := []
    raised := [] }

/-- The object `demoLive` after the payload `payloadPlaying`: its state is
Playing and its ticker 0 is running. -/
def Backendgupnp.demoPlaying : Backendgupnp.Live :=
  { rend := ⟨"udn-1", "Living Room", "", 0, 0, PlaybackStatePlaying⟩
    tick := some 0
    tickers := [Backendgupnp.TickerOp.NewTicker 0]
    sent := [⟨Backendgupnp.Service.avTransport, "GetPositionInfo",
      [("InstanceID", Backendgupnp.Arg.uint 0)], ["AbsTime"]⟩]
    raised := [Backendgupnp.Raised.OnTransportState PlaybackStatePlaying,
      Backendgupnp.Raised.OnCurrentTime 0 0] }

/-- A content directory that does not answer. -/
def Backendgupnp.demoDownDir : Backendgupnp.ContentDir := fun _ _ => ⟨some "timeout", "", 0, 0⟩

/-- A server object of the backend. -/
def Backendgupnp.demoServer : Backendgupnp.Server := ⟨"udn-3", "NAS", "0", true⟩

/-- The renderer object holds its only running ticker in `rend.tick`: every
ticker that is running for it is the one stored there. -/
def Backendgupnp.Live.TickOk (w : Backendgupnp.Live) : Prop :=
  ∀ t ∈ Backendgupnp.running w.tickers, w.tick = some t

/-! ## Lemmas on Go maps -/

section Maps
variable {α : Type}

theorem mapGet_mapDelete_self (m : GoMap α) (k : String) : mapGet (mapDelete m k) k = none := by
  induction m with
  | nil => rfl
  | cons e m ih =>
    obtain ⟨k', v⟩ := e
    by_cases h : k' = k
    · simpa [mapDelete, h] using ih
    · have : mapDelete ((k', v) :: m) k = (k', v) :: mapDelete m k := by simp [mapDelete, h]
      rw [this]; simp [mapGet, h, ih]

theorem mapGet_mapDelete_ne (m : GoMap α) {k k' : String} (h : k' ≠ k) :
    mapGet (mapDelete m k) k' = mapGet m k' := by
  induction m with
  | nil => rfl
  | cons e m ih =>
    obtain ⟨k0, v⟩ := e
    by_cases h0 : k0 = k
    · have h1 : k0 ≠ k' := fun hh => h (hh ▸ h0)
      have : mapDelete ((k0, v) :: m) k = mapDelete m k := by simp [mapDelete, h0]
      rw [this, ih]; simp [mapGet, h1]
    · have : mapDelete ((k0, v) :: m) k = (k0, v) :: mapDelete m k := by simp [mapDelete, h0]
      rw [this]; simp [mapGet, ih]

theorem mapGet_append (m m' : GoMap α) (k : String) :
    mapGet (m ++ m') k = (mapGet m k).orElse (fun _ => mapGet m' k) := by
  induction m with
  | nil => simp [mapGet]
  | cons e m ih =>
    obtain ⟨k0, v⟩ := e
    by_cases h0 : k0 = k <;> simp [mapGet, h0, ih]

theorem mapGet_mapSet_self (m : GoMap α) (k : String) (v : α) :
    mapGet (mapSet m k v) k = some v := by
  simp [mapSet, mapGet_append, mapGet_mapDelete_self, mapGet]

theorem mapGet_mapSet_ne (m : GoMap α) {k k' : String} (v : α) (h : k' ≠ k) :
    mapGet (mapSet m k v) k' = mapGet m k' := by
  have h1 : k ≠ k' := fun hh => h hh.symm
  simp [mapSet, mapGet_append, mapGet_mapDelete_ne m h, mapGet, h1]

theorem mapGet_eq_none_iff (m : GoMap α) (k : String) : mapGet m k = none ↔ k ∉ mapKeys m := by
  induction m with
  | nil => simp [mapGet, mapKeys]
  | cons e m ih =>
    obtain ⟨k0, v⟩ := e
    by_cases h0 : k0 = k
    · simp [mapGet, mapKeys, h0]
    · have h1 : k ≠ k0 := fun hh => h0 hh.symm
      simp only [mapGet, h0, if_false, ih, mapKeys, List.map_cons, List.mem_cons, h1, false_or]

theorem mem_of_mapGet {m : GoMap α} {k : String} {v : α} (h : mapGet m k = some v) :
    (k, v) ∈ m := by
  induction m with
  | nil => simp [mapGet] at h
  | cons e m ih =>
    obtain ⟨k0, v0⟩ := e
    by_cases h0 : k0 = k
    · simp [mapGet, h0] at h; simp [h0, h]
    · simp only [mapGet, h0, if_false] at h
      exact List.mem_cons_of_mem _ (ih h)

theorem mapGet_of_mem {m : GoMap α} (hnd : (mapKeys m).Nodup) {k : String} {v : α}
    (h : (k, v) ∈ m) : mapGet m k = some v := by
  induction m with
  | nil => simp at h
  | cons e m ih =>
    obtain ⟨k0, v0⟩ := e
    simp only [mapKeys, List.map_cons, List.nodup_cons] at hnd
    rcases List.mem_cons.1 h with heq | hmem
    · simp only [Prod.mk.injEq] at heq
      simp [mapGet, heq.1, heq.2]
    · have hk : k ∈ mapKeys m := List.mem_map.2 ⟨(k, v), hmem, rfl⟩
      have h0 : k0 ≠ k := fun hh => hnd.1 (hh ▸ hk)
      simp only [mapGet, h0, if_false]
      exact ih hnd.2 hmem

theorem mapKeys_mapDelete (m : GoMap α) (k : String) :
    mapKeys (mapDelete m k) = (mapKeys m).filter (fun k' => decide (k' ≠ k)) := by
  induction m with
  | nil => rfl
  | cons e m ih =>
    obtain ⟨k0, v⟩ := e
    by_cases h0 : k0 = k
    · simpa [mapDelete, mapKeys, h0] using ih
    · simpa [mapDelete, mapKeys, h0] using ih

theorem mem_mapKeys_mapDelete (m : GoMap α) (k k' : String) :
    k' ∈ mapKeys (mapDelete m k) ↔ k' ∈ mapKeys m ∧ k' ≠ k := by
  simp [mapKeys_mapDelete]

theorem mem_mapKeys_mapSet (m : GoMap α) (k k' : String) (v : α) :
    k' ∈ mapKeys (mapSet m k v) ↔ k' ∈ mapKeys m ∨ k' = k := by
  have : mapKeys (mapSet m k v) = mapKeys (mapDelete m k) ++ [k] := by simp [mapSet, mapKeys]
  rw [this, List.mem_append, mem_mapKeys_mapDelete]
  by_cases h : k' = k <;> simp [h]

theorem nodup_mapDelete {m : GoMap α} (h : (mapKeys m).Nodup) (k : String) :
    (mapKeys (mapDelete m k)).Nodup := by
  rw [mapKeys_mapDelete]; exact h.filter _

theorem nodup_mapSet {m : GoMap α} (h : (mapKeys m).Nodup) (k : String) (v : α) :
    (mapKeys (mapSet m k v)).Nodup := by
  have : mapKeys (mapSet m k v) = mapKeys (mapDelete m k) ++ [k] := by simp [mapSet, mapKeys]
  rw [this]
  refine List.Nodup.append (nodup_mapDelete h k) (List.nodup_singleton k) ?_
  intro x hx hx'
  rw [mem_mapKeys_mapDelete] at hx
  exact hx.2 (List.mem_singleton.1 hx')

theorem mem_mapDelete {m : GoMap α} {k k' : String} {v : α} :
    (k', v) ∈ mapDelete m k ↔ (k', v) ∈ m ∧ k' ≠ k := by
  simp [mapDelete]

theorem mem_mapSet {m : GoMap α} {k k' : String} {v v' : α} :
    (k', v') ∈ mapSet m k v ↔ ((k', v') ∈ m ∧ k' ≠ k) ∨ (k' = k ∧ v' = v) := by
  simp [mapSet, mapDelete]

end Maps

/-! ## The hook registry -/

theorem foldl_append_filter {β : Type} (p : β → Bool) (l acc : List β) :
    l.foldl (fun ret x => if p x then ret ++ [x] else ret) acc = acc ++ l.filter p := by
  induction l generalizing acc with
  | nil => simp
  | cons x l ih =>
    by_cases hx : p x = true
    · simp [List.foldl_cons, ih, hx, List.filter_cons]
    · simp [List.foldl_cons, ih, hx, List.filter_cons]

theorem hookTest_eq_filter (cp : MediaControl) (test : MediaHook → Bool) :
    hookTest cp test = cp.hooks.filter (fun e => test e.2) := by
  unfold hookTest
  rw [foldl_append_filter (fun e : String × MediaHook => test e.2)]
  rfl

theorem EventKind_test_eq (k : EventKind) (h : MediaHook) : k.test h = (h.slot k).isSome := by
  cases k <;> rfl

theorem hookTest_kind (cp : MediaControl) (k : EventKind) :
    hookTest cp k.test = cp.hooks.filter (fun e => (e.2.slot k).isSome) := by
  rw [hookTest_eq_filter]
  congr 1
  funext e
  exact EventKind_test_eq k e.2

/-- C9. For every registry and every event kind, the hooks that a dispatch of
that kind calls (the result of `hookTest` for the test of the kind) are exactly
the registered hooks whose slot of that kind is non-nil, in the order of the
visit and each as often as it is registered (once, keys being unique); a hook
whose slot is nil is never called. -/
theorem hookTest_exact (cp : MediaControl) (k : EventKind) :
    hookTest cp k.test = cp.hooks.filter (fun e => (e.2.slot k).isSome)
    ∧ (∀ e, e ∈ hookTest cp k.test ↔ e ∈ cp.hooks ∧ e.2.slot k ≠ none)
    ∧ (∀ e, (hookTest cp k.test).count e = if e.2.slot k ≠ none then cp.hooks.count e else 0)
    ∧ (∀ call id, Ev.hook id call ∈ fire (hookTest cp k.test) call →
        ∃ h, (id, h) ∈ cp.hooks ∧ h.slot k ≠ none)
    ∧ ((mapKeys cp.hooks).Nodup → (mapKeys (hookTest cp k.test)).Nodup) := by
  have h1 := hookTest_kind cp k
  refine ⟨h1, ?_, ?_, ?_, ?_⟩
  · intro e
    rw [h1, List.mem_filter]
    simp [Option.isSome_iff_ne_none]
  · intro e
    rw [h1]
    by_cases hs : e.2.slot k = none
    · have : e ∉ cp.hooks.filter (fun e => (e.2.slot k).isSome) := by
        simp [List.mem_filter, hs]
      simp [hs, List.count_eq_zero_of_not_mem this]
    · have hp : (fun e : String × MediaHook => (e.2.slot k).isSome) e = true := by
        simpa [Option.isSome_iff_ne_none] using hs
      rw [if_pos hs]
      exact List.count_filter hp
  · intro call id hmem
    rw [h1] at hmem
    simp only [fire, List.mem_map, List.mem_filter] at hmem
    obtain ⟨e, ⟨he, hs⟩, heq⟩ := hmem
    simp only [Ev.hook.injEq, and_true] at heq
    exact ⟨e.2, by rw [← heq]; exact he, by simpa [Option.isSome_iff_ne_none] using hs⟩
  · intro hnd
    rw [h1]
    exact List.Nodup.sublist (List.Sublist.map _ (List.filter_sublist _)) hnd

theorem survives_iff {β : Type} (add rem : β → Bool) (ops : List β) (b : Bool) :
    survives add rem ops b = true ↔
      (∃ pre x post, ops = pre ++ x :: post ∧ add x = true ∧ ∀ y ∈ post, rem y = false)
      ∨ (b = true ∧ ∀ y ∈ ops, rem y = false) := by
  induction ops generalizing b with
  | nil => simp [survives]
  | cons x xs ih =>
    rw [survives, ih]
    constructor
    · rintro (⟨pre, y, post, rfl, hy, hpost⟩ | ⟨hb, hall⟩)
      · exact Or.inl ⟨x :: pre, y, post, rfl, hy, hpost⟩
      · by_cases hx : add x = true
        · exact Or.inl ⟨[], x, xs, rfl, hx, hall⟩
        · by_cases hr : rem x = true
          · simp [hx, hr] at hb
          · simp only [hx, hr] at hb
            refine Or.inr ⟨by simpa using hb, ?_⟩
            intro y hy
            rcases List.mem_cons.1 hy with rfl | hy
            · simpa using hr
            · exact hall y hy
    · rintro (⟨pre, y, post, heq, hy, hpost⟩ | ⟨hb, hall⟩)
      · cases pre with
        | nil =>
          simp only [List.nil_append, List.cons.injEq] at heq
          obtain ⟨rfl, rfl⟩ := heq
          exact Or.inr ⟨by simp [hy], hpost⟩
        | cons z pre =>
          simp only [List.cons_append, List.cons.injEq] at heq
          exact Or.inl ⟨pre, y, post, heq.2, hy, hpost⟩
      · have hr : rem x = false := hall x (List.mem_cons_self _ _)
        refine Or.inr ⟨?_, fun y hy => hall y (List.mem_cons_of_mem _ hy)⟩
        by_cases hx : add x = true <;> simp [hx, hr, hb]

theorem runHooks_mem_keys (ops : List HookOp) (cp : MediaControl) (k : String) :
    k ∈ mapKeys (runHooks ops cp).hooks ↔
      survives (fun op => decide (op = HookOp.subscribe k))
        (fun op => decide (op = HookOp.unsubscribe k)) ops (decide (k ∈ mapKeys cp.hooks))
        = true := by
  induction ops generalizing cp with
  | nil => simp [runHooks, survives]
  | cons op ops ih =>
    cases op with
    | subscribe id =>
      rw [runHooks, ih, survives]
      by_cases h : id = k
      · simp [h, SubscribeHook, mem_mapKeys_mapSet]
      · have h' : ¬ k = id := fun hh => h hh.symm
        simp [h, h', SubscribeHook, mem_mapKeys_mapSet]
    | unsubscribe id =>
      rw [runHooks, ih, survives]
      by_cases h : id = k
      · simp [h, UnsubscribeHook, mem_mapKeys_mapDelete]
      · have h' : ¬ k = id := fun hh => h hh.symm
        simp [h, h', UnsubscribeHook, mem_mapKeys_mapDelete]

theorem runHooks_nodup (ops : List HookOp) (cp : MediaControl)
    (h : (mapKeys cp.hooks).Nodup) : (mapKeys (runHooks ops cp).hooks).Nodup := by
  induction ops generalizing cp with
  | nil => exact h
  | cons op ops ih =>
    cases op with
    | subscribe id => exact ih _ (nodup_mapSet h id _)
    | unsubscribe id => exact ih _ (nodup_mapDelete h id)

/-- C10. The hook registry holds at most one hook per key.  `SubscribeHook k`
returns a hook all of whose slots are nil and registers it under `k`, where it
is then the only entry; `UnsubscribeHook k` removes the entry under `k` and is
the identity when `k` is not registered; both leave the hook under every other
key as it was and keep the keys unique.  After any sequence of the two calls a
key is registered exactly when it was subscribed by a call that no later call
unsubscribed, or was registered at the start and never unsubscribed. -/
theorem hook_registry :
    (∀ (cp : MediaControl) (k : String),
      (∀ kind, (SubscribeHook k cp).2.slot kind = none)
      ∧ mapGet (SubscribeHook k cp).1.hooks k = some (SubscribeHook k cp).2
      ∧ (mapKeys (SubscribeHook k cp).1.hooks).count k = 1
      ∧ (∀ k', k' ≠ k → mapGet (SubscribeHook k cp).1.hooks k' = mapGet cp.hooks k')
      ∧ ((mapKeys cp.hooks).Nodup → (mapKeys (SubscribeHook k cp).1.hooks).Nodup))
    ∧ (∀ (cp : MediaControl) (k : String),
      mapGet (UnsubscribeHook k cp).hooks k = none
      ∧ k ∉ mapKeys (UnsubscribeHook k cp).hooks
      ∧ (∀ k', k' ≠ k → mapGet (UnsubscribeHook k cp).hooks k' = mapGet cp.hooks k')
      ∧ (k ∉ mapKeys cp.hooks → UnsubscribeHook k cp = cp)
      ∧ ((mapKeys cp.hooks).Nodup → (mapKeys (UnsubscribeHook k cp).hooks).Nodup))
    ∧ (∀ (ops : List HookOp) (cp : MediaControl) (k : String),
      k ∈ mapKeys (runHooks ops cp).hooks ↔
        (∃ pre post, ops = pre ++ HookOp.subscribe k :: post ∧ HookOp.unsubscribe k ∉ post)
        ∨ (k ∈ mapKeys cp.hooks ∧ HookOp.unsubscribe k ∉ ops))
    ∧ (∀ (ops : List HookOp) (tmpDir : String),
      (mapKeys (runHooks ops (New tmpDir)).hooks).Nodup) := by
  refine ⟨?_, ?_, ?_, ?_⟩
  · intro cp k
    refine ⟨fun kind => by cases kind <;> rfl, mapGet_mapSet_self _ _ _, ?_,
      fun k' h => mapGet_mapSet_ne _ _ h, fun h => nodup_mapSet h _ _⟩
    have : mapKeys (SubscribeHook k cp).1.hooks = mapKeys (mapDelete cp.hooks k) ++ [k] := by
      simp [SubscribeHook, mapSet, mapKeys]
    rw [this, List.count_append]
    have h0 : k ∉ mapKeys (mapDelete cp.hooks k) := by
      rw [mem_mapKeys_mapDelete]; simp
    simp [List.count_eq_zero_of_not_mem h0]
  · intro cp k
    refine ⟨mapGet_mapDelete_self _ _, ?_, fun k' h => mapGet_mapDelete_ne _ h, ?_,
      fun h => nodup_mapDelete h _⟩
    · show k ∉ mapKeys (mapDelete cp.hooks k)
      rw [mem_mapKeys_mapDelete]; simp
    · intro hk
      have : mapDelete cp.hooks k = cp.hooks := by
        unfold mapDelete
        rw [List.filter_eq_self]
        intro e he
        have : e.1 ≠ k := fun hh => hk (hh ▸ List.mem_map.2 ⟨e, he, rfl⟩)
        simpa using this
      unfold UnsubscribeHook
      rw [this]
  · intro ops cp k
    rw [runHooks_mem_keys, survives_iff]
    constructor
    · rintro (⟨pre, x, post, rfl, hx, hpost⟩ | ⟨hb, hall⟩)
      · simp only [decide_eq_true_eq] at hx
        subst hx
        exact Or.inl ⟨pre, post, rfl, fun hmem => by simpa using hpost _ hmem⟩
      · exact Or.inr ⟨by simpa using hb, fun hmem => by simpa using hall _ hmem⟩
    · rintro (⟨pre, post, rfl, hpost⟩ | ⟨hb, hall⟩)
      · refine Or.inl ⟨pre, _, post, rfl, by simp, ?_⟩
        intro y hy
        simp only [decide_eq_false_iff_not]
        rintro rfl
        exact hpost hy
      · refine Or.inr ⟨by simpa using hb, ?_⟩
        intro y hy
        simp only [decide_eq_false_iff_not]
        rintro rfl
        exact hall hy
  · intro ops tmpDir
    exact runHooks_nodup ops _ (by simp [New, mapKeys])

/-- C10, on an example: with "gui" and "log" registered, subscribing "gui" again
then unsubscribing "log" leaves exactly "gui", with an empty hook. -/
theorem hook_registry_witness :
    (runHooks [.subscribe "gui", .unsubscribe "log"] demoControl).hooks = [("gui", {})]
    ∧ ("gui" ∈ mapKeys (runHooks [.subscribe "gui", .unsubscribe "log"] demoControl).hooks ↔
        (∃ pre post, [HookOp.subscribe "gui", .unsubscribe "log"]
            = pre ++ HookOp.subscribe "gui" :: post ∧ HookOp.unsubscribe "gui" ∉ post)
        ∨ ("gui" ∈ mapKeys demoControl.hooks
            ∧ HookOp.unsubscribe "gui" ∉ [HookOp.subscribe "gui", .unsubscribe "log"])) :=
  ⟨by decide, hook_registry.2.2.1 _ demoControl "gui"⟩

/-! ## Selection by UDN -/

theorem SetRenderer_unknown (io : Answers) (cp : MediaControl) (udn : String)
    (h : mapGet cp.renderers udn = none) :
    SetRenderer io udn cp
      = some ({ cp with curRend := none }, fire (hookTest cp testRendererSelected)
          (.OnRendererSelected none)) := by
  simp [SetRenderer, GetRenderer, h, onRendererSelected, hookTest]

theorem SetServer_unknown (cp : MediaControl) (udn : String)
    (h : mapGet cp.servers udn = none) :
    SetServer udn cp
      = ({ cp with curSrv := none }, fire (hookTest cp testServerSelected)
          (.OnServerSelected none)) := by
  simp [SetServer, GetServer, h, onServerSelected, hookTest]

/-- C4. For every UDN that is not a key of the renderer index (resp. of the server
index), `SetRenderer udn` (resp. `SetServer udn`) does not panic, leaves the
manager with a nil current renderer (resp. server) and otherwise unchanged, and
its trace is exactly one call of `OnRendererSelected(nil)` (resp.
`OnServerSelected(nil)`) on each registered hook whose slot is populated: no
method of a device is called. -/
theorem select_unknown_udn (io : Answers) (cp : MediaControl) (udn : String) :
    (udn ∉ mapKeys cp.renderers →
      SetRenderer io udn cp
        = some ({ cp with curRend := none },
            (cp.hooks.filter fun e => e.2.OnRendererSelected.isSome).map
              fun e => Ev.hook e.1 (.OnRendererSelected none)))
    ∧ (udn ∉ mapKeys cp.servers →
      SetServer udn cp
        = ({ cp with curSrv := none },
            (cp.hooks.filter fun e => e.2.OnServerSelected.isSome).map
              fun e => Ev.hook e.1 (.OnServerSelected none))) := by
  constructor
  · intro h
    rw [SetRenderer_unknown io cp udn ((mapGet_eq_none_iff _ _).2 h), hookTest_eq_filter]
    rfl
  · intro h
    rw [SetServer_unknown cp udn ((mapGet_eq_none_iff _ _).2 h), hookTest_eq_filter]
    rfl

/-- C4, on an example: with `livingRoom` selected, selecting the empty UDN and the
UDN of a device that is not (no longer) in the index clears the selection and
calls `OnRendererSelected(nil)` on the hook "gui" only. -/
theorem select_unknown_udn_witness :
    ("" ∉ mapKeys demoSelected.renderers
      ∧ SetRenderer talking "" demoSelected
        = some ({ demoSelected with curRend := none },
            [Ev.hook "gui" (.OnRendererSelected none)]))
    ∧ ("udn-9" ∉ mapKeys demoSelected.servers
      ∧ SetServer "udn-9" demoSelected
        = ({ demoSelected with curSrv := none }, [Ev.hook "gui" (.OnServerSelected none)])) :=
  ⟨⟨by decide, (select_unknown_udn talking demoSelected "").1 (by decide)⟩,
   ⟨by decide, (select_unknown_udn talking demoSelected "udn-9").2 (by decide)⟩⟩

/-! ## Frame lemmas: what each operation leaves unchanged -/

theorem SetRenderer_forward_some (io : Answers) (cp : MediaControl) (r : Renderer)
    (hw : r ∈ cp.wired) : ∃ t, SetRenderer_forward io cp r = some t := by
  unfold SetRenderer_forward
  cases io.GetVolume r <;> cases io.GetMute r <;> cases io.GetTransportInfo r <;>
    cases io.GetPositionInfo r <;> simp [raise, hw]

theorem SetRenderer_some (io : Answers) (udn : String) (cp : MediaControl)
    (hw : ∀ r, mapGet cp.renderers udn = some r → r ∈ cp.wired) :
    ∃ t, SetRenderer io udn cp = some ({ cp with curRend := mapGet cp.renderers udn }, t) := by
  unfold SetRenderer
  simp only [GetRenderer]
  cases hg : mapGet cp.renderers udn with
  | none => exact ⟨_, rfl⟩
  | some r =>
    obtain ⟨t, ht⟩ := SetRenderer_forward_some io { cp with curRend := some r } r (hw r hg)
    refine ⟨onRendererSelected { cp with curRend := some r } (some r) ++ t, ?_⟩
    simp [ht]

theorem Wired_get {cp : MediaControl} (hw : Wired cp) (udn : String) :
    ∀ r, mapGet cp.renderers udn = some r → r ∈ cp.wired :=
  fun r h => hw udn r (mem_of_mapGet h)

theorem setRendererDefault_range_some (io : Answers) (work : List (String × Renderer))
    (cp : MediaControl) (hw : Wired cp) :
    ∃ c t, setRendererDefault_range io work cp = some ({ cp with curRend := c }, t)
      ∧ (c = cp.curRend ∨ ∃ k, c = mapGet cp.renderers k) := by
  induction work generalizing cp with
  | nil => exact ⟨cp.curRend, [], rfl, Or.inl rfl⟩
  | cons e work ih =>
    obtain ⟨k, r⟩ := e
    unfold setRendererDefault_range
    by_cases hp : cp.preferredRenderer = r.name
    · obtain ⟨t1, h1⟩ := SetRenderer_some io r.udn cp (Wired_get hw r.udn)
      have hw1 : Wired { cp with curRend := mapGet cp.renderers r.udn } := hw
      obtain ⟨c, t2, h2, hc⟩ := ih _ hw1
      refine ⟨c, t1 ++ t2, ?_, ?_⟩
      · rw [if_pos hp, h1]
        simp only [Option.some_bind, h2, Option.map_some']
      · rcases hc with hc | ⟨k', hc⟩
        · exact Or.inr ⟨r.udn, hc⟩
        · exact Or.inr ⟨k', hc⟩
    · simp only [hp, if_false]
      exact ih cp hw

theorem setRendererDefault_some (io : Answers) (cp : MediaControl) (hw : Wired cp) :
    ∃ c t, setRendererDefault io cp = some ({ cp with curRend := c }, t)
      ∧ (c = cp.curRend ∨ ∃ k, c = mapGet cp.renderers k) := by
  unfold setRendererDefault
  split
  · exact setRendererDefault_range_some io _ cp hw
  · exact ⟨cp.curRend, [], rfl, Or.inl rfl⟩

theorem setRendererDefault_selected (io : Answers) (cp : MediaControl)
    (h : cp.curRend ≠ none) : setRendererDefault io cp = some (cp, []) := by
  unfold setRendererDefault RendererExists
  cases hc : cp.curRend with
  | none => exact absurd hc h
  | some r => simp

theorem onRendererFound_some (io : Answers) (r : Renderer) (cp : MediaControl) (hw : Wired cp) :
    ∃ c t, onRendererFound io r cp
        = some ({ cp with curRend := c, renderers := mapSet cp.renderers r.udn r,
                          wired := r :: cp.wired }, t)
      ∧ (c = cp.curRend ∨ ∃ k, c = mapGet (mapSet cp.renderers r.udn r) k) := by
  have hw2 : Wired { cp with renderers := mapSet cp.renderers r.udn r, wired := r :: cp.wired } := by
    intro k r' hmem
    rcases mem_mapSet.1 hmem with ⟨h1, _⟩ | ⟨_, h2⟩
    · exact List.mem_cons_of_mem _ (hw k r' h1)
    · exact h2 ▸ List.mem_cons_self _ _
  obtain ⟨c, t, h, hc⟩ := setRendererDefault_some io _ hw2
  unfold onRendererFound
  simp only [h, Option.map_some']
  exact ⟨c, _, rfl, hc⟩

theorem mapGet_mapDelete_some {α : Type} {m : GoMap α} {u k : String} {v : α}
    (h : mapGet (mapDelete m u) k = some v) : mapGet m k = some v := by
  by_cases hk : k = u
  · rw [hk, mapGet_mapDelete_self] at h; cases h
  · rwa [mapGet_mapDelete_ne m hk] at h

/-- The loop of `onMediaRendererLost`, for any property `P` of the selection and
the index that each removal keeps. -/
theorem onMediaRendererLost_range_general (cmp : Renderer → Renderer → Bool) (io : Answers)
    (rtest : Renderer) (P : Option Renderer → GoMap Renderer → Prop)
    (hstep : ∀ c m k rend, P c m → KeyedByUDN Renderer.udn m → mapGet m k = some rend →
      cmp rend rtest = true →
      P (if c = some rend then mapGet m "" else c) (mapDelete m rend.udn))
    (work : List (String × Renderer)) (cp : MediaControl) (hw : Wired cp)
    (hkey : KeyedByUDN Renderer.udn cp.renderers) (hP : P cp.curRend cp.renderers) :
    ∃ c m t, onMediaRendererLost_range cmp io rtest work cp
        = some ({ cp with curRend := c, renderers := m }, t)
      ∧ P c m
      ∧ (∀ k r, mapGet m k = some r → mapGet cp.renderers k = some r)
      ∧ (∀ k r, (k, r) ∈ m → (k, r) ∈ cp.renderers)
      ∧ (∀ e ∈ work, ∀ r, mapGet m e.1 = some r → cmp r rtest = false) := by
  induction work generalizing cp with
  | nil =>
    exact ⟨cp.curRend, cp.renderers, [], rfl, hP, fun _ _ h => h, fun _ _ h => h,
      fun e he => by cases he⟩
  | cons e work ih =>
    obtain ⟨k, r0⟩ := e
    unfold onMediaRendererLost_range
    cases hg : mapGet cp.renderers k with
    | none =>
      obtain ⟨c, m, t, h, hPc, h3, h4, h5⟩ := ih cp hw hkey hP
      refine ⟨c, m, t, h, hPc, h3, h4, ?_⟩
      intro e he r hr
      rcases List.mem_cons.1 he with rfl | he
      · rw [h3 _ _ hr] at hg; cases hg
      · exact h5 e he r hr
    | some rend =>
      by_cases hc : cmp rend rtest = true
      · have hkr : k = rend.udn := hkey k rend (mem_of_mapGet hg)
        obtain ⟨t1, h1⟩ : ∃ t1, (if RendererIsActive cp (some rend) = true then SetRenderer io "" cp
            else some (cp, []))
            = some ({ cp with curRend := if cp.curRend = some rend then mapGet cp.renderers ""
                                          else cp.curRend }, t1) := by
          by_cases ha : cp.curRend = some rend
          · obtain ⟨t1, h1⟩ := SetRenderer_some io "" cp (Wired_get hw "")
            exact ⟨t1, by simp [RendererIsActive, ha, h1]⟩
          · exact ⟨[], by simp [RendererIsActive, ha]⟩
        have hw2 : Wired { cp with
            curRend := if cp.curRend = some rend then mapGet cp.renderers "" else cp.curRend,
            renderers := mapDelete cp.renderers rend.udn } :=
          fun k' r' hmem => hw k' r' (mem_mapDelete.1 hmem).1
        have hkey2 : KeyedByUDN Renderer.udn (mapDelete cp.renderers rend.udn) :=
          fun k' r' hmem => hkey k' r' (mem_mapDelete.1 hmem).1
        obtain ⟨c, m, t3, h, hPc, h3, h4, h5⟩ :=
          ih _ hw2 hkey2 (hstep _ _ k rend hP hkey hg hc)
        simp only [hc, if_true, h1, Option.some_bind, h, Option.map_some']
        refine ⟨c, m, _, rfl, hPc, fun k' r' hr => mapGet_mapDelete_some (h3 k' r' hr),
          fun k' r' hmem => (mem_mapDelete.1 (h4 k' r' hmem)).1, ?_⟩
        intro e he r hr
        rcases List.mem_cons.1 he with rfl | he
        · have := h3 _ _ hr
          simp only at this
          rw [hkr, mapGet_mapDelete_self] at this
          cases this
        · exact h5 e he r hr
      · obtain ⟨c, m, t, h, hPc, h3, h4, h5⟩ := ih cp hw hkey hP
        simp only [hc, h]
        refine ⟨c, m, t, rfl, hPc, h3, h4, ?_⟩
        intro e he r hr
        rcases List.mem_cons.1 he with rfl | he
        · have := h3 _ _ hr
          simp only at this
          rw [hg] at this
          cases this
          simpa using hc
        · exact h5 e he r hr

theorem setServerDefault_range_eq (work : List (String × Server)) (cp : MediaControl) :
    ∃ c, (setServerDefault_range work cp).1 = { cp with curSrv := c }
      ∧ (c = cp.curSrv ∨ ∃ k, c = mapGet cp.servers k) := by
  induction work generalizing cp with
  | nil => exact ⟨cp.curSrv, rfl, Or.inl rfl⟩
  | cons e work ih =>
    obtain ⟨k, r⟩ := e
    unfold setServerDefault_range
    by_cases hp : cp.preferredServer = r.name
    · obtain ⟨c, h, hc⟩ := ih (SetServer r.udn cp).1
      refine ⟨c, ?_, ?_⟩
      · rw [if_pos hp]
        simp only [h]
        rfl
      · rcases hc with hc | ⟨k', hc⟩
        · exact Or.inr ⟨r.udn, hc⟩
        · exact Or.inr ⟨k', hc⟩
    · rw [if_neg hp]
      exact ih cp

theorem setServerDefault_eq (cp : MediaControl) :
    ∃ c, (setServerDefault cp).1 = { cp with curSrv := c }
      ∧ (c = cp.curSrv ∨ ∃ k, c = mapGet cp.servers k) := by
  unfold setServerDefault
  split
  · exact setServerDefault_range_eq _ cp
  · exact ⟨cp.curSrv, rfl, Or.inl rfl⟩

theorem setServerDefault_selected (cp : MediaControl) (h : cp.curSrv ≠ none) :
    setServerDefault cp = (cp, []) := by
  unfold setServerDefault ServerExists
  cases hc : cp.curSrv with
  | none => exact absurd hc h
  | some r => simp

/-- The loop of `onMediaServerLost`, for any property `P` of the selection and the
index that each removal keeps. -/
theorem onMediaServerLost_range_general (cmp : Server → Server → Bool)
    (stest : Server) (P : Option Server → GoMap Server → Prop)
    (hstep : ∀ c m k srv, P c m → KeyedByUDN Server.udn m → mapGet m k = some srv →
      cmp srv stest = true →
      P (if c = some srv then mapGet m "" else c) (mapDelete m srv.udn))
    (work : List (String × Server)) (cp : MediaControl)
    (hkey : KeyedByUDN Server.udn cp.servers) (hP : P cp.curSrv cp.servers) :
    ∃ c m, (onMediaServerLost_range cmp stest work cp).1 = { cp with curSrv := c, servers := m }
      ∧ P c m
      ∧ (∀ k r, mapGet m k = some r → mapGet cp.servers k = some r)
      ∧ (∀ k r, (k, r) ∈ m → (k, r) ∈ cp.servers)
      ∧ (∀ e ∈ work, ∀ r, mapGet m e.1 = some r → cmp r stest = false) := by
  induction work generalizing cp with
  | nil =>
    exact ⟨cp.curSrv, cp.servers, rfl, hP, fun _ _ h => h, fun _ _ h => h,
      fun e he => by cases he⟩
  | cons e work ih =>
    obtain ⟨k, r0⟩ := e
    unfold onMediaServerLost_range
    cases hg : mapGet cp.servers k with
    | none =>
      obtain ⟨c, m, h, hPc, h3, h4, h5⟩ := ih cp hkey hP
      refine ⟨c, m, h, hPc, h3, h4, ?_⟩
      intro e he r hr
      rcases List.mem_cons.1 he with rfl | he
      · rw [h3 _ _ hr] at hg; cases hg
      · exact h5 e he r hr
    | some srv =>
      by_cases hc : cmp srv stest = true
      · have hkr : k = srv.udn := hkey k srv (mem_of_mapGet hg)
        have h1 : (if ServerIsActive cp (some srv) = true then SetServer "" cp else (cp, [])).1
            = { cp with curSrv := if cp.curSrv = some srv then mapGet cp.servers ""
                                   else cp.curSrv } := by
          by_cases ha : cp.curSrv = some srv
          · simp [ServerIsActive, ha, SetServer, GetServer]
          · simp [ServerIsActive, ha]
        have hkey2 : KeyedByUDN Server.udn (mapDelete cp.servers srv.udn) :=
          fun k' r' hmem => hkey k' r' (mem_mapDelete.1 hmem).1
        obtain ⟨c, m, h, hPc, h3, h4, h5⟩ := ih { cp with
            curSrv := if cp.curSrv = some srv then mapGet cp.servers "" else cp.curSrv,
            servers := mapDelete cp.servers srv.udn } hkey2 (hstep _ _ k srv hP hkey hg hc)
        simp only [hc, if_true]
        rw [h1]
        refine ⟨c, m, h, hPc, fun k' r' hr => mapGet_mapDelete_some (h3 k' r' hr),
          fun k' r' hmem => (mem_mapDelete.1 (h4 k' r' hmem)).1, ?_⟩
        intro e he r hr
        rcases List.mem_cons.1 he with rfl | he
        · have := h3 _ _ hr
          simp only at this
          rw [hkr, mapGet_mapDelete_self] at this
          cases this
        · exact h5 e he r hr
      · obtain ⟨c, m, h, hPc, h3, h4, h5⟩ := ih cp hkey hP
        simp only [hc, h, Bool.false_eq_true, if_false]
        refine ⟨c, m, rfl, hPc, h3, h4, ?_⟩
        intro e he r hr
        rcases List.mem_cons.1 he with rfl | he
        · have := h3 _ _ hr
          simp only at this
          rw [hg] at this
          cases this
          simpa using hc
        · exact h5 e he r hr

/-! ## The selection invariant -/

section Index
variable {D : Type} {udn : D → String}

theorem IndexOk_nil : IndexOk udn (none : Option D) [] :=
  ⟨List.nodup_nil, fun _ _ h => (by cases h), fun _ _ h => (by cases h), fun _ h => (by cases h)⟩

theorem IndexOk_select {cur : Option D} {m : GoMap D} (h : IndexOk udn cur m) (k : String) :
    IndexOk udn (mapGet m k) m := by
  refine ⟨h.1, h.2.1, h.2.2.1, ?_⟩
  intro c hc
  have hk : k = udn c := h.2.1 k c (mem_of_mapGet hc)
  rw [← hk]; exact hc

theorem IndexOk_get_empty {cur : Option D} {m : GoMap D} (h : IndexOk udn cur m) :
    mapGet m "" = none := by
  cases hg : mapGet m "" with
  | none => rfl
  | some d => exact absurd rfl (h.2.2.1 "" d (mem_of_mapGet hg))

theorem IndexOk_set {cur : Option D} {m : GoMap D} (h : IndexOk udn cur m) (d : D)
    (hd : udn d ≠ "") (hcur : ∀ c, cur = some c → udn c = udn d → c = d) :
    IndexOk udn cur (mapSet m (udn d) d) := by
  refine ⟨nodup_mapSet h.1 _ _, ?_, ?_, ?_⟩
  · intro k d' hmem
    rcases mem_mapSet.1 hmem with ⟨h1, _⟩ | ⟨h1, h2⟩
    · exact h.2.1 k d' h1
    · rw [h1, h2]
  · intro k d' hmem
    rcases mem_mapSet.1 hmem with ⟨h1, _⟩ | ⟨h1, _⟩
    · exact h.2.2.1 k d' h1
    · rw [h1]; exact hd
  · intro c hc
    by_cases hu : udn c = udn d
    · rw [hcur c hc hu]; exact mapGet_mapSet_self _ _ _
    · rw [mapGet_mapSet_ne _ _ hu]; exact h.2.2.2 c hc

theorem IndexOk_lost [DecidableEq D] {cur : Option D} {m : GoMap D} (h : IndexOk udn cur m) {k : String} {d : D}
    (hg : mapGet m k = some d) :
    IndexOk udn (if cur = some d then mapGet m "" else cur) (mapDelete m (udn d)) := by
  have hdel : IndexOk udn none (mapDelete m (udn d)) :=
    ⟨nodup_mapDelete h.1 _, fun k' d' hmem => h.2.1 k' d' (mem_mapDelete.1 hmem).1,
      fun k' d' hmem => h.2.2.1 k' d' (mem_mapDelete.1 hmem).1, fun _ hc => by cases hc⟩
  by_cases ha : cur = some d
  · rw [if_pos ha, IndexOk_get_empty h]; exact hdel
  · rw [if_neg ha]
    refine ⟨hdel.1, hdel.2.1, hdel.2.2.1, ?_⟩
    intro c hc
    have hcm := h.2.2.2 c hc
    have hkd : k = udn d := h.2.1 k d (mem_of_mapGet hg)
    have hne : udn c ≠ udn d := by
      intro hu
      rw [hu, ← hkd, hg] at hcm
      injection hcm with hcm
      exact ha (hcm ▸ hc)
    rw [mapGet_mapDelete_ne _ hne]; exact hcm

theorem mapGet_perm {α : Type} {m m' : GoMap α} (hp : m'.Perm m) (hnd : (mapKeys m).Nodup)
    (k : String) : mapGet m' k = mapGet m k := by
  have hnd' : (mapKeys m').Nodup := (hp.map Prod.fst).nodup_iff.2 hnd
  cases hg : mapGet m k with
  | some v => exact mapGet_of_mem hnd' (hp.mem_iff.2 (mem_of_mapGet hg))
  | none =>
    cases hg' : mapGet m' k with
    | none => rfl
    | some v =>
      rw [mapGet_of_mem hnd (hp.mem_iff.1 (mem_of_mapGet hg'))] at hg
      cases hg

theorem IndexOk_perm {cur : Option D} {m m' : GoMap D} (h : IndexOk udn cur m)
    (hp : m'.Perm m) : IndexOk udn cur m' :=
  ⟨(hp.map Prod.fst).nodup_iff.2 h.1, fun k d hmem => h.2.1 k d (hp.mem_iff.1 hmem),
    fun k d hmem => h.2.2.1 k d (hp.mem_iff.1 hmem),
    fun c hc => by rw [mapGet_perm hp h.1]; exact h.2.2.2 c hc⟩

end Index

theorem Inv_step (cmpR : Renderer → Renderer → Bool) (cmpS : Server → Server → Bool) (op : Op)
    (cp : MediaControl) (hinv : Inv cp) (hadm : op.admissible cp) :
    ∃ cp' t, step cmpR cmpS op cp = some (cp', t) ∧ Inv cp' := by
  obtain ⟨hR, hS, hW⟩ := hinv
  cases op with
  | rendererFound io r =>
    obtain ⟨c, t, h, hc⟩ := onRendererFound_some io r cp hW
    refine ⟨_, t, h, ?_, hS, ?_⟩
    · have h1 := IndexOk_set hR r hadm.1 hadm.2
      rcases hc with rfl | ⟨k, rfl⟩
      · exact h1
      · exact IndexOk_select h1 k
    · intro k r' hmem
      rcases mem_mapSet.1 hmem with ⟨h1, _⟩ | ⟨_, h2⟩
      · exact List.mem_cons_of_mem _ (hW k r' h1)
      · exact h2 ▸ List.mem_cons_self _ _
  | serverFound srv =>
    exact ⟨_, _, rfl, hR, IndexOk_set hS srv hadm.1 hadm.2, hW⟩
  | rendererLost io rtest =>
    obtain ⟨c, m, t, h, hP, _, h4, _⟩ := onMediaRendererLost_range_general cmpR io rtest
      (IndexOk Renderer.udn) (fun c m k rend hP _ hg _ => IndexOk_lost hP hg) cp.renderers cp hW hR.2.1 hR
    exact ⟨_, t, h, hP, hS, fun k r hmem => hW k r (h4 k r hmem)⟩
  | serverLost stest =>
    obtain ⟨c, m, h, hP, _, _, _⟩ := onMediaServerLost_range_general cmpS stest
      (IndexOk Server.udn) (fun c m k srv hP _ hg _ => IndexOk_lost hP hg) cp.servers cp hS.2.1 hS
    refine ⟨_, _, rfl, ?_⟩
    show Inv (onMediaServerLost_range cmpS stest cp.servers cp).1
    rw [h]
    exact ⟨hR, hP, hW⟩
  | setRenderer io udn =>
    obtain ⟨t, h⟩ := SetRenderer_some io udn cp (Wired_get hW udn)
    exact ⟨_, t, h, IndexOk_select hR udn, hS, hW⟩
  | setServer udn => exact ⟨_, _, rfl, hR, IndexOk_select hS udn, hW⟩
  | setPreferredRenderer io name =>
    obtain ⟨c, t, h, hc⟩ := setRendererDefault_some io { cp with preferredRenderer := name } hW
    refine ⟨_, t, h, ?_, hS, hW⟩
    rcases hc with rfl | ⟨k, rfl⟩
    · exact hR
    · exact IndexOk_select hR k
  | setPreferredServer name =>
    obtain ⟨c, h, hc⟩ := setServerDefault_eq { cp with preferredServer := name }
    refine ⟨_, _, rfl, ?_⟩
    show Inv (setServerDefault { cp with preferredServer := name }).1
    rw [h]
    refine ⟨hR, ?_, hW⟩
    rcases hc with rfl | ⟨k, rfl⟩
    · exact hS
    · exact IndexOk_select hS k
  | setVolumeDelta delta => exact ⟨_, _, rfl, hR, hS, hW⟩
  | setSeekDelta delta => exact ⟨_, _, rfl, hR, hS, hW⟩
  | subscribeHook id => exact ⟨_, _, rfl, hR, hS, hW⟩
  | unsubscribeHook id => exact ⟨_, _, rfl, hR, hS, hW⟩
  | populate id h => exact ⟨_, _, rfl, hR, hS, hW⟩
  | visit rs ss hs =>
    by_cases hp : rs.Perm cp.renderers ∧ ss.Perm cp.servers ∧ hs.Perm cp.hooks
    · refine ⟨_, _, if_pos hp, IndexOk_perm hR hp.1, IndexOk_perm hS hp.2.1, ?_⟩
      exact fun k r hmem => hW k r (hp.1.mem_iff.1 hmem)
    · exact ⟨_, _, if_neg hp, hR, hS, hW⟩

theorem Reachable_inv {cmpR : Renderer → Renderer → Bool} {cmpS : Server → Server → Bool}
    {cp : MediaControl} (h : Reachable cmpR cmpS cp) : Inv cp := by
  induction h with
  | start tmpDir => exact ⟨IndexOk_nil, IndexOk_nil, fun _ _ h => (by cases h)⟩
  | next op _ hadm hstep ih =>
    obtain ⟨cp', t, h, hinv⟩ := Inv_step cmpR cmpS op _ ih hadm
    rw [hstep] at h
    injection h with h
    injection h with h1 _
    rw [h1]; exact hinv

/-- C1, as amended.  Take a manager made by `New` and any sequence of operations
(device found, device lost, `SetRenderer`, `SetServer`, and also the preference,
delta and hook calls), the maps being visited in any order, in which every
device found has a non-empty UDN and no found notification brings another
object with the UDN of the device that is selected at that time.  Then after
each operation the current renderer (resp. server), if non-nil, is the entry
that the renderer (resp. server) index stores under its own UDN. -/
theorem selection_in_index (cmpR : Renderer → Renderer → Bool) (cmpS : Server → Server → Bool)
    (cp : MediaControl) (h : Reachable cmpR cmpS cp) : SelectionInIndex cp :=
  ⟨(Reachable_inv h).1.2.2.2, (Reachable_inv h).2.1.2.2.2⟩

/-- C1 as amended, on an example: the state `demoReached` is reached by a found
notification and a selection, and satisfies the invariant. -/
theorem selection_in_index_witness :
    Reachable Renderer.CompareProxy Server.CompareProxy demoReached
    ∧ SelectionInIndex demoReached :=
  have hr : Reachable Renderer.CompareProxy Server.CompareProxy demoReached :=
    @Reachable.next _ _
      { New "/tmp/tvplay" with renderers := [("udn-1", livingRoom)], wired := [livingRoom] }
      demoReached
      [Ev.renderer livingRoom (.GetVolume 0 ChannelMaster),
       Ev.renderer livingRoom (.GetMute 0 ChannelMaster),
       Ev.renderer livingRoom (.GetTransportInfo 0),
       Ev.renderer livingRoom (.GetPositionInfo 0)]
      (.setRenderer silent "udn-1")
      (@Reachable.next _ _ (New "/tmp/tvplay") _
        [Ev.renderer livingRoom .GetIconFile, Ev.renderer livingRoom .SetIcon]
        (.rendererFound silent livingRoom) (Reachable.start _)
        ⟨by decide, fun c hc => by cases hc⟩ (by decide))
      trivial (by decide)
  ⟨hr, selection_in_index _ _ demoReached hr⟩

/-- C1 as stated fails.  (1) `livingRoom` is found and selected, then the same
device is announced again as a new object: the current renderer is still the
first object while the index stores the second under "udn-1".  (2) a renderer
with an empty UDN is found, selected and lost: `SetRenderer("")` selects it
again, it is then deleted, and the manager keeps a current renderer that the
index no longer holds. -/
theorem selection_in_index_counterexample :
    ((run Renderer.CompareProxy Server.CompareProxy
        [.rendererFound silent livingRoom, .setRenderer silent "udn-1",
         .rendererFound silent livingRoomAgain] (New "")).map Prod.fst
      = some { New "" with
          curRend := some livingRoom
          renderers := [("udn-1", livingRoomAgain)]
          wired := [livingRoomAgain, livingRoom] }
      ∧ ¬ SelectionInIndex { New "" with
          curRend := some livingRoom
          renderers := [("udn-1", livingRoomAgain)]
          wired := [livingRoomAgain, livingRoom] })
    ∧ ((run Renderer.CompareProxy Server.CompareProxy
        [.rendererFound silent nameless, .setRenderer silent "",
         .rendererLost silent { ptr := 6, udn := "", name := "", proxy := 15 }]
        (New "")).map Prod.fst
      = some { New "" with curRend := some nameless, renderers := [], wired := [nameless] }
      ∧ ¬ SelectionInIndex
          { New "" with curRend := some nameless, renderers := [], wired := [nameless] }) :=
  ⟨⟨by decide, fun h => absurd (h.1 livingRoom rfl) (by decide)⟩,
   ⟨by decide, fun h => absurd (h.1 nameless rfl) (by decide)⟩⟩

/-! ## The index after a sequence of notifications -/

theorem mem_mapKeys_iff {α : Type} (m : GoMap α) (k : String) :
    k ∈ mapKeys m ↔ ∃ v, mapGet m k = some v := by
  constructor
  · intro h
    cases hg : mapGet m k with
    | none => exact absurd h ((mapGet_eq_none_iff m k).1 hg)
    | some v => exact ⟨v, rfl⟩
  · rintro ⟨v, hv⟩
    by_contra hk
    rw [(mapGet_eq_none_iff m k).2 hk] at hv
    cases hv

/-- A lost notification compared by UDN removes the key of that UDN and no other. -/
theorem onMediaRendererLost_keys (cmp : Renderer → Renderer → Bool)
    (hcmp : ∀ r t, cmp r t = true ↔ r.udn = t.udn) (io : Answers) (rtest : Renderer)
    (cp : MediaControl) (hw : Wired cp) (hkey : KeyedByUDN Renderer.udn cp.renderers) :
    ∃ c m t, onMediaRendererLost cmp io rtest cp
        = some ({ cp with curRend := c, renderers := m }, t)
      ∧ (∀ k r, (k, r) ∈ m → (k, r) ∈ cp.renderers)
      ∧ ∀ u, u ∈ mapKeys m ↔ u ∈ mapKeys cp.renderers ∧ u ≠ rtest.udn := by
  obtain ⟨c, m, t, h, hP, h3, h4, h5⟩ := onMediaRendererLost_range_general cmp io rtest
    (fun _ m => ∀ k, k ≠ rtest.udn → mapGet m k = mapGet cp.renderers k)
    (fun c m k rend hP _ _ hc k' hk' => by
      rw [(hcmp _ _).1 hc, mapGet_mapDelete_ne _ hk']; exact hP k' hk')
    cp.renderers cp hw hkey (fun _ _ => rfl)
  refine ⟨c, m, t, h, h4, ?_⟩
  intro u
  constructor
  · intro hu
    obtain ⟨r, hr⟩ := (mem_mapKeys_iff m u).1 hu
    have hr0 := h3 u r hr
    refine ⟨(mem_mapKeys_iff _ u).2 ⟨r, hr0⟩, ?_⟩
    intro hne
    have hcf := h5 (u, r) (mem_of_mapGet hr0) r hr
    have hur : u = r.udn := hkey u r (mem_of_mapGet hr0)
    have : cmp r rtest = true := (hcmp _ _).2 (hur ▸ hne)
    rw [this] at hcf
    cases hcf
  · rintro ⟨hu, hne⟩
    obtain ⟨r, hr⟩ := (mem_mapKeys_iff _ u).1 hu
    exact (mem_mapKeys_iff m u).2 ⟨r, by rw [hP u hne]; exact hr⟩

theorem onMediaServerLost_keys (cmp : Server → Server → Bool)
    (hcmp : ∀ r t, cmp r t = true ↔ r.udn = t.udn) (stest : Server)
    (cp : MediaControl) (hkey : KeyedByUDN Server.udn cp.servers) :
    ∃ c m, (onMediaServerLost cmp stest cp).1 = { cp with curSrv := c, servers := m }
      ∧ (∀ k r, (k, r) ∈ m → (k, r) ∈ cp.servers)
      ∧ ∀ u, u ∈ mapKeys m ↔ u ∈ mapKeys cp.servers ∧ u ≠ stest.udn := by
  obtain ⟨c, m, h, hP, h3, h4, h5⟩ := onMediaServerLost_range_general cmp stest
    (fun _ m => ∀ k, k ≠ stest.udn → mapGet m k = mapGet cp.servers k)
    (fun c m k srv hP _ _ hc k' hk' => by
      rw [(hcmp _ _).1 hc, mapGet_mapDelete_ne _ hk']; exact hP k' hk')
    cp.servers cp hkey (fun _ _ => rfl)
  refine ⟨c, m, h, h4, ?_⟩
  intro u
  constructor
  · intro hu
    obtain ⟨r, hr⟩ := (mem_mapKeys_iff m u).1 hu
    have hr0 := h3 u r hr
    refine ⟨(mem_mapKeys_iff _ u).2 ⟨r, hr0⟩, ?_⟩
    intro hne
    have hcf := h5 (u, r) (mem_of_mapGet hr0) r hr
    have hur : u = r.udn := hkey u r (mem_of_mapGet hr0)
    have : cmp r stest = true := (hcmp _ _).2 (hur ▸ hne)
    rw [this] at hcf
    cases hcf
  · rintro ⟨hu, hne⟩
    obtain ⟨r, hr⟩ := (mem_mapKeys_iff _ u).1 hu
    exact (mem_mapKeys_iff m u).2 ⟨r, by rw [hP u hne]; exact hr⟩

theorem KeyedByUDN_set {D : Type} {udn : D → String} {m : GoMap D} (h : KeyedByUDN udn m)
    (d : D) : KeyedByUDN udn (mapSet m (udn d) d) := by
  intro k d' hmem
  rcases mem_mapSet.1 hmem with ⟨h1, _⟩ | ⟨h1, h2⟩
  · exact h k d' h1
  · rw [h1, h2]

/-- One notification, compared by UDN: it does not panic, keeps the indices well
formed, and changes the keys of each index as `survives` says. -/
theorem notification_step (cmpR : Renderer → Renderer → Bool) (cmpS : Server → Server → Bool)
    (hR : ∀ r t, cmpR r t = true ↔ r.udn = t.udn) (hS : ∀ s t, cmpS s t = true ↔ s.udn = t.udn)
    (op : Op) (hop : op.isNotification = true) (cp : MediaControl) (hw : Wired cp)
    (hkr : KeyedByUDN Renderer.udn cp.renderers) (hks : KeyedByUDN Server.udn cp.servers) :
    ∃ cp' t, step cmpR cmpS op cp = some (cp', t) ∧ Wired cp'
      ∧ KeyedByUDN Renderer.udn cp'.renderers ∧ KeyedByUDN Server.udn cp'.servers
      ∧ (∀ u, decide (u ∈ mapKeys cp'.renderers)
          = if op.findsRenderer u then true else if op.losesRenderer u then false
            else decide (u ∈ mapKeys cp.renderers))
      ∧ (∀ u, decide (u ∈ mapKeys cp'.servers)
          = if op.findsServer u then true else if op.losesServer u then false
            else decide (u ∈ mapKeys cp.servers)) := by
  cases op with
  | rendererFound io r =>
    obtain ⟨c, t, h, _⟩ := onRendererFound_some io r cp hw
    refine ⟨_, t, h, ?_, KeyedByUDN_set hkr r, hks, ?_, ?_⟩
    · intro k r' hmem
      rcases mem_mapSet.1 hmem with ⟨h1, _⟩ | ⟨_, h2⟩
      · exact List.mem_cons_of_mem _ (hw k r' h1)
      · exact h2 ▸ List.mem_cons_self _ _
    · intro u
      by_cases hu : r.udn = u
      · simp [Op.findsRenderer, hu, mem_mapKeys_mapSet]
      · have hu' : ¬ u = r.udn := fun hh => hu hh.symm
        simp [Op.findsRenderer, Op.losesRenderer, hu, hu', mem_mapKeys_mapSet]
    · intro u
      simp [Op.findsServer, Op.losesServer]
  | serverFound srv =>
    refine ⟨_, _, rfl, hw, hkr, KeyedByUDN_set hks srv, ?_, ?_⟩
    · intro u
      simp [Op.findsRenderer, Op.losesRenderer, onMediaServerFound]
    · intro u
      by_cases hu : srv.udn = u
      · simp [Op.findsServer, hu, mem_mapKeys_mapSet, onMediaServerFound]
      · have hu' : ¬ u = srv.udn := fun hh => hu hh.symm
        simp [Op.findsServer, Op.losesServer, hu, hu', mem_mapKeys_mapSet, onMediaServerFound]
  | rendererLost io rtest =>
    obtain ⟨c, m, t, h, h4, hk⟩ := onMediaRendererLost_keys cmpR hR io rtest cp hw hkr
    refine ⟨_, t, h, fun k r hmem => hw k r (h4 k r hmem),
      fun k r hmem => hkr k r (h4 k r hmem), hks, ?_, ?_⟩
    · intro u
      by_cases hu : rtest.udn = u
      · subst hu
        simp [Op.findsRenderer, Op.losesRenderer, hk]
      · have hu' : ¬ u = rtest.udn := fun hh => hu hh.symm
        simp [Op.findsRenderer, Op.losesRenderer, hu, hk, hu']
    · intro u
      simp [Op.findsServer, Op.losesServer]
  | serverLost stest =>
    obtain ⟨c, m, h, h4, hk⟩ := onMediaServerLost_keys cmpS hS stest cp hks
    refine ⟨(onMediaServerLost cmpS stest cp).1, (onMediaServerLost cmpS stest cp).2, rfl, ?_⟩
    rw [h]
    refine ⟨hw, hkr, fun k r hmem => hks k r (h4 k r hmem), ?_, ?_⟩
    · intro u
      simp [Op.findsRenderer, Op.losesRenderer]
    · intro u
      by_cases hu : stest.udn = u
      · subst hu
        simp [Op.findsServer, Op.losesServer, hk]
      · have hu' : ¬ u = stest.udn := fun hh => hu hh.symm
        simp [Op.findsServer, Op.losesServer, hu, hk, hu']
  | visit rs ss hs =>
    by_cases hp : rs.Perm cp.renderers ∧ ss.Perm cp.servers ∧ hs.Perm cp.hooks
    · refine ⟨_, _, if_pos hp, fun k r hmem => hw k r (hp.1.mem_iff.1 hmem),
        fun k r hmem => hkr k r (hp.1.mem_iff.1 hmem),
        fun k r hmem => hks k r (hp.2.1.mem_iff.1 hmem), ?_, ?_⟩
      · intro u
        simp [Op.findsRenderer, Op.losesRenderer, mapKeys, (hp.1.map Prod.fst).mem_iff]
      · intro u
        simp [Op.findsServer, Op.losesServer, mapKeys, (hp.2.1.map Prod.fst).mem_iff]
    · refine ⟨_, _, if_neg hp, hw, hkr, hks, ?_, ?_⟩
      · intro u
        simp [Op.findsRenderer, Op.losesRenderer]
      · intro u
        simp [Op.findsServer, Op.losesServer]
  | setRenderer io udn => cases hop
  | setServer udn => cases hop
  | setPreferredRenderer io name => cases hop
  | setPreferredServer name => cases hop
  | setVolumeDelta delta => cases hop
  | setSeekDelta delta => cases hop
  | subscribeHook id => cases hop
  | unsubscribeHook id => cases hop
  | populate id h => cases hop

theorem run_notifications (cmpR : Renderer → Renderer → Bool) (cmpS : Server → Server → Bool)
    (hR : ∀ r t, cmpR r t = true ↔ r.udn = t.udn) (hS : ∀ s t, cmpS s t = true ↔ s.udn = t.udn)
    (ops : List Op) (hops : ∀ op ∈ ops, op.isNotification = true) (cp : MediaControl)
    (hw : Wired cp) (hkr : KeyedByUDN Renderer.udn cp.renderers)
    (hks : KeyedByUDN Server.udn cp.servers) :
    ∃ cp' t, run cmpR cmpS ops cp = some (cp', t)
      ∧ (∀ u, decide (u ∈ mapKeys cp'.renderers)
          = survives (Op.findsRenderer u) (Op.losesRenderer u) ops
              (decide (u ∈ mapKeys cp.renderers)))
      ∧ (∀ u, decide (u ∈ mapKeys cp'.servers)
          = survives (Op.findsServer u) (Op.losesServer u) ops
              (decide (u ∈ mapKeys cp.servers))) := by
  induction ops generalizing cp with
  | nil => exact ⟨cp, [], rfl, fun _ => rfl, fun _ => rfl⟩
  | cons op ops ih =>
    obtain ⟨cp1, t1, h1, hw1, hkr1, hks1, hr1, hs1⟩ :=
      notification_step cmpR cmpS hR hS op (hops op (List.mem_cons_self _ _)) cp hw hkr hks
    obtain ⟨cp2, t2, h2, hr2, hs2⟩ :=
      ih (fun o ho => hops o (List.mem_cons_of_mem _ ho)) cp1 hw1 hkr1 hks1
    refine ⟨cp2, t1 ++ t2, ?_, ?_, ?_⟩
    · simp only [run, h1, Option.some_bind, h2, Option.map_some']
    · intro u
      rw [hr2 u, hr1 u, survives]
    · intro u
      rw [hs2 u, hs1 u, survives]

/-- C2. Let `CompareProxy` hold exactly between devices with the same UDN.  Every
finite sequence of found and lost notifications, of renderers and servers in
any interleaving, run on a manager with empty indices, returns, and leaves in
the renderer index exactly the UDNs `u` for which a renderer with UDN `u` was
found with no lost notification for `u` after it; likewise for the server
index. -/
theorem index_after_notifications (cmpR : Renderer → Renderer → Bool)
    (cmpS : Server → Server → Bool)
    (hR : ∀ r t, cmpR r t = true ↔ r.udn = t.udn) (hS : ∀ s t, cmpS s t = true ↔ s.udn = t.udn)
    (ops : List Op) (hops : ∀ op ∈ ops, op.isNotification = true) (cp : MediaControl)
    (hr0 : cp.renderers = []) (hs0 : cp.servers = []) :
    ∃ cp' t, run cmpR cmpS ops cp = some (cp', t)
      ∧ (∀ u, u ∈ mapKeys cp'.renderers ↔
          ∃ pre io r post, ops = pre ++ Op.rendererFound io r :: post ∧ r.udn = u
            ∧ ∀ io' rtest, Op.rendererLost io' rtest ∈ post → rtest.udn ≠ u)
      ∧ (∀ u, u ∈ mapKeys cp'.servers ↔
          ∃ pre srv post, ops = pre ++ Op.serverFound srv :: post ∧ srv.udn = u
            ∧ ∀ stest, Op.serverLost stest ∈ post → stest.udn ≠ u) := by
  obtain ⟨cp', t, h, hr, hs⟩ := run_notifications cmpR cmpS hR hS ops hops cp
    (by intro k r hmem; rw [hr0] at hmem; cases hmem)
    (by intro k r hmem; rw [hr0] at hmem; cases hmem)
    (by intro k r hmem; rw [hs0] at hmem; cases hmem)
  refine ⟨cp', t, h, ?_, ?_⟩
  · intro u
    have := hr u
    rw [hr0] at this
    have hiff : u ∈ mapKeys cp'.renderers ↔ decide (u ∈ mapKeys cp'.renderers) = true :=
      decide_eq_true_iff.symm
    rw [hiff, this, survives_iff]
    constructor
    · rintro (⟨pre, x, post, rfl, hx, hpost⟩ | ⟨hb, _⟩)
      · cases x with
        | rendererFound io r =>
          refine ⟨pre, io, r, post, rfl, by simpa [Op.findsRenderer] using hx, ?_⟩
          intro io' rtest hmem
          simpa [Op.losesRenderer] using hpost _ hmem
        | _ => simp [Op.findsRenderer] at hx
      · simp [mapKeys] at hb
    · rintro ⟨pre, io, r, post, rfl, hu, hpost⟩
      refine Or.inl ⟨pre, _, post, rfl, by simpa [Op.findsRenderer] using hu, ?_⟩
      intro y hy
      cases y with
      | rendererLost io' rtest => simpa [Op.losesRenderer] using hpost io' rtest hy
      | _ => rfl
  · intro u
    have := hs u
    rw [hs0] at this
    have hiff : u ∈ mapKeys cp'.servers ↔ decide (u ∈ mapKeys cp'.servers) = true :=
      decide_eq_true_iff.symm
    rw [hiff, this, survives_iff]
    constructor
    · rintro (⟨pre, x, post, rfl, hx, hpost⟩ | ⟨hb, _⟩)
      · cases x with
        | serverFound srv =>
          refine ⟨pre, srv, post, rfl, by simpa [Op.findsServer] using hx, ?_⟩
          intro stest hmem
          simpa [Op.losesServer] using hpost _ hmem
        | _ => simp [Op.findsServer] at hx
      · simp [mapKeys] at hb
    · rintro ⟨pre, srv, post, rfl, hu, hpost⟩
      refine Or.inl ⟨pre, _, post, rfl, by simpa [Op.findsServer] using hu, ?_⟩
      intro y hy
      cases y with
      | serverLost stest => simpa [Op.losesServer] using hpost stest hy
      | _ => rfl

/-- C2, on an example: after `demoNotifications` on a new manager the renderer
index holds "udn-2" only and the server index "udn-3". -/
theorem index_after_notifications_witness :
    (∀ op ∈ demoNotifications, op.isNotification = true)
    ∧ (run RendererBase_CompareProxy ServerBase_CompareProxy demoNotifications (New "")).map
        (fun x => (mapKeys x.1.renderers, mapKeys x.1.servers)) = some (["udn-2"], ["udn-3"])
    ∧ ∃ cp' t, run RendererBase_CompareProxy ServerBase_CompareProxy demoNotifications (New "")
        = some (cp', t)
      ∧ (∀ u, u ∈ mapKeys cp'.renderers ↔
          ∃ pre io r post, demoNotifications = pre ++ Op.rendererFound io r :: post ∧ r.udn = u
            ∧ ∀ io' rtest, Op.rendererLost io' rtest ∈ post → rtest.udn ≠ u)
      ∧ (∀ u, u ∈ mapKeys cp'.servers ↔
          ∃ pre srv post, demoNotifications = pre ++ Op.serverFound srv :: post ∧ srv.udn = u
            ∧ ∀ stest, Op.serverLost stest ∈ post → stest.udn ≠ u) :=
  have hops : ∀ op ∈ demoNotifications, op.isNotification = true := by
    simp [demoNotifications, Op.isNotification]
  ⟨hops, by decide,
    index_after_notifications RendererBase_CompareProxy ServerBase_CompareProxy
      (by simp [RendererBase_CompareProxy, DeviceBase_CompareProxy])
      (by simp [ServerBase_CompareProxy, DeviceBase_CompareProxy])
      demoNotifications hops (New "") rfl rfl⟩

/-! ## Events of a renderer -/

/-- `onRendererFound` wires the renderer it is given. -/
theorem onRendererFound_wires (io : Answers) (r : Renderer) (cp : MediaControl) (hw : Wired cp) :
    ∃ cp' t, onRendererFound io r cp = some (cp', t) ∧ r ∈ cp'.wired ∧ Wired cp' := by
  obtain ⟨c, t, h, _⟩ := onRendererFound_some io r cp hw
  refine ⟨_, t, h, List.mem_cons_self _ _, ?_⟩
  intro k r' hmem
  rcases mem_mapSet.1 hmem with ⟨h1, _⟩ | ⟨_, h2⟩
  · exact List.mem_cons_of_mem _ (hw k r' h1)
  · exact h2 ▸ List.mem_cons_self _ _

/-- C8. For every renderer `r` whose event slots hold the closures installed by
`onRendererFound` and every event of one of the six kinds, raising the event
calls no hook at all when `r` is not the current renderer, and when `r` is the
current renderer it calls the slot of that kind, with `r` and the value, on
each registered hook whose slot is populated. -/
theorem renderer_event_dispatch (cp : MediaControl) (r : Renderer) (e : RendererEvent)
    (hw : r ∈ cp.wired) :
    (cp.curRend ≠ some r → raise cp r e = some [])
    ∧ (cp.curRend = some r →
        raise cp r e
          = some ((cp.hooks.filter fun h => (h.2.slot (e.call r).kind).isSome).map
              fun h => Ev.hook h.1 (e.call r))) := by
  have hraise : raise cp r e = some (rendererClosure cp r e) := by simp [raise, hw]
  have hcl : rendererClosure cp r e = fire (hookTestRenderer cp (some r) (e.test)) (e.call r) := by
    cases e <;> rfl
  have htest : e.test = (e.call r).kind.test := by cases e <;> rfl
  constructor
  · intro hne
    rw [hraise, hcl]
    simp [hookTestRenderer, RendererIsActive, hne, fire]
  · intro heq
    rw [hraise, hcl, htest]
    simp only [hookTestRenderer, RendererIsActive, heq, decide_True, if_true]
    rw [hookTest_kind]
    rfl

/-- C8, on an example: in `demoSelected` a volume event of `kitchen` (wired, not
selected) calls nothing and one of `livingRoom` (selected) calls `OnVolume` on
the hook "gui", the only one with that slot. -/
theorem renderer_event_dispatch_witness :
    kitchen ∈ demoSelected.wired ∧ demoSelected.curRend ≠ some kitchen
    ∧ raise demoSelected kitchen (.Volume 10) = some []
    ∧ livingRoom ∈ demoSelected.wired ∧ demoSelected.curRend = some livingRoom
    ∧ raise demoSelected livingRoom (.Volume 10)
        = some [Ev.hook "gui" (.OnVolume livingRoom 10)] :=
  ⟨by decide, by decide,
    (renderer_event_dispatch demoSelected kitchen (.Volume 10) (by decide)).1 (by decide),
    by decide, by decide,
    ((renderer_event_dispatch demoSelected livingRoom (.Volume 10) (by decide)).2
      (by decide)).trans (by decide)⟩

/-! ## Traces -/

theorem mem_fire {l : List (String × MediaHook)} {call : HookCall} {e : Ev}
    (h : e ∈ fire l call) : ∃ id hk, (id, hk) ∈ l ∧ e = Ev.hook id call := by
  simp only [fire, List.mem_map] at h
  obtain ⟨a, ha, rfl⟩ := h
  exact ⟨a.1, a.2, ha, rfl⟩

theorem rendererClosure_eq (cp : MediaControl) (r : Renderer) (e : RendererEvent) :
    rendererClosure cp r e = fire (hookTestRenderer cp (some r) e.test) (e.call r) := by
  cases e <;> rfl

theorem raise_events {cp : MediaControl} {r : Renderer} {ev : RendererEvent} {t : List Ev}
    (h : raise cp r ev = some t) : ∀ e ∈ t, Ev.isForward r e := by
  unfold raise at h
  split at h
  · injection h with h
    subst h
    rw [rendererClosure_eq]
    intro e he
    obtain ⟨id, _, _, rfl⟩ := mem_fire he
    exact Or.inr ⟨id, ev, rfl⟩
  · cases h

theorem SetRenderer_forward_events {io : Answers} {cp : MediaControl} {r : Renderer}
    {t : List Ev} (h : SetRenderer_forward io cp r = some t) : ∀ e ∈ t, Ev.isForward r e := by
  unfold SetRenderer_forward at h
  simp only [Option.bind_eq_some] at h
  obtain ⟨t1, h1, t2, h2, t3, h3, t4, h4, h⟩ := h
  injection h with h
  subst h
  have e1 : ∀ e ∈ t1, Ev.isForward r e := by
    cases hv : io.GetVolume r with
    | none => rw [hv] at h1; injection h1 with h1; subst h1; intro e he; cases he
    | some v => rw [hv] at h1; exact raise_events h1
  have e2 : ∀ e ∈ t2, Ev.isForward r e := by
    cases hv : io.GetMute r with
    | none => rw [hv] at h2; injection h2 with h2; subst h2; intro e he; cases he
    | some v => rw [hv] at h2; exact raise_events h2
  have e3 : ∀ e ∈ t3, Ev.isForward r e := by
    cases hv : io.GetTransportInfo r with
    | none => rw [hv] at h3; injection h3 with h3; subst h3; intro e he; cases he
    | some v => rw [hv] at h3; exact raise_events h3
  have e4 : ∀ e ∈ t4, Ev.isForward r e := by
    cases hv : io.GetPositionInfo r with
    | none => rw [hv] at h4; injection h4 with h4; subst h4; intro e he; cases he
    | some v => rw [hv] at h4; exact raise_events h4
  intro e he
  simp only [List.mem_append, List.mem_cons] at he
  rcases he with ((((rfl | he) | (rfl | he)) | (rfl | he)) | (rfl | he))
  · exact Or.inl ⟨_, rfl⟩
  · exact e1 e he
  · exact Or.inl ⟨_, rfl⟩
  · exact e2 e he
  · exact Or.inl ⟨_, rfl⟩
  · exact e3 e he
  · exact Or.inl ⟨_, rfl⟩
  · exact e4 e he

theorem isForward_kind {r : Renderer} {e : Ev} (h : Ev.isForward r e) :
    e.kind? ≠ some .RendererSelected ∧ e.kind? ≠ some .ServerSelected := by
  rcases h with ⟨c, rfl⟩ | ⟨id, ev, rfl⟩
  · exact ⟨by simp [Ev.kind?], by simp [Ev.kind?]⟩
  · cases ev <;> exact ⟨by simp [Ev.kind?, RendererEvent.call, HookCall.kind],
      by simp [Ev.kind?, RendererEvent.call, HookCall.kind]⟩

/-! ## The default-selection policy -/

theorem setRendererDefault_range_skip (io : Answers) (l rest : List (String × Renderer))
    (cp : MediaControl) (h : ∀ e ∈ l, e.2.name ≠ cp.preferredRenderer) :
    setRendererDefault_range io (l ++ rest) cp = setRendererDefault_range io rest cp := by
  induction l with
  | nil => rfl
  | cons e l ih =>
    obtain ⟨k, r⟩ := e
    have hr : ¬ cp.preferredRenderer = r.name := fun hh => h (k, r) (List.mem_cons_self _ _) hh.symm
    rw [List.cons_append, setRendererDefault_range, if_neg hr]
    exact ih (fun e he => h e (List.mem_cons_of_mem _ he))

/-- C5. In every state with no renderer selected and a non-empty preferred renderer
name, the found notification of a renderer `r` with that name, no entry of the
index under another UDN having that name, does not panic, makes `r` the current
renderer (the index gets `r` under its UDN), and its trace is: the icon calls
(when there is a temp directory), `OnRendererFound(r)` on the hooks with that
slot, then `OnRendererSelected(r)` once on every registered hook with that slot
populated, then the reads of `SetRenderer` and the events they raise, none of
which is a selection event. -/
theorem preferred_renderer_selected (io : Answers) (r : Renderer) (cp : MediaControl)
    (hsel : cp.curRend = none) (hp : cp.preferredRenderer ≠ "")
    (hname : r.name = cp.preferredRenderer)
    (hothers : ∀ k r', (k, r') ∈ cp.renderers → k ≠ r.udn → r'.name ≠ cp.preferredRenderer) :
    ∃ tf, (∀ e ∈ tf, Ev.isForward r e)
      ∧ onRendererFound io r cp
        = some ({ cp with curRend := some r, renderers := mapSet cp.renderers r.udn r,
                          wired := r :: cp.wired },
            (if cp.tmpDir ≠ "" then [Ev.renderer r .GetIconFile, Ev.renderer r .SetIcon] else [])
            ++ (cp.hooks.filter fun h => h.2.OnRendererFound.isSome).map
                (fun h => Ev.hook h.1 (.OnRendererFound r))
            ++ ((cp.hooks.filter fun h => h.2.OnRendererSelected.isSome).map
                (fun h => Ev.hook h.1 (.OnRendererSelected (some r))) ++ tf)) := by
  obtain ⟨tf, htf⟩ := SetRenderer_forward_some io
    { cp with curRend := some r, renderers := mapSet cp.renderers r.udn r,
              wired := r :: cp.wired } r (List.mem_cons_self _ _)
  refine ⟨tf, SetRenderer_forward_events htf, ?_⟩
  have hskip : ∀ e ∈ mapDelete cp.renderers r.udn, e.2.name ≠ cp.preferredRenderer := by
    intro e he
    exact hothers e.1 e.2 (mem_mapDelete.1 he).1 (mem_mapDelete.1 he).2
  have hset : SetRenderer io r.udn
        { cp with renderers := mapSet cp.renderers r.udn r, wired := r :: cp.wired }
      = some ({ cp with curRend := some r, renderers := mapSet cp.renderers r.udn r,
                        wired := r :: cp.wired },
          fire (hookTest cp testRendererSelected) (.OnRendererSelected (some r)) ++ tf) := by
    unfold SetRenderer
    simp only [GetRenderer, mapGet_mapSet_self, htf, Option.map_some']
    rfl
  have hdef : setRendererDefault io
        { cp with renderers := mapSet cp.renderers r.udn r, wired := r :: cp.wired }
      = some ({ cp with curRend := some r, renderers := mapSet cp.renderers r.udn r,
                        wired := r :: cp.wired },
          fire (hookTest cp testRendererSelected) (.OnRendererSelected (some r)) ++ tf) := by
    unfold setRendererDefault
    have hcond : ∀ c : MediaControl, c.curRend = none → c.preferredRenderer ≠ "" →
        (!RendererExists c && decide (c.preferredRenderer ≠ "")) = true := by
      intro c h1 h2
      simp [RendererExists, h1, h2]
    rw [if_pos]
    swap
    · exact hcond _ hsel hp
    show setRendererDefault_range io (mapDelete cp.renderers r.udn ++ [(r.udn, r)]) _ = _
    refine Eq.trans (setRendererDefault_range_skip io _ [(r.udn, r)] _ hskip) ?_
    rw [setRendererDefault_range, if_pos hname.symm, hset]
    simp [setRendererDefault_range]
  unfold onRendererFound
  simp only [hdef, Option.map_some', hookTest_eq_filter]
  rfl

/-- C5, on the scenario of the specification: preferred renderer "Living Room",
nothing selected, renderer "Living Room" with UDN "udn-1" found. -/
theorem preferred_renderer_selected_witness :
    (onRendererFound talking livingRoom demoPreferring).map (fun x => x.1.curRend)
      = some (some livingRoom)
    ∧ ∃ tf, (∀ e ∈ tf, Ev.isForward livingRoom e)
      ∧ onRendererFound talking livingRoom demoPreferring
        = some ({ demoPreferring with
                    curRend := some livingRoom
                    renderers := mapSet demoPreferring.renderers livingRoom.udn livingRoom
                    wired := livingRoom :: demoPreferring.wired },
            (if demoPreferring.tmpDir ≠ "" then
                [Ev.renderer livingRoom .GetIconFile, Ev.renderer livingRoom .SetIcon] else [])
            ++ (demoPreferring.hooks.filter fun h => h.2.OnRendererFound.isSome).map
                (fun h => Ev.hook h.1 (.OnRendererFound livingRoom))
            ++ ((demoPreferring.hooks.filter fun h => h.2.OnRendererSelected.isSome).map
                (fun h => Ev.hook h.1 (.OnRendererSelected (some livingRoom))) ++ tf)) :=
  ⟨by decide,
    preferred_renderer_selected talking livingRoom demoPreferring (by decide) (by decide)
      (by decide) (fun k r' h => by simp [demoPreferring, demoControl, populateHook, SubscribeHook, New] at h)⟩

theorem NoKind_nil (k : EventKind) : NoKind k [] := fun _ h => by cases h

theorem NoKind_append {k : EventKind} {t t' : List Ev} (h : NoKind k t) (h' : NoKind k t') :
    NoKind k (t ++ t') := by
  intro e he
  rcases List.mem_append.1 he with he | he
  · exact h e he
  · exact h' e he

theorem NoKind_fire {k : EventKind} (l : List (String × MediaHook)) {call : HookCall}
    (h : call.kind ≠ k) : NoKind k (fire l call) := by
  intro e he
  obtain ⟨id, _, _, rfl⟩ := mem_fire he
  simpa [Ev.kind?] using h

theorem NoKind_hook {k : EventKind} {t : List Ev} (h : NoKind k t) (id : String)
    (call : HookCall) (hk : call.kind = k) : Ev.hook id call ∉ t :=
  fun hmem => h _ hmem (by simp [Ev.kind?, hk])

theorem NoKind_icon_renderer (k : EventKind) (b : Prop) [Decidable b] (r : Renderer) :
    NoKind k (if b then [Ev.renderer r .GetIconFile, Ev.renderer r .SetIcon] else []) := by
  intro e he
  split at he
  · simp only [List.mem_cons, List.mem_singleton, List.not_mem_nil, or_false] at he
    rcases he with rfl | rfl <;> simp [Ev.kind?]
  · cases he

theorem NoKind_icon_server (k : EventKind) (b : Prop) [Decidable b] (s : Server) :
    NoKind k (if b then [Ev.server s .GetIconFile, Ev.server s .SetIcon] else []) := by
  intro e he
  split at he
  · simp only [List.mem_cons, List.mem_singleton, List.not_mem_nil, or_false] at he
    rcases he with rfl | rfl <;> simp [Ev.kind?]
  · cases he

theorem SetRenderer_events {io : Answers} {udn : String} {cp cp' : MediaControl} {t : List Ev}
    (h : SetRenderer io udn cp = some (cp', t)) : NoKind .ServerSelected t := by
  unfold SetRenderer at h
  simp only [GetRenderer] at h
  cases hg : mapGet cp.renderers udn with
  | none =>
    rw [hg] at h
    simp only [Option.some.injEq, Prod.mk.injEq] at h
    rw [← h.2]
    exact NoKind_fire _ (by simp [HookCall.kind])
  | some r =>
    rw [hg] at h
    simp only [Option.map_eq_some', Prod.mk.injEq] at h
    obtain ⟨tf, htf, _, h2⟩ := h
    rw [← h2]
    exact NoKind_append (NoKind_fire _ (by simp [HookCall.kind]))
      (fun e he => (isForward_kind (SetRenderer_forward_events htf e he)).2)

theorem setRendererDefault_range_events {io : Answers} {work : List (String × Renderer)}
    {cp cp' : MediaControl} {t : List Ev}
    (h : setRendererDefault_range io work cp = some (cp', t)) : NoKind .ServerSelected t := by
  induction work generalizing cp cp' t with
  | nil =>
    simp only [setRendererDefault_range, Option.some.injEq, Prod.mk.injEq] at h
    rw [← h.2]; exact NoKind_nil _
  | cons e work ih =>
    obtain ⟨k, r⟩ := e
    unfold setRendererDefault_range at h
    by_cases hp : cp.preferredRenderer = r.name
    · rw [if_pos hp] at h
      simp only [Option.bind_eq_some, Option.map_eq_some', Prod.exists, Prod.mk.injEq] at h
      obtain ⟨cp1, t1, h1, cp2, t2, h2, _, rfl⟩ := h
      exact NoKind_append (SetRenderer_events h1) (ih h2)
    · rw [if_neg hp] at h
      exact ih h

theorem setRendererDefault_events {io : Answers} {cp cp' : MediaControl} {t : List Ev}
    (h : setRendererDefault io cp = some (cp', t)) : NoKind .ServerSelected t := by
  unfold setRendererDefault at h
  split at h
  · exact setRendererDefault_range_events h
  · simp only [Option.some.injEq, Prod.mk.injEq] at h
    rw [← h.2]; exact NoKind_nil _

theorem onRendererFound_events {io : Answers} {r : Renderer} {cp cp' : MediaControl}
    {t : List Ev} (h : onRendererFound io r cp = some (cp', t)) : NoKind .ServerSelected t := by
  unfold onRendererFound at h
  simp only [Option.map_eq_some', Prod.exists, Prod.mk.injEq] at h
  obtain ⟨cp3, t3, h3, _, rfl⟩ := h
  exact NoKind_append (NoKind_append (NoKind_icon_renderer _ _ r)
    (NoKind_fire _ (by simp [HookCall.kind]))) (setRendererDefault_events h3)

theorem setServerDefault_range_events (work : List (String × Server)) (cp : MediaControl) :
    NoKind .RendererSelected (setServerDefault_range work cp).2 := by
  induction work generalizing cp with
  | nil => exact NoKind_nil _
  | cons e work ih =>
    obtain ⟨k, r⟩ := e
    unfold setServerDefault_range
    by_cases hp : cp.preferredServer = r.name
    · rw [if_pos hp]
      exact NoKind_append (NoKind_fire _ (by simp [HookCall.kind])) (ih _)
    · rw [if_neg hp]
      exact ih cp

theorem setServerDefault_events (cp : MediaControl) :
    NoKind .RendererSelected (setServerDefault cp).2 := by
  unfold setServerDefault
  split
  · exact setServerDefault_range_events _ cp
  · exact NoKind_nil _

theorem onMediaServerFound_events (k : EventKind) (hk : k ≠ .ServerFound) (srv : Server)
    (cp : MediaControl) : NoKind k (onMediaServerFound srv cp).2 :=
  NoKind_append (NoKind_icon_server _ _ srv)
    (NoKind_fire _ (by simpa [HookCall.kind] using fun h => hk h.symm))

theorem onRendererFound_selected (io : Answers) (r : Renderer) (cp : MediaControl)
    (h : cp.curRend ≠ none) :
    onRendererFound io r cp
      = some ({ cp with renderers := mapSet cp.renderers r.udn r, wired := r :: cp.wired },
          (if cp.tmpDir ≠ "" then [Ev.renderer r .GetIconFile, Ev.renderer r .SetIcon] else [])
          ++ fire (hookTest cp testRendererFound) (.OnRendererFound r) ++ []) := by
  have hd := setRendererDefault_selected io
    { cp with renderers := mapSet cp.renderers r.udn r, wired := r :: cp.wired } h
  unfold onRendererFound
  simp only [hd, Option.map_some']
  rfl

/-- One operation of the default-selection policy when a renderer is selected. -/
theorem policy_step_renderer (cmpR : Renderer → Renderer → Bool) (cmpS : Server → Server → Bool)
    (op : Op) (hop : op.isPreferenceOrFound = true) (cp : MediaControl)
    (h : cp.curRend ≠ none) :
    ∃ cp' t, step cmpR cmpS op cp = some (cp', t) ∧ cp'.curRend = cp.curRend
      ∧ NoKind .RendererSelected t := by
  cases op with
  | rendererFound io r =>
    refine ⟨_, _, onRendererFound_selected io r cp h, rfl, ?_⟩
    exact NoKind_append (NoKind_append (NoKind_icon_renderer _ _ r)
      (NoKind_fire _ (by simp [HookCall.kind]))) (NoKind_nil _)
  | serverFound srv =>
    exact ⟨_, _, rfl, rfl, onMediaServerFound_events _ (by simp) srv cp⟩
  | setPreferredRenderer io name =>
    exact ⟨_, _, setRendererDefault_selected io { cp with preferredRenderer := name } h, rfl,
      NoKind_nil _⟩
  | setPreferredServer name =>
    obtain ⟨c, hc, _⟩ := setServerDefault_eq { cp with preferredServer := name }
    refine ⟨(SetPreferredServer name cp).1, (SetPreferredServer name cp).2, rfl, ?_,
      setServerDefault_events _⟩
    show (setServerDefault { cp with preferredServer := name }).1.curRend = cp.curRend
    rw [hc]
  | visit rs ss hs =>
    by_cases hp : rs.Perm cp.renderers ∧ ss.Perm cp.servers ∧ hs.Perm cp.hooks
    · exact ⟨_, _, if_pos hp, rfl, NoKind_nil _⟩
    · exact ⟨_, _, if_neg hp, rfl, NoKind_nil _⟩
  | rendererLost io rtest => cases hop
  | serverLost stest => cases hop
  | setRenderer io udn => cases hop
  | setServer udn => cases hop
  | setVolumeDelta delta => cases hop
  | setSeekDelta delta => cases hop
  | subscribeHook id => cases hop
  | unsubscribeHook id => cases hop
  | populate id h => cases hop

/-- One operation of the default-selection policy when a server is selected. -/
theorem policy_step_server (cmpR : Renderer → Renderer → Bool) (cmpS : Server → Server → Bool)
    (op : Op) (hop : op.isPreferenceOrFound = true) (cp : MediaControl)
    (h : cp.curSrv ≠ none) (hw : Wired cp ∨ op.isServerPolicy = true) :
    ∃ cp' t, step cmpR cmpS op cp = some (cp', t) ∧ cp'.curSrv = cp.curSrv
      ∧ (Wired cp → Wired cp') ∧ NoKind .ServerSelected t := by
  cases op with
  | rendererFound io r =>
    have hw : Wired cp := hw.resolve_right (by simp [Op.isServerPolicy])
    obtain ⟨c, t, hf, _⟩ := onRendererFound_some io r cp hw
    obtain ⟨cp', t', hf', _, hw'⟩ := onRendererFound_wires io r cp hw
    rw [hf] at hf'
    injection hf' with hf'
    injection hf' with h1 h2
    refine ⟨_, t, hf, rfl, fun _ => ?_, onRendererFound_events hf⟩
    rw [h1]; exact hw'
  | serverFound srv =>
    exact ⟨_, _, rfl, rfl, fun hw => hw, onMediaServerFound_events _ (by simp) srv cp⟩
  | setPreferredRenderer io name =>
    have hw : Wired cp := hw.resolve_right (by simp [Op.isServerPolicy])
    obtain ⟨c, t, hd, _⟩ := setRendererDefault_some io { cp with preferredRenderer := name } hw
    exact ⟨_, t, hd, rfl, fun hw => hw, setRendererDefault_events hd⟩
  | setPreferredServer name =>
    exact ⟨_, _, congrArg some (setServerDefault_selected { cp with preferredServer := name } h),
      rfl, fun hw => hw, NoKind_nil _⟩
  | visit rs ss hs =>
    by_cases hp : rs.Perm cp.renderers ∧ ss.Perm cp.servers ∧ hs.Perm cp.hooks
    · exact ⟨_, _, if_pos hp, rfl, fun hw k r hmem => hw k r (hp.1.mem_iff.1 hmem),
        NoKind_nil _⟩
    · exact ⟨_, _, if_neg hp, rfl, fun hw => hw, NoKind_nil _⟩
  | rendererLost io rtest => cases hop
  | serverLost stest => cases hop
  | setRenderer io udn => cases hop
  | setServer udn => cases hop
  | setVolumeDelta delta => cases hop
  | setSeekDelta delta => cases hop
  | subscribeHook id => cases hop
  | unsubscribeHook id => cases hop
  | populate id h => cases hop

theorem policy_run_renderer (cmpR : Renderer → Renderer → Bool) (cmpS : Server → Server → Bool)
    (ops : List Op) (hops : ∀ op ∈ ops, op.isPreferenceOrFound = true) (cp : MediaControl)
    (h : cp.curRend ≠ none) :
    ∃ cp' t, run cmpR cmpS ops cp = some (cp', t) ∧ cp'.curRend = cp.curRend
      ∧ NoKind .RendererSelected t := by
  induction ops generalizing cp with
  | nil => exact ⟨cp, [], rfl, rfl, NoKind_nil _⟩
  | cons op ops ih =>
    obtain ⟨cp1, t1, h1, hc1, hn1⟩ :=
      policy_step_renderer cmpR cmpS op (hops op (List.mem_cons_self _ _)) cp h
    obtain ⟨cp2, t2, h2, hc2, hn2⟩ :=
      ih (fun o ho => hops o (List.mem_cons_of_mem _ ho)) cp1 (hc1 ▸ h)
    refine ⟨cp2, t1 ++ t2, ?_, hc2.trans hc1, NoKind_append hn1 hn2⟩
    simp only [run, h1, Option.some_bind, h2, Option.map_some']

theorem policy_run_server (cmpR : Renderer → Renderer → Bool) (cmpS : Server → Server → Bool)
    (ops : List Op) (hops : ∀ op ∈ ops, op.isPreferenceOrFound = true) (cp : MediaControl)
    (h : cp.curSrv ≠ none) (hw : Wired cp ∨ ∀ op ∈ ops, op.isServerPolicy = true) :
    ∃ cp' t, run cmpR cmpS ops cp = some (cp', t) ∧ cp'.curSrv = cp.curSrv
      ∧ NoKind .ServerSelected t := by
  induction ops generalizing cp with
  | nil => exact ⟨cp, [], rfl, rfl, NoKind_nil _⟩
  | cons op ops ih =>
    obtain ⟨cp1, t1, h1, hc1, hw1, hn1⟩ :=
      policy_step_server cmpR cmpS op (hops op (List.mem_cons_self _ _)) cp h
        (hw.imp id (fun hs => hs op (List.mem_cons_self _ _)))
    obtain ⟨cp2, t2, h2, hc2, hn2⟩ :=
      ih (fun o ho => hops o (List.mem_cons_of_mem _ ho)) cp1 (hc1 ▸ h)
        (hw.imp hw1 (fun hs o ho => hs o (List.mem_cons_of_mem _ ho)))
    refine ⟨cp2, t1 ++ t2, ?_, hc2.trans hc1, NoKind_append hn1 hn2⟩
    simp only [run, h1, Option.some_bind, h2, Option.map_some']

/-- C7. Take any sequence of calls of `SetPreferredRenderer`, `SetPreferredServer`
and of found notifications of renderers and servers, with any names and
devices.  If a renderer is selected at the start, the sequence returns, the
current renderer at the end is the same and no `OnRendererSelected` was called.
If a server is selected at the start, and the sequence is made of
`SetPreferredServer` and server found only or else every indexed renderer is
wired (so that the renderer calls cannot panic), the sequence returns, the
current server at the end is the same and no `OnServerSelected` was called. -/
theorem selection_kept (cmpR : Renderer → Renderer → Bool) (cmpS : Server → Server → Bool)
    (ops : List Op) (hops : ∀ op ∈ ops, op.isPreferenceOrFound = true) (cp : MediaControl) :
    (cp.curRend ≠ none →
      ∃ cp' t, run cmpR cmpS ops cp = some (cp', t) ∧ cp'.curRend = cp.curRend
        ∧ ∀ id x, Ev.hook id (.OnRendererSelected x) ∉ t)
    ∧ (cp.curSrv ≠ none → (Wired cp ∨ ∀ op ∈ ops, op.isServerPolicy = true) →
      ∃ cp' t, run cmpR cmpS ops cp = some (cp', t) ∧ cp'.curSrv = cp.curSrv
        ∧ ∀ id x, Ev.hook id (.OnServerSelected x) ∉ t) := by
  constructor
  · intro h
    obtain ⟨cp', t, hr, hc, hn⟩ := policy_run_renderer cmpR cmpS ops hops cp h
    exact ⟨cp', t, hr, hc, fun id x => NoKind_hook hn id _ rfl⟩
  · intro h hw
    obtain ⟨cp', t, hr, hc, hn⟩ := policy_run_server cmpR cmpS ops hops cp h hw
    exact ⟨cp', t, hr, hc, fun id x => NoKind_hook hn id _ rfl⟩

/-- C7, on an example: with `livingRoom` and `nas` selected, preferring the known
renderer "Kitchen", finding a renderer of that name, preferring the server
"Attic" and finding it change neither selection. -/
theorem selection_kept_witness :
    (∀ op ∈ demoPolicyOps, op.isPreferenceOrFound = true)
    ∧ demoSelected.curRend ≠ none ∧ demoSelected.curSrv ≠ none ∧ Wired demoSelected
    ∧ (∃ cp' t, run Renderer.CompareProxy Server.CompareProxy demoPolicyOps demoSelected
          = some (cp', t) ∧ cp'.curRend = demoSelected.curRend
        ∧ ∀ id x, Ev.hook id (.OnRendererSelected x) ∉ t)
    ∧ (∃ cp' t, run Renderer.CompareProxy Server.CompareProxy demoPolicyOps demoSelected
          = some (cp', t) ∧ cp'.curSrv = demoSelected.curSrv
        ∧ ∀ id x, Ev.hook id (.OnServerSelected x) ∉ t) :=
  have hops : ∀ op ∈ demoPolicyOps, op.isPreferenceOrFound = true := by
    simp [demoPolicyOps, Op.isPreferenceOrFound]
  have hw : Wired demoSelected := by
    intro k r h
    simp only [demoSelected, List.mem_cons, Prod.mk.injEq, List.mem_singleton,
      List.not_mem_nil, or_false] at h
    rcases h with ⟨_, rfl⟩ | ⟨_, rfl⟩ <;> decide
  ⟨hops, by decide, by decide, hw,
    (selection_kept Renderer.CompareProxy Server.CompareProxy demoPolicyOps hops
      demoSelected).1 (by decide),
    (selection_kept Renderer.CompareProxy Server.CompareProxy demoPolicyOps hops
      demoSelected).2 (by decide) (Or.inl hw)⟩

/-- The found notification of a server never touches the current server and calls
no `OnServerSelected`, whatever the preferred server name. -/
theorem onMediaServerFound_keeps_selection (srv : Server) (cp : MediaControl) :
    (onMediaServerFound srv cp).1.curSrv = cp.curSrv
    ∧ ∀ id x, Ev.hook id (.OnServerSelected x) ∉ (onMediaServerFound srv cp).2 :=
  ⟨rfl, fun id _ => NoKind_hook (onMediaServerFound_events .ServerSelected (by simp) srv cp)
    id _ rfl⟩

/-- C6, the code at the failing input: no server selected, preferred server "NAS",
the hook "gui" listening to `OnServerSelected`; the server "NAS" is found.  The
current server stays nil and the trace holds the two icon calls only, whereas
the same scenario for a renderer selects it, and whereas `SetPreferredServer`
called after the notification does select the server. -/
theorem server_found_applies_no_default :
    demoPreferring.curSrv = none ∧ demoPreferring.preferredServer = nas.name
    ∧ demoHook.OnServerSelected ≠ none
    ∧ onMediaServerFound nas demoPreferring
        = ({ demoPreferring with servers := [("udn-3", nas)] },
            [Ev.server nas .GetIconFile, Ev.server nas .SetIcon])
    ∧ (onMediaServerFound nas demoPreferring).1.curSrv = none
    ∧ (onRendererFound silent livingRoom demoPreferring).map (fun x => x.1.curRend)
        = some (some livingRoom)
    ∧ SetPreferredServer "NAS" (onMediaServerFound nas demoPreferring).1
        = ({ demoPreferring with servers := [("udn-3", nas)], curSrv := some nas },
            [Ev.hook "gui" (.OnServerSelected (some nas))]) := by
  decide

/-! ## Losing the selected renderer -/

theorem OtherLost_fire (r : Renderer) (l : List (String × MediaHook)) {r' : Renderer}
    (h : r' ≠ r) : OtherLost r (fire l (.OnRendererLost r')) := by
  intro e he
  obtain ⟨id, _, _, rfl⟩ := mem_fire he
  exact ⟨id, r', rfl, h⟩

theorem OtherLost_append {r : Renderer} {t t' : List Ev} (h : OtherLost r t)
    (h' : OtherLost r t') : OtherLost r (t ++ t') := by
  intro e he
  rcases List.mem_append.1 he with he | he
  · exact h e he
  · exact h' e he

/-- The loop of `onMediaRendererLost` once nothing is selected and `r` is gone: it
only removes other renderers. -/
theorem onMediaRendererLost_range_after (cmp : Renderer → Renderer → Bool) (io : Answers)
    (rtest r : Renderer) (work : List (String × Renderer)) (cp : MediaControl)
    (hcur : cp.curRend = none) (hkey : KeyedByUDN Renderer.udn cp.renderers)
    (hr : r.udn ∉ mapKeys cp.renderers) :
    ∃ m t, onMediaRendererLost_range cmp io rtest work cp = some ({ cp with renderers := m }, t)
      ∧ r.udn ∉ mapKeys m ∧ OtherLost r t := by
  induction work generalizing cp with
  | nil => exact ⟨cp.renderers, [], rfl, hr, fun _ h => by cases h⟩
  | cons e work ih =>
    obtain ⟨k, r0⟩ := e
    unfold onMediaRendererLost_range
    cases hg : mapGet cp.renderers k with
    | none => exact ih cp hcur hkey hr
    | some rend =>
      have hmem := mem_of_mapGet hg
      have hne : rend ≠ r := by
        rintro rfl
        exact hr (List.mem_map.2 ⟨(k, rend), hmem, (hkey k rend hmem)⟩)
      by_cases hc : cmp rend rtest = true
      · have hact : RendererIsActive cp (some rend) = false := by
          simp [RendererIsActive, hcur]
        obtain ⟨m, t, h, hm, ht⟩ := ih { cp with renderers := mapDelete cp.renderers rend.udn }
          hcur (fun k' r' hm' => hkey k' r' (mem_mapDelete.1 hm').1)
          (fun hh => hr ((mem_mapKeys_mapDelete _ _ _).1 hh).1)
        simp only [hc, if_true, hact, Bool.false_eq_true, if_false, Option.some_bind, h,
          Option.map_some']
        exact ⟨m, _, rfl, hm, OtherLost_append (OtherLost_append (fun _ h => by cases h)
          (OtherLost_fire r _ hne)) ht⟩
      · simp only [hc, if_false]
        exact ih cp hcur hkey hr

/-- The loop of `onMediaRendererLost` while the selected renderer `r`, which the
lost notification matches, is still to be visited. -/
theorem onMediaRendererLost_range_selected (cmp : Renderer → Renderer → Bool) (io : Answers)
    (rtest r : Renderer) (hcmp : cmp r rtest = true) (work : List (String × Renderer))
    (cp : MediaControl) (hok : IndexOk Renderer.udn cp.curRend cp.renderers)
    (hcur : cp.curRend = some r) (hwork : r.udn ∈ mapKeys work) :
    ∃ m t1 t2, onMediaRendererLost_range cmp io rtest work cp
        = some ({ cp with curRend := none, renderers := m },
            t1 ++ fire (hookTest cp testRendererSelected) (.OnRendererSelected none)
              ++ fire (hookTest cp testRendererLost) (.OnRendererLost r) ++ t2)
      ∧ r.udn ∉ mapKeys m ∧ OtherLost r t1 ∧ OtherLost r t2 := by
  induction work generalizing cp with
  | nil => cases hwork
  | cons e work ih =>
    obtain ⟨k, r0⟩ := e
    have hget : mapGet cp.renderers r.udn = some r := hok.2.2.2 r hcur
    have hrest : k ≠ r.udn → r.udn ∈ mapKeys work := by
      intro hk
      simp only [mapKeys, List.map_cons, List.mem_cons] at hwork
      rcases hwork with h | h
      · exact absurd h.symm hk
      · exact h
    unfold onMediaRendererLost_range
    cases hg : mapGet cp.renderers k with
    | none =>
      have hk : k ≠ r.udn := by
        rintro rfl
        rw [hget] at hg
        cases hg
      exact ih cp hok hcur (hrest hk)
    | some rend =>
      by_cases hrr : rend = r
      · subst hrr
        have hact : RendererIsActive cp (some rend) = true := by
          simp [RendererIsActive, hcur]
        have hsel := SetRenderer_unknown io cp "" (IndexOk_get_empty hok)
        have hgone : rend.udn ∉ mapKeys (mapDelete cp.renderers rend.udn) := by
          rw [mem_mapKeys_mapDelete]; simp
        obtain ⟨m, t, h, hm, ht⟩ := onMediaRendererLost_range_after cmp io rtest rend work
          { cp with curRend := none, renderers := mapDelete cp.renderers rend.udn } rfl
          (fun k' r' hm' => hok.2.1 k' r' (mem_mapDelete.1 hm').1) hgone
        simp only [hcmp, if_true, hact, hsel, Option.some_bind, h, Option.map_some']
        refine ⟨m, [], t, ?_, hm, fun _ h => (by cases h), ht⟩
        simp only [List.nil_append]
        rfl
      · have hk : k ≠ r.udn := by
          rintro rfl
          rw [hget] at hg
          injection hg with hg
          exact hrr hg.symm
        by_cases hc : cmp rend rtest = true
        · have hna : ¬ cp.curRend = some rend := by
            rw [hcur]
            intro hh
            injection hh with hh
            exact hrr hh.symm
          have hact : RendererIsActive cp (some rend) = false := by
            simp [RendererIsActive, hna]
          have hok2 := IndexOk_lost hok hg
          rw [if_neg hna] at hok2
          obtain ⟨m, t1, t2, h, hm, h1, h2⟩ :=
            ih { cp with renderers := mapDelete cp.renderers rend.udn } hok2 hcur (hrest hk)
          simp only [hc, if_true, hact, Bool.false_eq_true, if_false, Option.some_bind, h,
            Option.map_some']
          refine ⟨m, fire (hookTest cp testRendererLost) (.OnRendererLost rend) ++ t1, t2, ?_,
            hm, OtherLost_append (OtherLost_fire r _ hrr) h1, h2⟩
          simp only [List.nil_append, List.append_assoc]
          rfl
        · simp only [hc, if_false]
          exact ih cp hok hcur (hrest hk)

/-- The intent of C3, where the code meets it: when no renderer of the index has an
empty UDN (keys being unique and being the UDNs), and the lost notification
matches the current renderer `r`, `onMediaRendererLost` returns, the current
renderer is nil afterwards, the index no longer has the UDN of `r`, and in the
trace the calls of `OnRendererSelected(nil)`, one per hook with that slot, come
before the calls of `OnRendererLost(r)`, one per hook with that slot; all other
events are `OnRendererLost` for other renderers that matched. -/
theorem lost_selected_renderer (cmp : Renderer → Renderer → Bool) (io : Answers)
    (rtest r : Renderer) (cp : MediaControl)
    (hok : IndexOk Renderer.udn cp.curRend cp.renderers)
    (hcur : cp.curRend = some r) (hcmp : cmp r rtest = true) :
    ∃ cp' t1 t2, onMediaRendererLost cmp io rtest cp
        = some (cp', t1 ++ fire (hookTest cp testRendererSelected) (.OnRendererSelected none)
              ++ fire (hookTest cp testRendererLost) (.OnRendererLost r) ++ t2)
      ∧ cp'.curRend = none ∧ r.udn ∉ mapKeys cp'.renderers
      ∧ OtherLost r t1 ∧ OtherLost r t2 := by
  have hmem : r.udn ∈ mapKeys cp.renderers :=
    (mem_mapKeys_iff _ _).2 ⟨r, hok.2.2.2 r hcur⟩
  obtain ⟨m, t1, t2, h, hm, h1, h2⟩ :=
    onMediaRendererLost_range_selected cmp io rtest r hcmp cp.renderers cp hok hcur hmem
  exact ⟨_, t1, t2, h, rfl, hm, h1, h2⟩

/-- C3, the code at the failing input.  The renderer `nameless` (UDN "") is in the
index and selected, the hook "gui" listens to `OnRendererSelected` and
`OnRendererLost`; the backend reports its proxy lost.  `SetRenderer("")` looks
up "" and selects `nameless` again: the hook is told `OnRendererSelected` with
`nameless`, not nil, and after the notification the current renderer is still
`nameless` although the index is empty. -/
theorem lost_selected_renderer_empty_udn :
    demoNameless.curRend = some nameless ∧ demoNameless.renderers = [("", nameless)]
    ∧ Renderer.CompareProxy nameless { ptr := 6, udn := "", name := "", proxy := 15 } = true
    ∧ onMediaRendererLost Renderer.CompareProxy silent
        { ptr := 6, udn := "", name := "", proxy := 15 } demoNameless
      = some ({ demoNameless with renderers := [] },
          [Ev.hook "gui" (.OnRendererSelected (some nameless)),
           Ev.renderer nameless (.GetVolume 0 ChannelMaster),
           Ev.renderer nameless (.GetMute 0 ChannelMaster),
           Ev.renderer nameless (.GetTransportInfo 0),
           Ev.renderer nameless (.GetPositionInfo 0),
           Ev.hook "gui" (.OnRendererLost nameless)])
    ∧ Ev.hook "gui" (.OnRendererSelected none) ∉
        ((onMediaRendererLost Renderer.CompareProxy silent
          { ptr := 6, udn := "", name := "", proxy := 15 } demoNameless).map Prod.snd).getD []
    ∧ (onMediaRendererLost Renderer.CompareProxy silent
          { ptr := 6, udn := "", name := "", proxy := 15 } demoNameless).map
        (fun x => (x.1.curRend, x.1.renderers)) = some (some nameless, []) := by
  decide


/-! ## Time strings -/

theorem digitChar_facts (k : Nat) (hk : k < 10) :
    (digitChar k).isDigit = true ∧ (digitChar k).toNat - '0'.toNat = k ∧
    isSpace (digitChar k) = false ∧ digitChar k ≠ '\n' ∧ digitChar k ≠ '-' ∧
    digitChar k ≠ '+' := by
  interval_cases k <;> decide

theorem takeDigits_stop (rest : List Char) (h : rest = [] ∨ ∃ r, rest = ':' :: r) :
    takeDigits rest = ([], rest) := by
  rcases h with h | ⟨r, h⟩
  · subst h; rfl
  · subst h
    have : (':' : Char).isDigit = false := by decide
    simp [takeDigits, this]

theorem scanInt_two_digits (k1 k2 : Nat) (h1 : k1 < 10) (h2 : k2 < 10) (rest : List Char)
    (h : rest = [] ∨ ∃ r, rest = ':' :: r) :
    scanInt (digitChar k1 :: digitChar k2 :: rest) = some (((k1 * 10 + k2 : Nat) : Int), rest) := by
  obtain ⟨d1, v1, s1, n1, m1, p1⟩ := digitChar_facts k1 h1
  obtain ⟨d2, v2, _, _, _, _⟩ := digitChar_facts k2 h2
  have hv : digitsValue [digitChar k1, digitChar k2] = k1 * 10 + k2 := by
    simp only [digitsValue, List.foldl, v1, v2]; omega
  have ht : takeDigits (digitChar k1 :: digitChar k2 :: rest)
      = ([digitChar k1, digitChar k2], rest) := by
    simp [takeDigits, d1, d2, takeDigits_stop rest h]
  have hr : (-2 ^ 63 : Int) ≤ ((k1 * 10 + k2 : Nat) : Int)
      ∧ ((k1 * 10 + k2 : Nat) : Int) < 2 ^ 63 := by
    constructor <;> omega
  simp only [scanInt, skipSpace, if_neg n1, s1, Bool.false_eq_true, if_false, m1, p1, or_self,
    decide_False, ht, hv]
  simp
  omega

theorem scanInt_pad2 (a : Nat) (ha : a < 100) (rest : List Char)
    (h : rest = [] ∨ ∃ r, rest = ':' :: r) :
    scanInt (pad2 a ++ rest) = some ((a : Int), rest) := by
  have e := scanInt_two_digits (a / 10) (a % 10) (by omega) (by omega) rest h
  have ea : a / 10 * 10 + a % 10 = a := by omega
  rw [ea] at e
  simpa [pad2] using e

theorem TimeToSecond_pad2 (h m s : Nat) (hh : h < 100) (hm : m < 100) (hs : s < 100) :
    TimeToSecond (String.mk (pad2 h ++ ':' :: pad2 m ++ ':' :: pad2 s))
      = wrapInt (((h : Int) * 60 + m) * 60 + s) := by
  have e1 := scanInt_pad2 h hh (':' :: (pad2 m ++ ':' :: pad2 s)) (Or.inr ⟨_, rfl⟩)
  have e2 := scanInt_pad2 m hm (':' :: pad2 s) (Or.inr ⟨_, rfl⟩)
  have e3 := scanInt_pad2 s hs [] (Or.inl rfl)
  simp only [List.append_nil] at e3
  simp only [List.append_assoc, List.cons_append] at e1 e2 ⊢
  simp only [TimeToSecond, sscanfHMS, String.toList, e1, e2, e3]

theorem TimeToString_day (n : Int) (h0 : 0 ≤ n) (h1 : n < 86400) :
    TimeToString n = String.mk (pad2 (n.toNat / 3600) ++ ':' :: pad2 (n.toNat % 3600 / 60)
      ++ ':' :: pad2 (n.toNat % 60)) := by
  have hw : wrapInt (n * 1000000000) = n * 1000000000 := by
    unfold wrapInt; omega
  have hd : n * 1000000000 / 1000000000 = n := by omega
  have hm : n % 86400 = n := by omega
  simp only [TimeToString, hw, hd, hm]

/-- C11: for every number of seconds `n` of one day, `0 ≤ n < 86400`,
`TimeToString n` has the shape HH:MM:SS (eight characters: two digits, a colon,
two digits, a colon, two digits) and `TimeToSecond` reads `n` back from it. -/
theorem time_round_trip (n : Int) (h0 : 0 ≤ n) (h1 : n < 86400) :
    TimeToSecond (TimeToString n) = n ∧
    ∃ a b c d e f : Char,
      a.isDigit = true ∧ b.isDigit = true ∧ c.isDigit = true ∧ d.isDigit = true ∧
      e.isDigit = true ∧ f.isDigit = true ∧
      (TimeToString n).toList = [a, b, ':', c, d, ':', e, f] := by
  obtain ⟨t, rfl⟩ := Int.eq_ofNat_of_zero_le h0
  have ht : t < 86400 := by omega
  rw [TimeToString_day _ h0 h1]
  simp only [Int.toNat_ofNat]
  constructor
  · rw [TimeToSecond_pad2 _ _ _ (by omega) (by omega) (by omega)]
    unfold wrapInt
    omega
  · exact ⟨_, _, _, _, _, _,
      (digitChar_facts (t / 3600 / 10) (by omega)).1,
      (digitChar_facts (t / 3600 % 10) (by omega)).1,
      (digitChar_facts (t % 3600 / 60 / 10) (by omega)).1,
      (digitChar_facts (t % 3600 / 60 % 10) (by omega)).1,
      (digitChar_facts (t % 60 / 10) (by omega)).1,
      (digitChar_facts (t % 60 % 10) (by omega)).1, rfl⟩

theorem time_round_trip_witness :
    ((0 : Int) ≤ 3723 ∧ (3723 : Int) < 86400) ∧
    (TimeToSecond (TimeToString 3723) = 3723 ∧
    ∃ a b c d e f : Char,
      a.isDigit = true ∧ b.isDigit = true ∧ c.isDigit = true ∧ d.isDigit = true ∧
      e.isDigit = true ∧ f.isDigit = true ∧
      (TimeToString 3723).toList = [a, b, ':', c, d, ':', e, f]) :=
  ⟨by decide, time_round_trip 3723 (by decide) (by decide)⟩


/-! ## Backend renderer actions -/

/-- C12: `SetRelativeVolume` first sends GetVolume for the channel it is given.
If that read fails nothing else is sent and the error is returned (with the
volume 0).  If it succeeds, exactly one SetVolume follows; the value `v` it
carries is within 0..100 for every adjustment and every volume read (it is the
int32 sum of the two, cut to 0..100), the result of SetVolume is the error
returned, and when that is nil the volume returned is `v`. -/
theorem SetRelativeVolume_clamped (dev : Backendgupnp.Device) (hist : List Backendgupnp.Sent)
    (rend : Backendgupnp.Renderer) (instanceId : Nat) (channel : String) (adjustment : Int) :
    let get : Backendgupnp.Sent := ⟨Backendgupnp.Service.renderControl, "GetVolume",
      [("InstanceID", Backendgupnp.Arg.uint 0), ("Channel", Backendgupnp.Arg.str channel)],
      ["CurrentVolume"]⟩
    let r := rend.SetRelativeVolume dev hist instanceId channel adjustment
    (∀ e, (dev hist get).err = some e → r = ((0, some e), hist ++ [get])) ∧
    ((dev hist get).err = none →
      ∃ v : Nat, v ≤ 100 ∧
        (v : Int) = max 0 (min 100
          (wrapInt32 ((((dev hist get).uintOut % 65536 : Nat) : Int) + adjustment))) ∧
        r.2 = hist ++ [get, ⟨Backendgupnp.Service.renderControl, "SetVolume",
          [("InstanceID", Backendgupnp.Arg.uint 0), ("Channel", Backendgupnp.Arg.str "Master"),
           ("DesiredVolume", Backendgupnp.Arg.uint v)], []⟩] ∧
        r.1.2 = (dev (hist ++ [get]) ⟨Backendgupnp.Service.renderControl, "SetVolume",
          [("InstanceID", Backendgupnp.Arg.uint 0), ("Channel", Backendgupnp.Arg.str "Master"),
           ("DesiredVolume", Backendgupnp.Arg.uint v)], []⟩).err ∧
        (r.1.2 = none → r.1.1 = v) ∧ (r.1.2 ≠ none → r.1.1 = 0)) := by
  intro get r
  constructor
  · intro e he
    simp only [r, Backendgupnp.Renderer.SetRelativeVolume, Backendgupnp.Renderer.GetVolume,
      Backendgupnp.SendAction]
    rw [show (dev hist get).err = some e from he]
  · intro hn
    obtain ⟨v, hv⟩ : ∃ v : Nat, (v : Int) = ternary.Max (ternary.Min
        (wrapInt32 ((((dev hist get).uintOut % 65536 : Nat) : Int) + adjustment)) 100) 0 := by
      refine ⟨(ternary.Max (ternary.Min
        (wrapInt32 ((((dev hist get).uintOut % 65536 : Nat) : Int) + adjustment)) 100) 0).toNat,
        Int.toNat_of_nonneg ?_⟩
      unfold ternary.Max
      split <;> omega
    have hv100 : v ≤ 100 := by
      have : (v : Int) ≤ 100 := by
        rw [hv]; unfold ternary.Max ternary.Min
        split <;> split <;> omega
      omega
    have hmod : ((v : Int) % 65536).toNat = v := by omega
    refine ⟨v, hv100, ?_, ?_⟩
    · rw [hv]; unfold ternary.Max ternary.Min
      split <;> split <;> omega
    · simp only [r, Backendgupnp.Renderer.SetRelativeVolume, Backendgupnp.Renderer.GetVolume,
        Backendgupnp.Renderer.SetVolume, Backendgupnp.SendAction]
      rw [show (dev hist get).err = none from hn]
      simp only [← hv, hmod]
      cases hs : (dev (hist ++ [get]) ⟨Backendgupnp.Service.renderControl, "SetVolume",
          [("InstanceID", Backendgupnp.Arg.uint 0), ("Channel", Backendgupnp.Arg.str "Master"),
           ("DesiredVolume", Backendgupnp.Arg.uint v)], []⟩).err <;> simp [get]

theorem SetRelativeVolume_clamped_witness :
    (Backendgupnp.demoRenderer PlaybackStateStopped).SetRelativeVolume Backendgupnp.demoDevice []
        0 "Master" 10
      = ((100, none),
         [⟨Backendgupnp.Service.renderControl, "GetVolume",
            [("InstanceID", Backendgupnp.Arg.uint 0), ("Channel", Backendgupnp.Arg.str "Master")],
            ["CurrentVolume"]⟩,
          ⟨Backendgupnp.Service.renderControl, "SetVolume",
            [("InstanceID", Backendgupnp.Arg.uint 0), ("Channel", Backendgupnp.Arg.str "Master"),
             ("DesiredVolume", Backendgupnp.Arg.uint 100)], []⟩])
    ∧ (Backendgupnp.demoDown [] ⟨Backendgupnp.Service.renderControl, "GetVolume",
            [("InstanceID", Backendgupnp.Arg.uint 0), ("Channel", Backendgupnp.Arg.str "Master")],
            ["CurrentVolume"]⟩).err = some "timeout"
    ∧ (Backendgupnp.demoRenderer PlaybackStateStopped).SetRelativeVolume Backendgupnp.demoDown []
          0 "Master" 10
        = ((0, some "timeout"), [] ++ [⟨Backendgupnp.Service.renderControl, "GetVolume",
            [("InstanceID", Backendgupnp.Arg.uint 0), ("Channel", Backendgupnp.Arg.str "Master")],
            ["CurrentVolume"]⟩]) :=
  ⟨by decide, rfl,
   (SetRelativeVolume_clamped Backendgupnp.demoDown [] (Backendgupnp.demoRenderer PlaybackStateStopped)
      0 "Master" 10).1 "timeout" rfl⟩


/-- C14: `PlayPause` sends exactly one Play action, carrying the speed it was
given, when the state of the renderer is Stopped or Paused, exactly one Pause
action when it is Playing, and in both cases returns the error of that action;
when the state is Unknown or Transitioning it sends nothing and returns nil. -/
theorem PlayPause_dispatch (dev : Backendgupnp.Device) (hist : List Backendgupnp.Sent)
    (rend : Backendgupnp.Renderer) (instanceId : Nat) (speed : String) :
    (rend.state = PlaybackStateStopped ∨ rend.state = PlaybackStatePaused →
      rend.PlayPause dev hist instanceId speed
        = ((dev hist ⟨Backendgupnp.Service.avTransport, "Play",
              [("InstanceID", Backendgupnp.Arg.uint 0), ("Speed", Backendgupnp.Arg.str speed)],
              []⟩).err,
           hist ++ [⟨Backendgupnp.Service.avTransport, "Play",
              [("InstanceID", Backendgupnp.Arg.uint 0), ("Speed", Backendgupnp.Arg.str speed)],
              []⟩])) ∧
    (rend.state = PlaybackStatePlaying →
      rend.PlayPause dev hist instanceId speed
        = ((dev hist ⟨Backendgupnp.Service.avTransport, "Pause",
              [("InstanceID", Backendgupnp.Arg.uint 0)], []⟩).err,
           hist ++ [⟨Backendgupnp.Service.avTransport, "Pause",
              [("InstanceID", Backendgupnp.Arg.uint 0)], []⟩])) ∧
    (rend.state = PlaybackStateUnknown ∨ rend.state = PlaybackStateTransitioning →
      rend.PlayPause dev hist instanceId speed = (none, hist)) := by
  refine ⟨?_, ?_, ?_⟩
  · rintro (h | h) <;>
      simp only [Backendgupnp.Renderer.PlayPause, h, Backendgupnp.Renderer.Play,
        Backendgupnp.SendAction]
  · intro h
    simp only [Backendgupnp.Renderer.PlayPause, h, Backendgupnp.Renderer.Pause,
      Backendgupnp.SendAction]
  · rintro (h | h) <;> simp only [Backendgupnp.Renderer.PlayPause, h]

theorem PlayPause_dispatch_witness :
    ((Backendgupnp.demoRenderer PlaybackStatePaused).state = PlaybackStateStopped
        ∨ (Backendgupnp.demoRenderer PlaybackStatePaused).state = PlaybackStatePaused)
    ∧ (Backendgupnp.demoRenderer PlaybackStatePaused).PlayPause Backendgupnp.demoDown [] 0 "1"
      = (some "timeout",
         [] ++ [⟨Backendgupnp.Service.avTransport, "Play",
           [("InstanceID", Backendgupnp.Arg.uint 0), ("Speed", Backendgupnp.Arg.str "1")], []⟩])
    ∧ (Backendgupnp.demoRenderer PlaybackStatePlaying).PlayPause Backendgupnp.demoDevice [] 0 "1"
      = (none,
         [] ++ [⟨Backendgupnp.Service.avTransport, "Pause",
           [("InstanceID", Backendgupnp.Arg.uint 0)], []⟩])
    ∧ (Backendgupnp.demoRenderer PlaybackStateTransitioning).PlayPause Backendgupnp.demoDevice
        [] 0 "1" = (none, []) :=
  ⟨Or.inr rfl,
   (PlayPause_dispatch Backendgupnp.demoDown [] (Backendgupnp.demoRenderer PlaybackStatePaused)
      0 "1").1 (Or.inr rfl),
   (PlayPause_dispatch Backendgupnp.demoDevice [] (Backendgupnp.demoRenderer PlaybackStatePlaying)
      0 "1").2.1 rfl,
   (PlayPause_dispatch Backendgupnp.demoDevice []
      (Backendgupnp.demoRenderer PlaybackStateTransitioning) 0 "1").2.2 (Or.inr rfl)⟩

/-- C15 as stated fails: a device that refuses the action SetAVTransportURI is
sent Stop and SetAVTransportURI only; no Play follows and the error of the
refused action is returned. -/
theorem SetAVTransportURI_sequence_counterexample :
    (Backendgupnp.demoRenderer PlaybackStatePlaying).SetAVTransportURI Backendgupnp.demoRefusing
        [] 0 "http://nas/a.mp3" "<DIDL-Lite/>"
      = (some "Invalid Args",
         [⟨Backendgupnp.Service.avTransport, "Stop",
            [("InstanceID", Backendgupnp.Arg.uint 0)], []⟩,
          ⟨Backendgupnp.Service.avTransport, "SetAVTransportURI",
            [("InstanceID", Backendgupnp.Arg.uint 0),
             ("CurrentURI", Backendgupnp.Arg.str "http://nas/a.mp3"),
             ("CurrentURIMetaData", Backendgupnp.Arg.str "<DIDL-Lite/>")], []⟩])
    ∧ ¬ (∀ (dev : Backendgupnp.Device) (rend : Backendgupnp.Renderer) (uri metadata : String),
        (rend.SetAVTransportURI dev [] 0 uri metadata).2
          = [⟨Backendgupnp.Service.avTransport, "Stop",
                [("InstanceID", Backendgupnp.Arg.uint 0)], []⟩,
             ⟨Backendgupnp.Service.avTransport, "SetAVTransportURI",
                [("InstanceID", Backendgupnp.Arg.uint 0),
                 ("CurrentURI", Backendgupnp.Arg.str uri),
                 ("CurrentURIMetaData", Backendgupnp.Arg.str metadata)], []⟩,
             ⟨Backendgupnp.Service.avTransport, "Play",
                [("InstanceID", Backendgupnp.Arg.uint 0), ("Speed", Backendgupnp.Arg.str "1")],
                []⟩]) := by
  refine ⟨by decide, fun h => ?_⟩
  have h1 := h Backendgupnp.demoRefusing (Backendgupnp.demoRenderer PlaybackStatePlaying)
    "http://nas/a.mp3" "<DIDL-Lite/>"
  revert h1
  decide

/-- C15, amended: for every URI and metadata string `SetAVTransportURI` sends
Stop and then SetAVTransportURI(CurrentURI = uri, CurrentURIMetaData =
metadata), whatever Stop answered.  If the device refuses SetAVTransportURI,
nothing else is sent and its error is returned; if it accepts, Play with the
speed "1" is sent third and the result of Play is returned. -/
theorem SetAVTransportURI_sequence (dev : Backendgupnp.Device) (hist : List Backendgupnp.Sent)
    (rend : Backendgupnp.Renderer) (instanceId : Nat) (uri metadata : String) :
    let stop : Backendgupnp.Sent := ⟨Backendgupnp.Service.avTransport, "Stop",
      [("InstanceID", Backendgupnp.Arg.uint 0)], []⟩
    let set : Backendgupnp.Sent := ⟨Backendgupnp.Service.avTransport, "SetAVTransportURI",
      [("InstanceID", Backendgupnp.Arg.uint 0), ("CurrentURI", Backendgupnp.Arg.str uri),
       ("CurrentURIMetaData", Backendgupnp.Arg.str metadata)], []⟩
    let play : Backendgupnp.Sent := ⟨Backendgupnp.Service.avTransport, "Play",
      [("InstanceID", Backendgupnp.Arg.uint 0), ("Speed", Backendgupnp.Arg.str "1")], []⟩
    (∀ e, (dev (hist ++ [stop]) set).err = some e →
      rend.SetAVTransportURI dev hist instanceId uri metadata = (some e, hist ++ [stop, set])) ∧
    ((dev (hist ++ [stop]) set).err = none →
      rend.SetAVTransportURI dev hist instanceId uri metadata
        = ((dev (hist ++ [stop, set]) play).err, hist ++ [stop, set, play])) := by
  intro stop set play
  constructor
  · intro e he
    simp only [Backendgupnp.Renderer.SetAVTransportURI, Backendgupnp.Renderer.Stop,
      Backendgupnp.SendAction]
    rw [show (dev (hist ++ [stop]) set).err = some e from he]
    simp [stop, set]
  · intro hn
    simp only [Backendgupnp.Renderer.SetAVTransportURI, Backendgupnp.Renderer.Stop,
      Backendgupnp.SendAction, Backendgupnp.Renderer.Play]
    rw [show (dev (hist ++ [stop]) set).err = none from hn]
    simp [stop, set, play]

theorem SetAVTransportURI_sequence_witness :
    (Backendgupnp.demoDevice ([] ++ [⟨Backendgupnp.Service.avTransport, "Stop",
        [("InstanceID", Backendgupnp.Arg.uint 0)], []⟩])
      ⟨Backendgupnp.Service.avTransport, "SetAVTransportURI",
        [("InstanceID", Backendgupnp.Arg.uint 0),
         ("CurrentURI", Backendgupnp.Arg.str "http://nas/a.mp3"),
         ("CurrentURIMetaData", Backendgupnp.Arg.str "<DIDL-Lite/>")], []⟩).err = none
    ∧ (Backendgupnp.demoRenderer PlaybackStatePlaying).SetAVTransportURI Backendgupnp.demoDevice
        [] 0 "http://nas/a.mp3" "<DIDL-Lite/>"
      = (none,
         [] ++ [⟨Backendgupnp.Service.avTransport, "Stop",
            [("InstanceID", Backendgupnp.Arg.uint 0)], []⟩,
          ⟨Backendgupnp.Service.avTransport, "SetAVTransportURI",
            [("InstanceID", Backendgupnp.Arg.uint 0),
             ("CurrentURI", Backendgupnp.Arg.str "http://nas/a.mp3"),
             ("CurrentURIMetaData", Backendgupnp.Arg.str "<DIDL-Lite/>")], []⟩,
          ⟨Backendgupnp.Service.avTransport, "Play",
            [("InstanceID", Backendgupnp.Arg.uint 0), ("Speed", Backendgupnp.Arg.str "1")],
            []⟩]) :=
  ⟨rfl,
   (SetAVTransportURI_sequence Backendgupnp.demoDevice []
      (Backendgupnp.demoRenderer PlaybackStatePlaying) 0 "http://nas/a.mp3" "<DIDL-Lite/>").2 rfl⟩


/-! ## Actions and browsing of the manager -/

/-- C13 fails on the code: `Action` sends the uint16 sum or difference of the
volume read and the delta, not cut to 0..100.  With the delta 10, VolumeUp at
the volume 95 sends SetVolume 105 and VolumeDown at the volume 5 sends SetVolume
65531 (the difference wrapped around in uint16). -/
theorem Action_volume_unclamped :
    Action (demoReplies 95 0) demoDelta ActionVolumeUp
      = (demoDelta, none,
         [Out.renderer livingRoom (RendererAction.GetVolume 0 "Master"),
          Out.renderer livingRoom (RendererAction.SetVolume 0 "Master" 105)])
    ∧ Action (demoReplies 5 0) demoDelta ActionVolumeDown
      = (demoDelta, none,
         [Out.renderer livingRoom (RendererAction.GetVolume 0 "Master"),
          Out.renderer livingRoom (RendererAction.SetVolume 0 "Master" 65531)]) := by
  constructor <;> decide

theorem BrowseMetadata_range_first (io : Replies) (r : Renderer) (didlxml : String)
    (pre post : List Item) (item : Item) (res0 : Resource) (rest : List Resource)
    (hpre : ∀ i ∈ pre, i.Res = []) (hitem : item.Res = res0 :: rest) :
    BrowseMetadata_range io r didlxml (pre ++ item :: post)
      = (io.SetAVTransportURI r 0 res0.URL didlxml,
         [Out.renderer r (RendererAction.SetAVTransportURI 0 res0.URL didlxml)]) := by
  induction pre with
  | nil => simp only [List.nil_append, BrowseMetadata_range, hitem]
  | cons a pre ih =>
    have ha : a.Res = [] := hpre a (List.mem_cons_self _ _)
    simp only [List.cons_append, BrowseMetadata_range, ha]
    exact ih (fun i hi => hpre i (List.mem_cons_of_mem _ hi))

theorem BrowseMetadata_range_none (io : Replies) (r : Renderer) (didlxml : String)
    (items : List Item) (h : ∀ i ∈ items, i.Res = []) :
    BrowseMetadata_range io r didlxml items = (none, []) := by
  induction items with
  | nil => rfl
  | cons a items ih =>
    have ha : a.Res = [] := h a (List.mem_cons_self _ _)
    simp only [BrowseMetadata_range, ha]
    exact ih (fun i hi => h i (List.mem_cons_of_mem _ hi))

/-- C16: with a renderer `r` and a server `s` selected, `BrowseMetadata` asks the
server once (with the count 64) and then calls `SetAVTransportURI` of the
renderer exactly once, with the URL of the first resource of the first item
returned that has a resource and with the metadata document returned by the
server, and returns what that call returned; if no item returned has a resource
nothing is called on the renderer and nil is returned.  With no renderer
selected nothing at all is called and nil is returned. -/
theorem BrowseMetadata_plays_first_resource (io : Replies) (cp : MediaControl)
    (container : String) (startingIndex : Nat) :
    (cp.curRend = none → BrowseMetadata io cp container startingIndex = some (none, [])) ∧
    (∀ r s, cp.curRend = some r → cp.curSrv = some s →
      (∀ (pre post : List Item) (item : Item) (res0 : Resource) (rest : List Resource),
        (io.BrowseMetadata s container startingIndex 64).2.1 = pre ++ item :: post →
        (∀ i ∈ pre, i.Res = []) → item.Res = res0 :: rest →
        BrowseMetadata io cp container startingIndex
          = some (io.SetAVTransportURI r 0 res0.URL
                    (io.BrowseMetadata s container startingIndex 64).2.2,
                  [Out.server s (ServerAction.BrowseMetadata container startingIndex 64),
                   Out.renderer r (RendererAction.SetAVTransportURI 0 res0.URL
                     (io.BrowseMetadata s container startingIndex 64).2.2)])) ∧
      ((∀ i ∈ (io.BrowseMetadata s container startingIndex 64).2.1, i.Res = []) →
        BrowseMetadata io cp container startingIndex
          = some (none,
                  [Out.server s (ServerAction.BrowseMetadata container startingIndex 64)]))) := by
  refine ⟨fun h => ?_, fun r s hr hs => ⟨?_, ?_⟩⟩
  · simp only [BrowseMetadata, h]
  · intro pre post item res0 rest hl hpre hitem
    simp only [BrowseMetadata, hr, hs, MaxBrowse, hl,
      BrowseMetadata_range_first io r _ pre post item res0 rest hpre hitem]
  · intro h
    simp only [BrowseMetadata, hr, hs, MaxBrowse, BrowseMetadata_range_none io r _ _ h]

theorem BrowseMetadata_plays_first_resource_witness :
    (demoSelected.curRend = some livingRoom ∧ demoSelected.curSrv = some nas ∧
      (demoLibrary.BrowseMetadata nas "13" 0 64).2.1 = [demoFolderItem] ++ demoSong :: [] ∧
      (∀ i ∈ [demoFolderItem], i.Res = []) ∧
      demoSong.Res = ⟨"http-get:*:audio/mpeg:*", "http://nas/a.mp3", 4000000, 16000, "0:03:20", ""⟩
        :: [⟨"http-get:*:audio/flac:*", "http://nas/a.flac", 30000000, 0, "0:03:20", ""⟩]) ∧
    BrowseMetadata demoLibrary demoSelected "13" 0
      = some (none,
          [Out.server nas (ServerAction.BrowseMetadata "13" 0 64),
           Out.renderer livingRoom
             (RendererAction.SetAVTransportURI 0 "http://nas/a.mp3" "<DIDL-Lite/>")]) :=
  ⟨⟨rfl, rfl, rfl, by decide, rfl⟩,
   ((BrowseMetadata_plays_first_resource demoLibrary demoSelected "13" 0).2 livingRoom nas rfl
      rfl).1 [demoFolderItem] [] demoSong _ _ rfl (by decide) rfl⟩


/-- With no server selected `Browse` returns empty lists and calls nothing, and
with neither a renderer nor a server selected `BrowseMetadata` returns nil and
calls nothing. -/
theorem browse_without_server (io : Replies) (cp : MediaControl) (container : String)
    (startingIndex : Nat) (hs : cp.curSrv = none) :
    Browse io cp container startingIndex = some (([], [], 0, 0), []) ∧
    (cp.curRend = none → BrowseMetadata io cp container startingIndex = some (none, [])) := by
  constructor
  · simp [Browse, ServerExists, hs]
  · intro hr
    simp only [BrowseMetadata, hr]

/-- With a renderer selected and no server selected `BrowseMetadata` calls a
method of the nil `cp.curSrv`: a run-time panic. -/
theorem BrowseMetadata_nil_server (io : Replies) (cp : MediaControl) (r : Renderer)
    (container : String) (startingIndex : Nat) (hr : cp.curRend = some r)
    (hs : cp.curSrv = none) :
    BrowseMetadata io cp container startingIndex = none := by
  simp only [BrowseMetadata, hr, hs]

/-- C17 fails on the code: on the manager `demoNoServer` (the renderer
`livingRoom` selected, no server selected) `BrowseMetadata` faults for every
container, index and behaviour of the devices, where `Browse` on the same
manager returns empty lists without a call. -/
theorem BrowseMetadata_without_server_faults (io : Replies) (container : String)
    (startingIndex : Nat) :
    demoNoServer.curRend = some livingRoom ∧ demoNoServer.curSrv = none ∧
    BrowseMetadata io demoNoServer container startingIndex = none ∧
    Browse io demoNoServer container startingIndex = some (([], [], 0, 0), []) :=
  ⟨rfl, rfl, BrowseMetadata_nil_server io demoNoServer livingRoom container startingIndex rfl rfl,
   (browse_without_server io demoNoServer container startingIndex rfl).1⟩

/-- C18: with a server `s` selected, `Browse(container, startingIndex)` calls
`Browse` of `s` exactly once and nothing else, with ObjectID = container,
StartingIndex = startingIndex and RequestCount = 64; when the server returns a
result without an error its containers and items are returned as they are, when
it returns an error the lists returned are empty.  (A server returning neither a
result nor an error makes the function fault on the nil result.) -/
theorem Browse_single_request (io : Replies) (cp : MediaControl) (s : Server)
    (container : String) (startingIndex : Nat) (hs : cp.curSrv = some s) :
    (∀ res, io.Browse s ⟨container, "BrowseDirectChildren", "@childCount", startingIndex, 64, ""⟩
        = (some res, none) →
      Browse io cp container startingIndex
        = some ((res.Container, res.Item, 0, 0),
            [Out.server s (ServerAction.Browse
              ⟨container, "BrowseDirectChildren", "@childCount", startingIndex, 64, ""⟩)])) ∧
    (∀ res e, io.Browse s ⟨container, "BrowseDirectChildren", "@childCount", startingIndex, 64, ""⟩
        = (res, some e) →
      Browse io cp container startingIndex
        = some (([], [], 0, 0),
            [Out.server s (ServerAction.Browse
              ⟨container, "BrowseDirectChildren", "@childCount", startingIndex, 64, ""⟩)])) ∧
    (io.Browse s ⟨container, "BrowseDirectChildren", "@childCount", startingIndex, 64, ""⟩
        = (none, none) →
      Browse io cp container startingIndex = none) := by
  have h64 : MaxBrowse % 4294967296 = 64 := by decide
  refine ⟨fun res h => ?_, fun res e h => ?_, fun h => ?_⟩ <;>
    simp [Browse, ServerExists, hs, h64, h]

theorem Browse_single_request_witness :
    (demoSelected.curSrv = some nas ∧
      demoLibrary.Browse nas ⟨"1", "BrowseDirectChildren", "@childCount", 0, 64, ""⟩
        = (some ⟨2, 2, 0, [⟨demoFolderItem.toObject, ⟨"", "container"⟩, 3⟩],
            [demoSong.toObject]⟩, none)) ∧
    Browse demoLibrary demoSelected "1" 0
      = some (([⟨demoFolderItem.toObject, ⟨"", "container"⟩, 3⟩], [demoSong.toObject], 0, 0),
          [Out.server nas (ServerAction.Browse
            ⟨"1", "BrowseDirectChildren", "@childCount", 0, 64, ""⟩)]) :=
  ⟨⟨rfl, rfl⟩, (Browse_single_request demoLibrary demoSelected nas "1" 0 rfl).1 _ rfl⟩

/-- C19: with no renderer selected `Action` returns nil for every action kind
(every int), calls no method of a device, logs nothing and leaves the manager
as it was. -/
theorem Action_without_renderer (io : Replies) (cp : MediaControl) (action : Int)
    (h : cp.curRend = none) : Action io cp action = (cp, none, []) := by
  simp only [Action, h]

theorem Action_without_renderer_witness :
    demoControl.curRend = none ∧
    Action demoFailing demoControl ActionStop = (demoControl, none, []) :=
  ⟨rfl, Action_without_renderer demoFailing demoControl ActionStop rfl⟩

/-- For PlayPause, Stop, SeekBackward and SeekForward the error of the renderer
call is logged with `Warningf` after the calls, and returned. -/
theorem Action_logs_failure (io : Replies) (cp : MediaControl) (r : Renderer)
    (hr : cp.curRend = some r) (e : String) :
    (io.PlayPause r 0 "1" = some e →
      Action io cp ActionPlayPause
        = (cp, some e, [Out.renderer r (RendererAction.PlayPause 0 "1"),
            Out.Warningf "action failed #%d: %s" 4 e])) ∧
    (io.Stop r 0 = some e →
      Action io cp ActionStop
        = (cp, some e, [Out.renderer r (RendererAction.Stop 0),
            Out.Warningf "action failed #%d: %s" 5 e])) ∧
    (io.Seek r 0 "ABS_TIME" (TimeToString (wrapInt (io.GetCurrentTime r - cp.seekDelta)))
        = some e →
      Action io cp ActionSeekBackward
        = (cp, some e, [Out.renderer r RendererAction.GetCurrentTime,
            Out.renderer r (RendererAction.Seek 0 "ABS_TIME"
              (TimeToString (wrapInt (io.GetCurrentTime r - cp.seekDelta)))),
            Out.Warningf "action failed #%d: %s" 6 e])) ∧
    (io.Seek r 0 "ABS_TIME" (TimeToString (wrapInt (io.GetCurrentTime r + cp.seekDelta)))
        = some e →
      Action io cp ActionSeekForward
        = (cp, some e, [Out.renderer r RendererAction.GetCurrentTime,
            Out.renderer r (RendererAction.Seek 0 "ABS_TIME"
              (TimeToString (wrapInt (io.GetCurrentTime r + cp.seekDelta)))),
            Out.Warningf "action failed #%d: %s" 7 e])) := by
  refine ⟨fun h => ?_, fun h => ?_, fun h => ?_, fun h => ?_⟩ <;>
    simp [Action, Action_switch, hr, h, ActionToggleMute, ActionVolumeDown, ActionVolumeUp,
      ActionPlayPause, ActionStop, ActionSeekBackward, ActionSeekForward, PlaySpeedNormal,
      SeekModeAbsTime, GetCurrentTime, MediaControl.Renderer]

theorem Action_switch_shadowed (io : Replies) (cp : MediaControl) (r : Renderer) (action : Int)
    (ha : action = ActionToggleMute ∨ action = ActionVolumeDown ∨ action = ActionVolumeUp) :
    (Action_switch io cp r action).1 = none ∧
    ∀ f a e, Out.Warningf f a e ∉ (Action_switch io cp r action).2.2 := by
  rcases ha with h | h | h <;> subst h
  · cases hg : (io.GetMute r 0 ChannelMaster).2 <;>
      simp [Action_switch, ActionToggleMute, hg]
  · cases hg : (io.GetVolume r 0 ChannelMaster).2 <;>
      simp [Action_switch, ActionToggleMute, ActionVolumeDown, hg]
  · cases hg : (io.GetVolume r 0 ChannelMaster).2 <;>
      simp [Action_switch, ActionToggleMute, ActionVolumeDown, ActionVolumeUp, hg]

/-- For ToggleMute, VolumeDown and VolumeUp the error of a renderer call stays
in the variable `e` of the case clause: `Action` returns nil and logs
nothing, whatever the calls returned. -/
theorem Action_shadowed_error (io : Replies) (cp : MediaControl) (r : Renderer) (action : Int)
    (hr : cp.curRend = some r)
    (ha : action = ActionToggleMute ∨ action = ActionVolumeDown ∨ action = ActionVolumeUp) :
    Action io cp action = (cp, none, (Action_switch io cp r action).2.2) ∧
    ∀ f a e, Out.Warningf f a e ∉ (Action io cp action).2.2 := by
  obtain ⟨h1, h3⟩ := Action_switch_shadowed io cp r action ha
  have h2 : Action io cp action = (cp, none, (Action_switch io cp r action).2.2) := by
    simp only [Action, hr, h1]
  refine ⟨h2, fun f a e hm => ?_⟩
  rw [h2] at hm
  exact h3 f a e hm

/-- C20 fails on the code for ToggleMute, VolumeDown and VolumeUp.  On the
manager `demoSelected` with devices every call of which fails, the read of the
mute state or of the volume returns the error "timeout" (it is held by the
variable `e` of the case clause), and `Action` logs nothing and returns nil;
the same failure of PlayPause is logged and returned. -/
theorem Action_volume_error_not_logged :
    (Action_switch demoFailing demoSelected livingRoom ActionVolumeUp).2.1 = some "timeout"
    ∧ Action demoFailing demoSelected ActionVolumeUp
      = (demoSelected, none, [Out.renderer livingRoom (RendererAction.GetVolume 0 "Master")])
    ∧ Action demoFailing demoSelected ActionVolumeDown
      = (demoSelected, none, [Out.renderer livingRoom (RendererAction.GetVolume 0 "Master")])
    ∧ Action demoFailing demoSelected ActionToggleMute
      = (demoSelected, none, [Out.renderer livingRoom (RendererAction.GetMute 0 "Master")])
    ∧ Action demoFailing demoSelected ActionPlayPause
      = (demoSelected, some "timeout",
         [Out.renderer livingRoom (RendererAction.PlayPause 0 "1"),
          Out.Warningf "action failed #%d: %s" 4 "timeout"]) := by
  refine ⟨?_, ?_, ?_, ?_, ?_⟩ <;> decide


/-- What VolumeUp and VolumeDown send when the read of the volume succeeds with
the value `v`: SetVolume of `v` plus or minus the delta, both taken in uint16;
nothing cuts the value to 0..100. -/
theorem Action_volume_sent (io : Replies) (cp : MediaControl) (r : Renderer) (v : Nat)
    (hr : cp.curRend = some r) (hg : io.GetVolume r 0 "Master" = (v, none)) :
    (Action io cp ActionVolumeUp).2.2
      = [Out.renderer r (RendererAction.GetVolume 0 "Master"),
         Out.renderer r (RendererAction.SetVolume 0 "Master"
           ((((v % 65536 : Nat) : Int) + cp.volumeDelta % 65536) % 65536).toNat)] ∧
    (Action io cp ActionVolumeDown).2.2
      = [Out.renderer r (RendererAction.GetVolume 0 "Master"),
         Out.renderer r (RendererAction.SetVolume 0 "Master"
           ((((v % 65536 : Nat) : Int) - cp.volumeDelta % 65536) % 65536).toNat)] := by
  have h1 := (Action_shadowed_error io cp r ActionVolumeUp hr (Or.inr (Or.inr rfl))).1
  have h2 := (Action_shadowed_error io cp r ActionVolumeDown hr (Or.inr (Or.inl rfl))).1
  rw [h1, h2]
  constructor <;>
    simp [Action_switch, ActionToggleMute, ActionVolumeDown, ActionVolumeUp, ChannelMaster, hg]


/-! ## Selection, states, channels, seeking, counts -/

/-- C21: `SetRenderer(udn)` for the renderer `r` stored under `udn` (whose event
slots the manager has wired) makes `r` current, calls the selected slot of every
hook that has one, and then reads volume, mute, transport state and position
from `r`, in that order and all four whatever the earlier reads returned; after
each read that returned no error, and only then, the event of the property
(with the value read) goes to every hook that has the slot of that event. -/
theorem SetRenderer_resync (io : Answers) (udn : String) (cp : MediaControl) (r : Renderer)
    (hg : mapGet cp.renderers udn = some r) (hw : r ∈ cp.wired) :
    SetRenderer io udn cp = some ({ cp with curRend := some r },
      fire (hookTest cp testRendererSelected) (HookCall.OnRendererSelected (some r))
      ++ (Ev.renderer r (RendererCall.GetVolume 0 "Master")
        :: (match io.GetVolume r with
            | some vol => fire (hookTest cp testVolume) (HookCall.OnVolume r (vol % 65536))
            | none => [])
      ++ Ev.renderer r (RendererCall.GetMute 0 "Master")
        :: (match io.GetMute r with
            | some mute => fire (hookTest cp testMute) (HookCall.OnMute r mute)
            | none => [])
      ++ Ev.renderer r (RendererCall.GetTransportInfo 0)
        :: (match io.GetTransportInfo r with
            | some state => fire (hookTest cp testTransportState)
                (HookCall.OnTransportState r (PlaybackStateFromName state))
            | none => [])
      ++ Ev.renderer r (RendererCall.GetPositionInfo 0)
        :: (match io.GetPositionInfo r with
            | some duration => fire (hookTest cp testCurrentTrackDuration)
                (HookCall.OnCurrentTrackDuration r (TimeToSecond duration))
            | none => []))) := by
  have hw1 : r ∈ ({ cp with curRend := some r } : MediaControl).wired := hw
  have hact : ∀ test, hookTestRenderer { cp with curRend := some r } (some r) test
      = hookTest cp test := by
    intro test
    simp [hookTestRenderer, RendererIsActive, hookTest]
  unfold SetRenderer
  simp only [GetRenderer, hg, SetRenderer_forward, raise, hw1, if_true, rendererClosure, hact,
    onRendererSelected, ChannelMaster]
  cases io.GetVolume r <;> cases io.GetMute r <;> cases io.GetTransportInfo r <;>
    cases io.GetPositionInfo r <;> simp [hookTest]

theorem SetRenderer_resync_witness :
    (mapGet demoSelected.renderers "udn-2" = some kitchen ∧ kitchen ∈ demoSelected.wired) ∧
    SetRenderer { talking with GetMute := fun _ => none } "udn-2" demoSelected
      = some ({ demoSelected with curRend := some kitchen },
          [Ev.hook "gui" (HookCall.OnRendererSelected (some kitchen)),
           Ev.renderer kitchen (RendererCall.GetVolume 0 "Master"),
           Ev.hook "gui" (HookCall.OnVolume kitchen 30),
           Ev.renderer kitchen (RendererCall.GetMute 0 "Master"),
           Ev.renderer kitchen (RendererCall.GetTransportInfo 0),
           Ev.renderer kitchen (RendererCall.GetPositionInfo 0)]) :=
  ⟨⟨by decide, by decide⟩,
   (SetRenderer_resync { talking with GetMute := fun _ => none } "udn-2" demoSelected kitchen
      (by decide) (by decide)).trans (by decide)⟩


/-- C25: `PlaybackStateFromName` maps "STOPPED", "PLAYING", "PAUSED_PLAYBACK" and
"TRANSITIONING" to Stopped, Playing, Paused and Transitioning, four states
different from one another and from Unknown, and every other string to
Unknown; the empty string and names in another case are such strings. -/
theorem PlaybackStateFromName_table (name : String) :
    PlaybackStateFromName "STOPPED" = PlaybackStateStopped ∧
    PlaybackStateFromName "PLAYING" = PlaybackStatePlaying ∧
    PlaybackStateFromName "PAUSED_PLAYBACK" = PlaybackStatePaused ∧
    PlaybackStateFromName "TRANSITIONING" = PlaybackStateTransitioning ∧
    [PlaybackStateUnknown, PlaybackStateStopped, PlaybackStatePlaying, PlaybackStatePaused,
      PlaybackStateTransitioning].Nodup ∧
    (name ≠ "STOPPED" → name ≠ "PLAYING" → name ≠ "PAUSED_PLAYBACK" → name ≠ "TRANSITIONING" →
      PlaybackStateFromName name = PlaybackStateUnknown) ∧
    PlaybackStateFromName "" = PlaybackStateUnknown ∧
    PlaybackStateFromName "Playing" = PlaybackStateUnknown ∧
    PlaybackStateFromName "stopped" = PlaybackStateUnknown := by
  refine ⟨by decide, by decide, by decide, by decide, by decide, ?_, by decide, by decide,
    by decide⟩
  intro h1 h2 h3 h4
  simp only [PlaybackStateFromName, h1, h2, h3, h4, if_false]

theorem PlaybackStateFromName_table_witness :
    ("paused_playback" ≠ "STOPPED" ∧ "paused_playback" ≠ "PLAYING"
      ∧ "paused_playback" ≠ "PAUSED_PLAYBACK" ∧ "paused_playback" ≠ "TRANSITIONING") ∧
    PlaybackStateFromName "paused_playback" = PlaybackStateUnknown :=
  ⟨by decide, (PlaybackStateFromName_table "paused_playback").2.2.2.2.2.1 (by decide) (by decide)
    (by decide) (by decide)⟩

/-- C28: whatever channel they are given, `SetVolume` and `SetMute` of the
backend renderer send their action with the argument Channel = "Master";
`GetVolume` and `GetMute` send the channel they are given.  So
`SetRelativeVolume` for a channel reads the volume of that channel and, when
the read succeeds, writes the value cut to 0..100 to "Master". -/
theorem backend_set_channel_master (dev : Backendgupnp.Device) (hist : List Backendgupnp.Sent)
    (rend : Backendgupnp.Renderer) (instanceId : Nat) (channel : String) (vol : Nat)
    (mute : Bool) (adjustment : Int) :
    (rend.SetVolume dev hist instanceId channel vol).2
      = hist ++ [⟨Backendgupnp.Service.renderControl, "SetVolume",
          [("InstanceID", Backendgupnp.Arg.uint 0), ("Channel", Backendgupnp.Arg.str "Master"),
           ("DesiredVolume", Backendgupnp.Arg.uint vol)], []⟩] ∧
    (rend.SetMute dev hist instanceId channel mute).2
      = hist ++ [⟨Backendgupnp.Service.renderControl, "SetMute",
          [("InstanceID", Backendgupnp.Arg.uint 0), ("Channel", Backendgupnp.Arg.str "Master"),
           ("DesiredMute", Backendgupnp.Arg.bool mute)], []⟩] ∧
    (rend.GetVolume dev hist instanceId channel).2
      = hist ++ [⟨Backendgupnp.Service.renderControl, "GetVolume",
          [("InstanceID", Backendgupnp.Arg.uint 0), ("Channel", Backendgupnp.Arg.str channel)],
          ["CurrentVolume"]⟩] ∧
    (rend.GetMute dev hist instanceId channel).2
      = hist ++ [⟨Backendgupnp.Service.renderControl, "GetMute",
          [("InstanceID", Backendgupnp.Arg.uint 0), ("Channel", Backendgupnp.Arg.str channel)],
          ["CurrentMute"]⟩] ∧
    ((dev hist ⟨Backendgupnp.Service.renderControl, "GetVolume",
          [("InstanceID", Backendgupnp.Arg.uint 0), ("Channel", Backendgupnp.Arg.str channel)],
          ["CurrentVolume"]⟩).err = none →
      (rend.SetRelativeVolume dev hist instanceId channel adjustment).2
        = hist ++ [⟨Backendgupnp.Service.renderControl, "GetVolume",
            [("InstanceID", Backendgupnp.Arg.uint 0), ("Channel", Backendgupnp.Arg.str channel)],
            ["CurrentVolume"]⟩,
          ⟨Backendgupnp.Service.renderControl, "SetVolume",
            [("InstanceID", Backendgupnp.Arg.uint 0), ("Channel", Backendgupnp.Arg.str "Master"),
             ("DesiredVolume", Backendgupnp.Arg.uint
               ((ternary.Max (ternary.Min (wrapInt32
                 ((((dev hist ⟨Backendgupnp.Service.renderControl, "GetVolume",
                    [("InstanceID", Backendgupnp.Arg.uint 0),
                     ("Channel", Backendgupnp.Arg.str channel)],
                    ["CurrentVolume"]⟩).uintOut % 65536 : Nat) : Int) + adjustment)) 100) 0
                 % 65536).toNat))], []⟩]) := by
  refine ⟨?_, ?_, ?_, ?_, ?_⟩
  · simp only [Backendgupnp.Renderer.SetVolume, Backendgupnp.SendAction]
  · simp only [Backendgupnp.Renderer.SetMute, Backendgupnp.SendAction]
  · simp only [Backendgupnp.Renderer.GetVolume, Backendgupnp.SendAction]
  · simp only [Backendgupnp.Renderer.GetMute, Backendgupnp.SendAction]
  · intro hn
    simp only [Backendgupnp.Renderer.SetRelativeVolume, Backendgupnp.Renderer.GetVolume,
      Backendgupnp.Renderer.SetVolume, Backendgupnp.SendAction, hn]
    split <;> simp

theorem backend_set_channel_master_witness :
    (Backendgupnp.demoDevice [] ⟨Backendgupnp.Service.renderControl, "GetVolume",
        [("InstanceID", Backendgupnp.Arg.uint 0), ("Channel", Backendgupnp.Arg.str "LF")],
        ["CurrentVolume"]⟩).err = none ∧
    ((Backendgupnp.demoRenderer PlaybackStatePlaying).SetRelativeVolume Backendgupnp.demoDevice []
        0 "LF" (-20)).2
      = [⟨Backendgupnp.Service.renderControl, "GetVolume",
            [("InstanceID", Backendgupnp.Arg.uint 0), ("Channel", Backendgupnp.Arg.str "LF")],
            ["CurrentVolume"]⟩,
          ⟨Backendgupnp.Service.renderControl, "SetVolume",
            [("InstanceID", Backendgupnp.Arg.uint 0), ("Channel", Backendgupnp.Arg.str "Master"),
             ("DesiredVolume", Backendgupnp.Arg.uint 75)], []⟩] :=
  ⟨rfl, ((backend_set_channel_master Backendgupnp.demoDevice []
      (Backendgupnp.demoRenderer PlaybackStatePlaying) 0 "LF" 0 false (-20)).2.2.2.2 rfl).trans
      (by decide)⟩

/-- C30: whenever `Browse` returns, its two count results are 0 and 0, whatever
the server reported in NumberReturned and TotalMatches of its result. -/
theorem Browse_counts_zero (io : Replies) (cp : MediaControl) (container : String)
    (startingIndex : Nat) (r : (List Container × List Object × Nat × Nat) × List Out)
    (h : Browse io cp container startingIndex = some r) :
    r.1.2.2 = (0, 0) := by
  unfold Browse at h
  split at h
  · injection h with h; subst h; rfl
  · split at h
    · cases h
    · simp only [] at h
      split at h
      · injection h with h; subst h; rfl
      · cases h
      · injection h with h; subst h; rfl

theorem Browse_counts_zero_witness :
    (demoLibrary.Browse nas ⟨"1", "BrowseDirectChildren", "@childCount", 0, 64, ""⟩).1.map
        (fun res => (res.NumberReturned, res.TotalMatches)) = some (2, 2) ∧
    Browse demoLibrary demoSelected "1" 0
      = some (([⟨demoFolderItem.toObject, ⟨"", "container"⟩, 3⟩], [demoSong.toObject], 0, 0),
          [Out.server nas (ServerAction.Browse
            ⟨"1", "BrowseDirectChildren", "@childCount", 0, 64, ""⟩)]) ∧
    ((([⟨demoFolderItem.toObject, ⟨"", "container"⟩, 3⟩], [demoSong.toObject], 0, 0),
        [Out.server nas (ServerAction.Browse
          ⟨"1", "BrowseDirectChildren", "@childCount", 0, 64, ""⟩)]) :
      (List Container × List Object × Nat × Nat) × List Out).1.2.2 = (0, 0) :=
  ⟨by decide, by decide, Browse_counts_zero demoLibrary demoSelected "1" 0 _ (by decide)⟩


theorem TimeToString_before_day (n : Int) (h0 : -86400 ≤ n) (h1 : n < 0) :
    TimeToString (wrapInt n) = TimeToString (n + 86400) := by
  have hw0 : wrapInt n = n := by unfold wrapInt; omega
  have hw : wrapInt (n * 1000000000) = n * 1000000000 := by unfold wrapInt; omega
  have hd : n * 1000000000 / 1000000000 = n := by omega
  have hm : n % 86400 = n + 86400 := by omega
  rw [hw0, TimeToString_day (n + 86400) (by omega) (by omega)]
  simp only [TimeToString, hw, hd, hm]

theorem TimeToString_eq_zero (m : Int) (h0 : 0 ≤ m) (h1 : m < 86400) :
    TimeToString m = "00:00:00" ↔ m = 0 := by
  constructor
  · intro h
    have hs : TimeToSecond (TimeToString m) = m := by
      obtain ⟨t, rfl⟩ := Int.eq_ofNat_of_zero_le h0
      rw [TimeToString_day _ h0 h1]
      simp only [Int.toNat_ofNat]
      rw [TimeToSecond_pad2 _ _ _ (by omega) (by omega) (by omega)]
      unfold wrapInt
      omega
    rw [h] at hs
    rw [← hs]
    decide
  · rintro rfl
    decide

/-- C29 as stated fails at one point of its range: with the position 0 and the
seek delta 86400 the backward target is "00:00:00". -/
theorem Action_seek_unclamped_counterexample :
    Action (demoReplies 30 0) (demoSeeking 86400) ActionSeekBackward
      = (demoSeeking 86400, none,
         [Out.renderer livingRoom RendererAction.GetCurrentTime,
          Out.renderer livingRoom (RendererAction.Seek 0 "ABS_TIME" "00:00:00")])
    ∧ ¬ (∀ c d : Int, 0 ≤ c → c < d → d ≤ 86400 →
          TimeToString (wrapInt (c - d)) ≠ "00:00:00") := by
  have ht : TimeToString (wrapInt (-86400)) = "00:00:00" := by
    rw [TimeToString_before_day (-86400) (by decide) (by decide)]
    decide
  refine ⟨?_, fun h => h 0 86400 (by decide) (by decide) (by decide) ht⟩
  simp [Action, Action_switch, ActionToggleMute, ActionVolumeDown, ActionVolumeUp,
    ActionPlayPause, ActionStop, ActionSeekBackward, SeekModeAbsTime, GetCurrentTime,
    MediaControl.Renderer, demoSeeking, demoSelected, demoReplies, ht]

/-- C29, amended: with the renderer `r` selected, `Action(SeekBackward)` reads
the position `c` of `r` and sends Seek with the unit ABS_TIME and the target
`TimeToString(c - d)`, `d` being the seek delta, and `Action(SeekForward)` does
the same with `c + d` (the error of Seek is logged and returned).  Nothing cuts
the target: for `0 ≤ c < d ≤ 86400` the backward target is the rendering of
`c - d + 86400`, which is "00:00:00" only for `c = 0` and `d = 86400`. -/
theorem Action_seek_unclamped (io : Replies) (cp : MediaControl) (r : Renderer)
    (hr : cp.curRend = some r) :
    Action io cp ActionSeekBackward
      = (cp, io.Seek r 0 "ABS_TIME" (TimeToString (wrapInt (io.GetCurrentTime r - cp.seekDelta))),
         [Out.renderer r RendererAction.GetCurrentTime,
          Out.renderer r (RendererAction.Seek 0 "ABS_TIME"
            (TimeToString (wrapInt (io.GetCurrentTime r - cp.seekDelta))))]
         ++ (match io.Seek r 0 "ABS_TIME"
              (TimeToString (wrapInt (io.GetCurrentTime r - cp.seekDelta))) with
            | some e => [Out.Warningf "action failed #%d: %s" 6 e]
            | none => [])) ∧
    Action io cp ActionSeekForward
      = (cp, io.Seek r 0 "ABS_TIME" (TimeToString (wrapInt (io.GetCurrentTime r + cp.seekDelta))),
         [Out.renderer r RendererAction.GetCurrentTime,
          Out.renderer r (RendererAction.Seek 0 "ABS_TIME"
            (TimeToString (wrapInt (io.GetCurrentTime r + cp.seekDelta))))]
         ++ (match io.Seek r 0 "ABS_TIME"
              (TimeToString (wrapInt (io.GetCurrentTime r + cp.seekDelta))) with
            | some e => [Out.Warningf "action failed #%d: %s" 7 e]
            | none => [])) ∧
    (0 ≤ io.GetCurrentTime r → io.GetCurrentTime r < cp.seekDelta → cp.seekDelta ≤ 86400 →
      TimeToString (wrapInt (io.GetCurrentTime r - cp.seekDelta))
        = TimeToString (io.GetCurrentTime r - cp.seekDelta + 86400) ∧
      (TimeToString (wrapInt (io.GetCurrentTime r - cp.seekDelta)) = "00:00:00"
        ↔ io.GetCurrentTime r = 0 ∧ cp.seekDelta = 86400)) := by
  refine ⟨?_, ?_, ?_⟩
  · cases hs : io.Seek r 0 "ABS_TIME"
        (TimeToString (wrapInt (io.GetCurrentTime r - cp.seekDelta))) <;>
      simp [Action, Action_switch, hr, hs, ActionToggleMute, ActionVolumeDown, ActionVolumeUp,
        ActionPlayPause, ActionStop, ActionSeekBackward, SeekModeAbsTime, GetCurrentTime,
        MediaControl.Renderer]
  · cases hs : io.Seek r 0 "ABS_TIME"
        (TimeToString (wrapInt (io.GetCurrentTime r + cp.seekDelta))) <;>
      simp [Action, Action_switch, hr, hs, ActionToggleMute, ActionVolumeDown, ActionVolumeUp,
        ActionPlayPause, ActionStop, ActionSeekBackward, ActionSeekForward, SeekModeAbsTime,
        GetCurrentTime, MediaControl.Renderer]
  · intro h0 h1 h2
    have e := TimeToString_before_day (io.GetCurrentTime r - cp.seekDelta) (by omega) (by omega)
    refine ⟨e, ?_⟩
    rw [e, TimeToString_eq_zero _ (by omega) (by omega)]
    omega

theorem Action_seek_unclamped_witness :
    ((demoSeeking 10).curRend = some livingRoom ∧
      (0 : Int) ≤ (demoReplies 30 5).GetCurrentTime livingRoom ∧
      (demoReplies 30 5).GetCurrentTime livingRoom < (demoSeeking 10).seekDelta ∧
      (demoSeeking 10).seekDelta ≤ 86400) ∧
    TimeToString (5 - 10 + 86400) = "23:59:55" ∧
    TimeToString (wrapInt ((demoReplies 30 5).GetCurrentTime livingRoom
        - (demoSeeking 10).seekDelta))
      = TimeToString ((demoReplies 30 5).GetCurrentTime livingRoom
        - (demoSeeking 10).seekDelta + 86400) :=
  ⟨⟨rfl, by decide, by decide, by decide⟩, by decide,
   ((Action_seek_unclamped (demoReplies 30 5) (demoSeeking 10) livingRoom rfl).2.2
      (by decide) (by decide) (by decide)).1⟩


/-! ## Messages of a renderer -/

/-- When the library finds nothing under `Event.InstanceID` or reports an error
(a payload that is not well-formed, or without that path), `unmarshalMessage`
returns the nil map and `onMsgAVT` and `onMsgRCS` leave the renderer as it
is. -/
theorem unmarshalMessage_undecodable (mxj : Backendgupnp.Mxj) (dev : Backendgupnp.Device)
    (unmarshalDidl : String → Item) (x : String) (w : Backendgupnp.Live)
    (h : (mxj x).2 ≠ none ∨ (mxj x).1 = []) :
    Backendgupnp.unmarshalMessage mxj x = some none ∧
    w.onMsgAVT mxj dev unmarshalDidl x = some w ∧ w.onMsgRCS mxj x = some w := by
  have h1 : Backendgupnp.unmarshalMessage mxj x = some none := by
    unfold Backendgupnp.unmarshalMessage
    rcases h with h | h
    · cases h2 : (mxj x).2 with
      | none => exact absurd h2 h
      | some e => rfl
    · rw [h]
      cases (mxj x).2 <;> rfl
  refine ⟨h1, ?_, ?_⟩
  · simp only [Backendgupnp.Live.onMsgAVT, h1]
  · simp only [Backendgupnp.Live.onMsgRCS, h1]

/-- C22 fails on the code.  For a payload that reports the volume of two
channels the decoder meets a slice where it asserts a map, and for a property
with character data a string: `unmarshalMessage` faults, and `onMsgRCS` and
`onMsgAVT` with it.  For a property with an attribute other than `val` the
decoder returns the name with the value nil, and `onMsgAVT` faults on the
assertion that the value is a string. -/
theorem event_decoder_faults (dev : Backendgupnp.Device) (unmarshalDidl : String → Item)
    (w : Backendgupnp.Live) :
    Backendgupnp.unmarshalMessage Backendgupnp.demoMxj Backendgupnp.payloadTwoVolumes = none ∧
    w.onMsgRCS Backendgupnp.demoMxj Backendgupnp.payloadTwoVolumes = none ∧
    Backendgupnp.unmarshalMessage Backendgupnp.demoMxj Backendgupnp.payloadText = none ∧
    w.onMsgAVT Backendgupnp.demoMxj dev unmarshalDidl Backendgupnp.payloadText = none ∧
    Backendgupnp.unmarshalMessage Backendgupnp.demoMxj Backendgupnp.payloadNoVal
      = some (some [("TransportState", Backendgupnp.Value.null)]) ∧
    w.onMsgAVT Backendgupnp.demoMxj dev unmarshalDidl Backendgupnp.payloadNoVal = none := by
  have h1 : Backendgupnp.unmarshalMessage Backendgupnp.demoMxj Backendgupnp.payloadTwoVolumes
      = none := by rfl
  have h2 : Backendgupnp.unmarshalMessage Backendgupnp.demoMxj Backendgupnp.payloadText
      = none := by rfl
  have h3 : Backendgupnp.unmarshalMessage Backendgupnp.demoMxj Backendgupnp.payloadNoVal
      = some (some [("TransportState", Backendgupnp.Value.null)]) := by rfl
  refine ⟨h1, ?_, h2, ?_, h3, ?_⟩
  · simp only [Backendgupnp.Live.onMsgRCS, h1]
  · simp only [Backendgupnp.Live.onMsgAVT, h2]
  · simp only [Backendgupnp.Live.onMsgAVT, h3, Backendgupnp.Live.onMsgAVT_range, if_true]


theorem unmarshalMessage_range_keeps (m : List (String × Backendgupnp.Value))
    (acc values : GoMap Backendgupnp.Value)
    (h : Backendgupnp.unmarshalMessage_range m acc = some values) :
    (∀ k, (mapGet acc k).isSome → (mapGet values k).isSome) ∧
    (∀ k v, (k, v) ∈ m → k ≠ "-val" → (mapGet values k).isSome) := by
  induction m generalizing acc with
  | nil =>
    simp only [Backendgupnp.unmarshalMessage_range, Option.some.injEq] at h
    subst h
    exact ⟨fun _ hk => hk, fun _ _ hm => by cases hm⟩
  | cons e rest ih =>
    obtain ⟨k0, v0⟩ := e
    unfold Backendgupnp.unmarshalMessage_range at h
    by_cases hk0 : k0 = "-val"
    · rw [if_neg (by simpa using hk0)] at h
      obtain ⟨i1, i2⟩ := ih acc h
      refine ⟨i1, fun k v hm hne => ?_⟩
      rcases List.mem_cons.1 hm with heq | hm
      · injection heq with e1 e2
        exact absurd (e1.trans hk0) hne
      · exact i2 k v hm hne
    · rw [if_pos hk0] at h
      cases v0 with
      | map attrs =>
        simp only [] at h
        obtain ⟨i1, i2⟩ := ih _ h
        have hset : (mapGet (mapSet acc k0
            ((mapGet attrs "-val").getD Backendgupnp.Value.null)) k0).isSome := by
          rw [mapGet_mapSet_self]; rfl
        refine ⟨fun k hk => i1 k ?_, fun k v hm hne => ?_⟩
        · by_cases hkk : k = k0
          · subst hkk; exact hset
          · rw [mapGet_mapSet_ne _ _ hkk]; exact hk
        · rcases List.mem_cons.1 hm with heq | hm
          · injection heq with e1 e2
            subst e1
            exact i1 _ hset
          · exact i2 k v hm hne
      | null => simp at h
      | str s => simp at h
      | list l => simp at h

/-- C26 fails on the code: the decoder keeps a property that has no attribute
`val`.  For the payload `payloadNoVal` the map returned has the key
"TransportState", with the value nil; a property with the attribute is mapped
to its value. -/
theorem unmarshalMessage_keeps_valueless :
    Backendgupnp.unmarshalMessage Backendgupnp.demoMxj Backendgupnp.payloadNoVal
      = some (some [("TransportState", Backendgupnp.Value.null)]) ∧
    (mapGet [("TransportState", Backendgupnp.Value.null)] "TransportState").isSome = true ∧
    Backendgupnp.unmarshalMessage Backendgupnp.demoMxj Backendgupnp.payloadPlaying
      = some (some [("TransportState", Backendgupnp.Value.str "PLAYING")]) :=
  ⟨rfl, rfl, rfl⟩

/-! ## The clock -/

theorem running_append_stop (l : List Backendgupnp.TickerOp) (t : Nat) :
    Backendgupnp.running (l ++ [Backendgupnp.TickerOp.Stop t])
      = (Backendgupnp.running l).filter (fun u => decide (u ≠ t)) := by
  induction l with
  | nil => rfl
  | cons op rest ih =>
    cases op with
    | Stop u => simpa [Backendgupnp.running] using ih
    | NewTicker u =>
      simp only [List.cons_append, Backendgupnp.running, List.mem_append, List.mem_singleton,
        Backendgupnp.TickerOp.Stop.injEq]
      by_cases h1 : Backendgupnp.TickerOp.Stop u ∈ rest
      · simp [h1, ih]
      · by_cases h2 : u = t
        · subst h2
          simp [h1, ih]
        · simp [h1, h2, ih]

theorem running_append_new (l : List Backendgupnp.TickerOp) (n : Nat) :
    Backendgupnp.running (l ++ [Backendgupnp.TickerOp.NewTicker n])
      = Backendgupnp.running l ++ [n] := by
  induction l with
  | nil => simp [Backendgupnp.running]
  | cons op rest ih =>
    cases op with
    | Stop u => simpa [Backendgupnp.running] using ih
    | NewTicker u =>
      simp only [List.cons_append, Backendgupnp.running, List.mem_append, List.mem_singleton]
      by_cases h1 : Backendgupnp.TickerOp.Stop u ∈ rest
      · simp [h1, ih]
      · simp [h1, ih]

theorem poll_tickers (dev : Backendgupnp.Device) (w : Backendgupnp.Live) :
    ((w.GetCurrentTime dev).DisplayCurrentTime).tickers = w.tickers ∧
    ((w.GetCurrentTime dev).DisplayCurrentTime).tick = w.tick := by
  unfold Backendgupnp.Live.GetCurrentTime Backendgupnp.Live.DisplayCurrentTime
  simp only []
  split <;> exact ⟨rfl, rfl⟩

/-- The tickers `Clock` leaves running, for every ticker history and every
ticker given: those that were running, without the one given, and the new one
when the state is Playing. -/
theorem Clock_running (dev : Backendgupnp.Device) (w : Backendgupnp.Live) (tick : Option Nat)
    (state : PlaybackState) :
    (Clock dev w tick state).2.tickers
      = w.tickers
        ++ (tick.map Backendgupnp.TickerOp.Stop).toList
        ++ (if state = PlaybackStatePlaying then
              [Backendgupnp.TickerOp.NewTicker (w.tickers.length + (if tick.isSome then 1 else 0))]
            else []) ∧
    (Clock dev w tick state).1
      = (if state = PlaybackStatePlaying then
          some (w.tickers.length + (if tick.isSome then 1 else 0))
         else tick) ∧
    Backendgupnp.running (Clock dev w tick state).2.tickers
      = (Backendgupnp.running w.tickers).filter (fun u => decide (some u ≠ tick))
        ++ (if state = PlaybackStatePlaying then
              [w.tickers.length + (if tick.isSome then 1 else 0)]
            else []) := by
  obtain ⟨hp, _⟩ := poll_tickers dev w
  have h1 : (Clock dev w tick state).2.tickers
      = w.tickers
        ++ (tick.map Backendgupnp.TickerOp.Stop).toList
        ++ (if state = PlaybackStatePlaying then
              [Backendgupnp.TickerOp.NewTicker (w.tickers.length + (if tick.isSome then 1 else 0))]
            else []) := by
    cases tick <;> cases state <;> simp [Clock, hp]
  have h2 : (Clock dev w tick state).1
      = (if state = PlaybackStatePlaying then
          some (w.tickers.length + (if tick.isSome then 1 else 0))
         else tick) := by
    cases tick <;> cases state <;> simp [Clock, hp]
  refine ⟨h1, h2, ?_⟩
  rw [h1]
  cases tick with
  | none =>
    by_cases hs : state = PlaybackStatePlaying
    · rw [if_pos hs, if_pos hs]
      simp [running_append_new]
    · rw [if_neg hs, if_neg hs]
      simp
  | some t =>
    have hf : (fun u => decide (some u ≠ some t)) = (fun u => decide (u ≠ t)) := by
      funext u
      simp
    rw [hf]
    by_cases hs : state = PlaybackStatePlaying
    · rw [if_pos hs, if_pos hs]
      simp only [Option.map_some', Option.toList_some]
      rw [running_append_new, running_append_stop]
    · rw [if_neg hs, if_neg hs, List.append_nil, List.append_nil]
      simp only [Option.map_some', Option.toList_some]
      rw [running_append_stop]

theorem filter_given_ticker (l : List Nat) (tick : Option Nat)
    (h : ∀ t ∈ l, tick = some t) : l.filter (fun u => decide (some u ≠ tick)) = [] := by
  rw [List.filter_eq_nil_iff]
  intro u hu
  simp [h u hu]

/-- The loop of `onMsgAVT` keeps the renderer's only running ticker in
`rend.tick`: it calls `Clock` with `rend.tick` and stores what `Clock`
returns. -/
theorem onMsgAVT_range_TickOk (dev : Backendgupnp.Device) (unmarshalDidl : String → Item)
    (values : List (String × Backendgupnp.Value)) (w w' : Backendgupnp.Live)
    (hok : w.TickOk)
    (h : Backendgupnp.Live.onMsgAVT_range dev unmarshalDidl values w = some w') :
    w'.TickOk := by
  induction values generalizing w with
  | nil =>
    simp only [Backendgupnp.Live.onMsgAVT_range, Option.some.injEq] at h
    subst h
    exact hok
  | cons e rest ih =>
    obtain ⟨k, v⟩ := e
    unfold Backendgupnp.Live.onMsgAVT_range at h
    split at h
    · cases v with
      | str s =>
        simp only [] at h
        refine ih _ ?_ h
        intro t ht
        simp only [] at ht ⊢
        obtain ⟨_, c2, c3⟩ := Clock_running dev
          { w with
            rend := { w.rend with state := PlaybackStateFromName s }
            raised := w.raised
              ++ [Backendgupnp.Raised.OnTransportState (PlaybackStateFromName s)] }
          w.tick (PlaybackStateFromName s)
        rw [c3, filter_given_ticker _ _ hok] at ht
        rw [c2]
        by_cases hs : PlaybackStateFromName s = PlaybackStatePlaying
        · rw [if_pos hs] at ht ⊢
          simp only [List.nil_append, List.mem_singleton] at ht
          rw [ht]
        · rw [if_neg hs] at ht
          cases ht
      | null => simp at h
      | map m => simp at h
      | list l => simp at h
    · split at h
      · cases v with
        | str s =>
          refine ih _ ?_ h
          exact hok
        | null => simp at h
        | map m => simp at h
        | list l => simp at h
      · split at h
        · cases v with
          | str s =>
            refine ih _ ?_ h
            exact hok
          | null => simp at h
          | map m => simp at h
          | list l => simp at h
        · exact ih _ hok h

/-- C27 as stated fails: `Clock` called with a nil ticker for a renderer whose
ticker 0 is running leaves that ticker running when the state is Paused, and
two tickers running when the state is Playing. -/
theorem Clock_ticker_counterexample :
    Backendgupnp.running Backendgupnp.demoPlaying.tickers = [0] ∧
    Backendgupnp.running
        (Clock Backendgupnp.demoDevice Backendgupnp.demoPlaying none PlaybackStatePaused).2.tickers
      = [0] ∧
    Backendgupnp.running
        (Clock Backendgupnp.demoDevice Backendgupnp.demoPlaying none PlaybackStatePlaying).2.tickers
      = [0, 1] := by
  refine ⟨?_, ?_, ?_⟩ <;> decide

/-- C27, amended: `Clock(rend, tick, state)` first stops the ticker it is given,
when that is not nil, and then creates exactly one ticker when the state is
Playing, which it returns, and none for every other state, for which it returns
the ticker it was given.  When no ticker of the renderer other than the one
given is running, afterwards exactly the new ticker is running when the state
is Playing, and none is otherwise.  `onMsgAVT`, which calls `Clock` with
`rend.tick` and stores the result there, keeps this condition: when it holds
before a message and the message is processed, it holds afterwards. -/
theorem Clock_ticker (dev : Backendgupnp.Device) (w : Backendgupnp.Live) (tick : Option Nat)
    (state : PlaybackState) :
    (Clock dev w tick state).2.tickers
      = w.tickers
        ++ (tick.map Backendgupnp.TickerOp.Stop).toList
        ++ (if state = PlaybackStatePlaying then
              [Backendgupnp.TickerOp.NewTicker (w.tickers.length + (if tick.isSome then 1 else 0))]
            else []) ∧
    (Clock dev w tick state).1
      = (if state = PlaybackStatePlaying then
          some (w.tickers.length + (if tick.isSome then 1 else 0))
         else tick) ∧
    ((∀ t ∈ Backendgupnp.running w.tickers, tick = some t) →
      Backendgupnp.running (Clock dev w tick state).2.tickers
        = (if state = PlaybackStatePlaying then
            [w.tickers.length + (if tick.isSome then 1 else 0)]
           else [])) ∧
    (∀ (mxj : Backendgupnp.Mxj) (unmarshalDidl : String → Item) (str : String)
        (w' : Backendgupnp.Live),
      w.TickOk → w.onMsgAVT mxj dev unmarshalDidl str = some w' → w'.TickOk) := by
  obtain ⟨h1, h2, h3⟩ := Clock_running dev w tick state
  refine ⟨h1, h2, fun hrun => ?_, fun mxj unmarshalDidl str w' hok h => ?_⟩
  · rw [h3, filter_given_ticker _ _ hrun, List.nil_append]
  · unfold Backendgupnp.Live.onMsgAVT at h
    split at h
    · cases h
    · injection h with h
      subst h
      exact hok
    · exact onMsgAVT_range_TickOk dev unmarshalDidl _ w w' hok h

theorem Clock_ticker_witness :
    ((∀ t ∈ Backendgupnp.running Backendgupnp.demoPlaying.tickers,
        Backendgupnp.demoPlaying.tick = some t) ∧
      Backendgupnp.demoLive.TickOk ∧
      Backendgupnp.demoLive.onMsgAVT Backendgupnp.demoMxj Backendgupnp.demoDevice
        (fun _ => demoSong) Backendgupnp.payloadPlaying = some Backendgupnp.demoPlaying) ∧
    Backendgupnp.running (Clock Backendgupnp.demoDevice Backendgupnp.demoPlaying
        Backendgupnp.demoPlaying.tick PlaybackStatePaused).2.tickers = [] ∧
    Backendgupnp.running (Clock Backendgupnp.demoDevice Backendgupnp.demoPlaying
        Backendgupnp.demoPlaying.tick PlaybackStatePlaying).2.tickers = [2] ∧
    Backendgupnp.demoPlaying.TickOk :=
  ⟨⟨by decide, fun t ht => (by cases ht), by decide⟩,
   ((Clock_ticker Backendgupnp.demoDevice Backendgupnp.demoPlaying Backendgupnp.demoPlaying.tick
      PlaybackStatePaused).2.2.1 (by decide)).trans (by decide),
   ((Clock_ticker Backendgupnp.demoDevice Backendgupnp.demoPlaying Backendgupnp.demoPlaying.tick
      PlaybackStatePlaying).2.2.1 (by decide)).trans (by decide),
   (Clock_ticker Backendgupnp.demoDevice Backendgupnp.demoLive none PlaybackStateUnknown).2.2.2
      Backendgupnp.demoMxj (fun _ => demoSong) Backendgupnp.payloadPlaying
      Backendgupnp.demoPlaying (fun t ht => (by cases ht)) (by decide)⟩

/-- C24 as stated fails.  The renderer `livingRoom` is in the index and
selected; the payload `payloadPlaying` makes its backend object start the
ticker 0.  The device is then lost: the manager unselects it and deletes it
from the index, and the ticker 0 is still running afterwards; at its next tick
the goroutine sends GetPositionInfo to the lost device again. -/
theorem lost_path_ticker_counterexample :
    Backendgupnp.demoLive.onMsgAVT Backendgupnp.demoMxj Backendgupnp.demoDevice
        (fun _ => demoSong) Backendgupnp.payloadPlaying = some Backendgupnp.demoPlaying ∧
    Backendgupnp.onDmrProxyLost silent 9 11 demoSelected Backendgupnp.demoPlaying
      = some ({ demoSelected with curRend := none, renderers := [("udn-2", kitchen)] },
          Backendgupnp.demoPlaying,
          [Ev.hook "gui" (HookCall.OnRendererSelected none),
           Ev.hook "gui" (HookCall.OnRendererLost livingRoom)]) ∧
    Backendgupnp.running Backendgupnp.demoPlaying.tickers = [0] ∧
    (Backendgupnp.demoPlaying.onTick Backendgupnp.demoDevice 0).sent
      = Backendgupnp.demoPlaying.sent
        ++ [⟨Backendgupnp.Service.avTransport, "GetPositionInfo",
             [("InstanceID", Backendgupnp.Arg.uint 0)], ["AbsTime"]⟩] := by
  refine ⟨?_, ?_, ?_, ?_⟩ <;> decide

/-- C24, amended: the path of a lost device does not stop a ticker.  On a
manager whose indexed renderers are wired and stored under their UDN, for every
proxy reported lost and every backend renderer object `w`, the path returns;
afterwards no renderer left in the index holds the lost proxy, and the object
`w` is as it was, `rend.tick` and the ticker operations included: the tickers
running for it after the path are those that were running before it. -/
theorem lost_path_keeps_ticker (io : Answers) (ptr proxy : Nat) (cp : MediaControl)
    (w : Backendgupnp.Live) (hw : Wired cp) (hkey : KeyedByUDN Renderer.udn cp.renderers) :
    ∃ cp' w' t, Backendgupnp.onDmrProxyLost io ptr proxy cp w = some (cp', w', t)
      ∧ (∀ k r, mapGet cp'.renderers k = some r → r.proxy ≠ proxy)
      ∧ w' = w
      ∧ Backendgupnp.running w'.tickers = Backendgupnp.running w.tickers := by
  obtain ⟨c, m, t, h, _, h3, _, h5⟩ := onMediaRendererLost_range_general Renderer.CompareProxy io
    { ptr := ptr, udn := "", name := "", proxy := proxy } (fun _ _ => True)
    (fun _ _ _ _ _ _ _ _ => trivial) cp.renderers cp hw hkey trivial
  refine ⟨{ cp with curRend := c, renderers := m }, w, t, ?_, ?_, rfl, rfl⟩
  · unfold Backendgupnp.onDmrProxyLost onMediaRendererLost Renderers
    rw [h]
    rfl
  · intro k r hr hp
    have hr0 := h3 k r hr
    have hf := h5 (k, r) (mem_of_mapGet hr0) r hr
    simp [Renderer.CompareProxy, hp] at hf

theorem lost_path_keeps_ticker_witness :
    (Wired demoSelected ∧ KeyedByUDN Renderer.udn demoSelected.renderers) ∧
    ∃ cp' w' t, Backendgupnp.onDmrProxyLost silent 9 11 demoSelected Backendgupnp.demoPlaying
        = some (cp', w', t)
      ∧ (∀ k r, mapGet cp'.renderers k = some r → r.proxy ≠ 11)
      ∧ w' = Backendgupnp.demoPlaying
      ∧ Backendgupnp.running w'.tickers
          = Backendgupnp.running Backendgupnp.demoPlaying.tickers := by
  have hmem : ∀ k r, (k, r) ∈ demoSelected.renderers →
      (k = "udn-1" ∧ r = livingRoom) ∨ (k = "udn-2" ∧ r = kitchen) := by
    intro k r h
    have h1 : (k, r) ∈ [("udn-1", livingRoom), ("udn-2", kitchen)] := h
    simpa using h1
  have hw : Wired demoSelected := by
    intro k r h
    rcases hmem k r h with ⟨_, rfl⟩ | ⟨_, rfl⟩ <;> decide
  have hk : KeyedByUDN Renderer.udn demoSelected.renderers := by
    intro k r h
    rcases hmem k r h with ⟨rfl, rfl⟩ | ⟨rfl, rfl⟩ <;> rfl
  exact ⟨⟨hw, hk⟩,
    lost_path_keeps_ticker silent 9 11 demoSelected Backendgupnp.demoPlaying hw hk⟩

/-- C23 fails on the code: `Server.Browse` of the backend returns a result and
a nil error whatever the device answered to the action Browse, an error
included (the value of `SendAction` is dropped).  For the content directory
`demoDownDir`, which answers with the error "timeout", it returns an empty
result and nil. -/
theorem Server_Browse_drops_error (cd : Backendgupnp.ContentDir)
    (unmarshal : String → List Container × List Item) (hist : List Backendgupnp.Sent)
    (s : Backendgupnp.Server) (req : BrowseRequest) :
    (s.Browse cd unmarshal hist req).1.2 = none ∧
    (s.Browse cd unmarshal hist req).1.1.isSome = true ∧
    (Backendgupnp.demoDownDir [] ⟨Backendgupnp.Service.contentDir, "Browse",
        [("InstanceID", Backendgupnp.Arg.uint 0),
         ("ObjectID", Backendgupnp.Arg.str "0"),
         ("BrowseFlag", Backendgupnp.Arg.str "BrowseDirectChildren"),
         ("Filter", Backendgupnp.Arg.str "@childCount"),
         ("StartingIndex", Backendgupnp.Arg.uint 0),
         ("RequestedCount", Backendgupnp.Arg.uint 64),
         ("SortCriteria", Backendgupnp.Arg.str "")],
        ["Result", "NumberReturned", "TotalMatches"]⟩).err = some "timeout" ∧
    Backendgupnp.demoServer.Browse Backendgupnp.demoDownDir (fun _ => ([], [])) []
        ⟨"0", "BrowseDirectChildren", "@childCount", 0, 64, ""⟩
      = ((some ⟨0, 0, 0, [], []⟩, none),
         [⟨Backendgupnp.Service.contentDir, "Browse",
           [("InstanceID", Backendgupnp.Arg.uint 0),
            ("ObjectID", Backendgupnp.Arg.str "0"),
            ("BrowseFlag", Backendgupnp.Arg.str "BrowseDirectChildren"),
            ("Filter", Backendgupnp.Arg.str "@childCount"),
            ("StartingIndex", Backendgupnp.Arg.uint 0),
            ("RequestedCount", Backendgupnp.Arg.uint 64),
            ("SortCriteria", Backendgupnp.Arg.str "")],
           ["Result", "NumberReturned", "TotalMatches"]⟩]) := by
  refine ⟨?_, ?_, rfl, by decide⟩ <;> simp [Backendgupnp.Server.Browse]

end Gupnp
